import Mathlib

/-!
A verification development for a reader/writer of the Aseprite sprite file
format (`aseprite.py`).  The byte-level functions `read_aseprite_file` and
`write_aseprite_file` below are shallow embeddings of the corresponding
Python functions: bytes are `List Nat`, `struct.unpack`/`struct.pack_into`
become exact-length pattern matches with explicit range checks, Python
slices `data[a:b]` become clamped `drop`/`take`, Python `bytearray` slice
assignment keeps its length-changing splice semantics, and `zlib` is an
abstract `compress`/`decompress` parameter pair.  Exceptions are modelled by
`Except Err`.
-/

namespace Aseprite

/-- Error kinds corresponding to the Python exceptions the two functions can
raise: `KeyError` (missing dict key), `struct.error` (short buffer or value
out of range), `AssertionError`, `UnicodeDecodeError`, `UnicodeEncodeError`
and `zlib.error`. -/
inductive Err where
  | keyError
  | structError
  | assertError
  | unicodeError
  | unicodeEncodeError
  | zlibError
deriving DecidableEq, Repr

/-! ## Byte-level primitives -/

/-- Little-endian 16-bit read: `struct.unpack('H', [b0, b1])`. -/
def u16 (b0 b1 : Nat) : Nat := b0 + 256 * b1

/-- Little-endian 32-bit read: `struct.unpack('I', [b0, b1, b2, b3])`. -/
def u32 (b0 b1 b2 b3 : Nat) : Nat :=
  b0 + 256 * b1 + 65536 * b2 + 16777216 * b3

/-- Little-endian signed 16-bit read: `struct.unpack('h', ...)`
(two's complement). -/
def s16 (b0 b1 : Nat) : Int :=
  let v := u16 b0 b1
  if v < 32768 then (v : Int) else (v : Int) - 65536

/-- Little-endian 16-bit byte encoding of a value. -/
def le16 (v : Nat) : List Nat := [v % 256, v / 256 % 256]

/-- Little-endian 32-bit byte encoding of a value. -/
def le32 (v : Nat) : List Nat :=
  [v % 256, v / 256 % 256, v / 65536 % 256, v / 16777216 % 256]

/-- Python slice `data[a:b]` for `0 ≤ a, b`: clamped, empty when `b ≤ a`. -/
def pyslice (data : List Nat) (a b : Nat) : List Nat :=
  (data.drop a).take (b - a)

/-! ## UTF-8 (Python `str.encode('utf-8')` / `bytes.decode('utf-8')`)

Python strings are sequences of code points; we model them as `List Nat`.
Encoding rejects surrogates (`UnicodeEncodeError`); decoding is strict
(rejects overlong forms, surrogates, values above `0x10FFFF`, truncated
sequences). -/

/-- UTF-8 encoding of one code point; `none` for surrogates or out-of-range
values (Python raises `UnicodeEncodeError`). -/
def utf8EncCp (cp : Nat) : Option (List Nat) :=
  if cp < 0x80 then some [cp]
  else if cp < 0x800 then some [0xC0 + cp / 64, 0x80 + cp % 64]
  else if cp < 0x10000 then
    if 0xD800 ≤ cp ∧ cp < 0xE000 then none
    else some [0xE0 + cp / 4096, 0x80 + cp / 64 % 64, 0x80 + cp % 64]
  else if cp < 0x110000 then
    some [0xF0 + cp / 262144, 0x80 + cp / 4096 % 64, 0x80 + cp / 64 % 64,
          0x80 + cp % 64]
  else none

/-- UTF-8 encoding of a code-point sequence. -/
def utf8Enc : List Nat → Option (List Nat)
  | [] => some []
  | c :: r => do
    let b ← utf8EncCp c
    let t ← utf8Enc r
    some (b ++ t)

/-- One step of strict UTF-8 decoding: the code point encoded at `b :: rest`
and the remaining bytes, or `none` for an invalid sequence. -/
def utf8DecStep (b : Nat) (rest : List Nat) : Option (Nat × List Nat) :=
  if b < 0x80 then some (b, rest)
  else if b < 0xC2 then none
  else if b < 0xE0 then
    match rest with
    | c1 :: r =>
      if 0x80 ≤ c1 ∧ c1 < 0xC0 then some ((b - 0xC0) * 64 + (c1 - 0x80), r)
      else none
    | [] => none
  else if b < 0xF0 then
    match rest with
    | c1 :: c2 :: r =>
      if (if b = 0xE0 then 0xA0 ≤ c1 ∧ c1 < 0xC0
          else if b = 0xED then 0x80 ≤ c1 ∧ c1 < 0xA0
          else 0x80 ≤ c1 ∧ c1 < 0xC0) ∧ (0x80 ≤ c2 ∧ c2 < 0xC0) then
        some ((b - 0xE0) * 4096 + (c1 - 0x80) * 64 + (c2 - 0x80), r)
      else none
    | _ => none
  else if b < 0xF5 then
    match rest with
    | c1 :: c2 :: c3 :: r =>
      if (if b = 0xF0 then 0x90 ≤ c1 ∧ c1 < 0xC0
          else if b = 0xF4 then 0x80 ≤ c1 ∧ c1 < 0x90
          else 0x80 ≤ c1 ∧ c1 < 0xC0) ∧ (0x80 ≤ c2 ∧ c2 < 0xC0) ∧
          (0x80 ≤ c3 ∧ c3 < 0xC0) then
        some ((b - 0xF0) * 262144 + (c1 - 0x80) * 4096 + (c2 - 0x80) * 64 +
              (c3 - 0x80), r)
      else none
    | _ => none
  else none

/-- Strict UTF-8 decoding, driven by a fuel counter (one unit per code
point; the input length is always enough fuel since every code point
consumes at least one byte). -/
def utf8DecGo : Nat → List Nat → Option (List Nat)
  | _, [] => some []
  | 0, _ :: _ => none
  | fuel + 1, b :: rest =>
    match utf8DecStep b rest with
    | some (cp, r) => (utf8DecGo fuel r).map (fun t => cp :: t)
    | none => none

/-- Strict UTF-8 decoding of a byte sequence to code points. -/
def utf8Dec (l : List Nat) : Option (List Nat) :=
  utf8DecGo l.length l

/-! ## The sprite data model

The Python code builds plain dicts; we give them structures.  A dict key
whose presence varies in the program (`'palette'` and `'tags'` on the
sprite, `'linked'`/`'w'`/`'h'`/`'pixels'` on a cel) or is membership-tested
(`'layers'`) becomes an `Option` field; keys the reader always sets and the
writer always reads are plain fields. -/

/-- Chunk type constants from the source. -/
def LAYER : Nat := 0x2004
def CEL : Nat := 0x2005
def TAGS : Nat := 0x2018
def PALETTE : Nat := 0x2019
def USER : Nat := 0x2020
def SLICE : Nat := 0x2022

structure Layer where
  flags : Nat
  type : Nat
  child_level : Nat
  blend_mode : Nat
  opacity : Nat
  name : List Nat
deriving DecidableEq, Repr

structure Tag where
  name : List Nat
  fromFrame : Nat   -- dict key 'from'
  toFrame : Nat     -- dict key 'to'
  loop_dir : Nat
deriving DecidableEq, Repr

structure Cel where
  layer : Nat
  x : Int
  y : Int
  opacity : Nat
  w : Option Nat
  h : Option Nat
  pixels : Option (List Nat)
  linked : Option Nat
deriving DecidableEq, Repr

structure Frame where
  duration : Nat
  cels : List Cel
deriving DecidableEq, Repr

structure Sprite where
  name : List Nat
  w : Nat
  h : Nat
  trans : Nat
  speed : Nat
  indexed : Bool
  palette : Option (List (Nat × Nat × Nat × Nat))
  layers : Option (List Layer)
  tags : Option (List Tag)
  frames : List Frame
deriving DecidableEq, Repr

/-! ## Reader: `read_aseprite_file`

`struct.unpack(fmt, slice)` requires the slice to have exactly the format's
size, else raises `struct.error`; each `unpack...` helper pattern-matches on
a list of exactly that length. -/

/-- Fields of the 128-byte file header the source binds, from
`struct.unpack("=IHHHHHIHIIB3BHBB", data[:36])`.  The magic at bytes 4-5 is
unpacked but never bound or checked by the source. -/
structure HeaderRec where
  size : Nat
  frames : Nat
  width : Nat
  height : Nat
  cdepth : Nat
  flags : Nat
  speed : Nat
  transp : Nat
  cols : Nat
  pix_w : Nat
  pix_h : Nat
deriving Repr

def unpackHeader : List Nat → Except Err HeaderRec
  | s0 :: s1 :: s2 :: s3 :: _m0 :: _m1 :: f0 :: f1 :: w0 :: w1 :: h0 :: h1 ::
    c0 :: c1 :: g0 :: g1 :: g2 :: g3 :: p0 :: p1 :: _i0 :: _i1 :: _i2 :: _i3 ::
    _j0 :: _j1 :: _j2 :: _j3 :: t0 :: _r0 :: _r1 :: _r2 :: n0 :: n1 :: pxw ::
    pxh :: [] =>
    .ok { size := u32 s0 s1 s2 s3, frames := u16 f0 f1, width := u16 w0 w1,
          height := u16 h0 h1, cdepth := u16 c0 c1, flags := u32 g0 g1 g2 g3,
          speed := u16 p0 p1, transp := t0, cols := u16 n0 n1,
          pix_w := pxw, pix_h := pxh }
  | _ => .error .structError

/-- Fields of the 16-byte frame record the source binds, from
`struct.unpack("IHHHBBI", data[ptr:ptr+16])`.  Note the source takes
`fheader[4]` — the single byte at offset 10 — as the chunk count, not the
32-bit field at offset 12 (which it unpacks but never uses). -/
structure FrameRec where
  frame_size : Nat
  magic : Nat
  old_chunks : Nat
  duration : Nat
  chunks : Nat
deriving Repr

def unpackFrameRec : List Nat → Except Err FrameRec
  | [s0, s1, s2, s3, m0, m1, o0, o1, d0, d1, b4, _b5, _n0, _n1, _n2, _n3] =>
    .ok { frame_size := u32 s0 s1 s2 s3, magic := u16 m0 m1,
          old_chunks := u16 o0 o1, duration := u16 d0 d1, chunks := b4 }
  | _ => .error .structError

/-- `struct.unpack("=IH", ...)`: chunk size and chunk type. -/
def unpackChunkHead : List Nat → Except Err (Nat × Nat)
  | [a0, a1, a2, a3, b0, b1] => .ok (u32 a0 a1 a2 a3, u16 b0 b1)
  | _ => .error .structError

/-- `struct.unpack("III", ...)`: palette chunk fixed fields. -/
def unpackIII : List Nat → Except Err (Nat × Nat × Nat)
  | [a0, a1, a2, a3, b0, b1, b2, b3, c0, c1, c2, c3] =>
    .ok (u32 a0 a1 a2 a3, u32 b0 b1 b2 b3, u32 c0 c1 c2 c3)
  | _ => .error .structError

/-- `struct.unpack("HBBBB", ...)`: one palette entry. -/
def unpackPalEntry : List Nat → Except Err (Nat × Nat × Nat × Nat × Nat)
  | [f0, f1, r, g, b, a] => .ok (u16 f0 f1, r, g, b, a)
  | _ => .error .structError

/-- `struct.unpack("HHHHHHB3BH", ...)`: layer chunk fixed fields
`(flags, type, child_level, _, _, blend_mode, opacity, _, _, _, name_size)`. -/
def unpackLayerRec : List Nat →
    Except Err (Nat × Nat × Nat × Nat × Nat × Nat)
  | [f0, f1, t0, t1, c0, c1, _s0, _s1, _s2, _s3, b0, b1, op,
     _r0, _r1, _r2, n0, n1] =>
    .ok (u16 f0 f1, u16 t0 t1, u16 c0 c1, u16 b0 b1, op, u16 n0 n1)
  | _ => .error .structError

/-- `struct.unpack('H', ...)`. -/
def unpackH : List Nat → Except Err Nat
  | [b0, b1] => .ok (u16 b0 b1)
  | _ => .error .structError

/-- `struct.unpack('=HHB', ...)`: tag fixed fields. -/
def unpackTagRec : List Nat → Except Err (Nat × Nat × Nat)
  | [f0, f1, t0, t1, l0] => .ok (u16 f0 f1, u16 t0 t1, l0)
  | _ => .error .structError

/-- `struct.unpack("=HhhBH", ...)`: cel chunk fixed fields. -/
def unpackCelRec : List Nat → Except Err (Nat × Int × Int × Nat × Nat)
  | [l0, l1, x0, x1, y0, y1, op, t0, t1] =>
    .ok (u16 l0 l1, s16 x0 x1, s16 y0 y1, op, u16 t0 t1)
  | _ => .error .structError

/-- `struct.unpack("HH", ...)`: cel width and height. -/
def unpackHH : List Nat → Except Err (Nat × Nat)
  | [w0, w1, h0, h1] => .ok (u16 w0 w1, u16 h0 h1)
  | _ => .error .structError

/-- `bytes.decode("utf-8")` as the reader uses it. -/
def pyUtf8Dec (bs : List Nat) : Except Err (List Nat) :=
  match utf8Dec bs with
  | some s => .ok s
  | none => .error .unicodeError

/-- The palette-entry loop of the PALETTE handler: reads `n` six-byte
entries starting at `ptr`, appending `entry[1:]` to the accumulator. -/
def readPalEntries (data : List Nat) (n : Nat) (ptr : Nat)
    (acc : List (Nat × Nat × Nat × Nat)) :
    Except Err (List (Nat × Nat × Nat × Nat) × Nat) :=
  match n with
  | 0 => .ok (acc, ptr)
  | Nat.succ m => do
    let e ← unpackPalEntry (pyslice data ptr (ptr + 6))
    readPalEntries data m (ptr + 6) (acc ++ [(e.2.1, e.2.2.1, e.2.2.2.1, e.2.2.2.2)])

/-- The per-tag loop of the TAGS handler. -/
def readTags (data : List Nat) (n : Nat) (ptr : Nat) (acc : List Tag) :
    Except Err (List Tag × Nat) :=
  match n with
  | 0 => .ok (acc, ptr)
  | Nat.succ m => do
    let (from_frame, to_frame, loop_dir) ← unpackTagRec (pyslice data ptr (ptr + 5))
    let ptr := ptr + 5 + 12
    let name_size ← unpackH (pyslice data ptr (ptr + 2))
    let ptr := ptr + 2
    let tag_name ← if name_size > 0 then
        pyUtf8Dec (pyslice data ptr (ptr + name_size))
      else .ok []
    let ptr := ptr + name_size
    readTags data m ptr
      (acc ++ [{ name := tag_name, fromFrame := from_frame,
                 toFrame := to_frame, loop_dir := loop_dir }])

/-- One iteration of the chunk loop: reads the 6-byte chunk record at `ptr`,
dispatches on the chunk type, and returns the updated sprite, frame and the
cursor forced to `next_chunk`. -/
def readChunk (decompress : List Nat → Option (List Nat)) (data : List Nat)
    (sp : Sprite) (frame : Frame) (ptr : Nat) :
    Except Err (Sprite × Frame × Nat) := do
  let (chunk_size, chunk_type) ← unpackChunkHead (pyslice data ptr (ptr + 6))
  let next_chunk := ptr + chunk_size
  let ptr := ptr + 6
  if chunk_type = PALETTE then do
    let (pal_size, _first, _last) ← unpackIII (pyslice data ptr (ptr + 12))
    let ptr := ptr + 12 + 8
    let (pal, _) ← readPalEntries data pal_size ptr []
    .ok ({ sp with palette := some pal }, frame, next_chunk)
  else if chunk_type = LAYER then do
    let (lay_flags, lay_type, child_level, blend_mode, opacity, name_size) ←
      unpackLayerRec (pyslice data ptr (ptr + 18))
    let ptr := ptr + 18
    let name ← if name_size > 0 then
        pyUtf8Dec (pyslice data ptr (ptr + name_size))
      else .ok []
    -- the reader initializes sprite['layers'] to [] before any chunk,
    -- so the key is always present here
    .ok ({ sp with layers := some ((sp.layers.getD []) ++
            [{ flags := lay_flags, type := lay_type, child_level := child_level,
               blend_mode := blend_mode, opacity := opacity, name := name }]) },
         frame, next_chunk)
  else if chunk_type = TAGS then do
    let tag_count ← unpackH (pyslice data ptr (ptr + 2))
    let ptr := ptr + 2 + 8
    let (ts, _) ← readTags data tag_count ptr []
    .ok ({ sp with tags := some ts }, frame, next_chunk)
  else if chunk_type = CEL then do
    let (layer, x, y, opacity, cel_type) ← unpackCelRec (pyslice data ptr (ptr + 9))
    let ptr := ptr + 9 + 7
    if cel_type = 0 then do
      let (w, h) ← unpackHH (pyslice data ptr (ptr + 4))
      let ptr := ptr + 4
      let pixels := pyslice data ptr next_chunk
      .ok (sp, { frame with cels := frame.cels ++
            [{ layer := layer, x := x, y := y, opacity := opacity,
               w := some w, h := some h, pixels := some pixels, linked := none }] },
           next_chunk)
    else if cel_type = 1 then do
      let frame_pos ← unpackH (pyslice data ptr (ptr + 2))
      .ok (sp, { frame with cels := frame.cels ++
            [{ layer := layer, x := x, y := y, opacity := opacity,
               w := none, h := none, pixels := none, linked := some frame_pos }] },
           next_chunk)
    else if cel_type = 2 then do
      let (w, h) ← unpackHH (pyslice data ptr (ptr + 4))
      let ptr := ptr + 4
      match decompress (pyslice data ptr next_chunk) with
      | some pixels =>
        .ok (sp, { frame with cels := frame.cels ++
              [{ layer := layer, x := x, y := y, opacity := opacity,
                 w := some w, h := some h, pixels := some pixels, linked := none }] },
             next_chunk)
      | none => .error .zlibError
    else
      -- unknown cel sub-type: no branch taken; the partial cel dict
      -- (layer, x, y, opacity only) is still appended
      .ok (sp, { frame with cels := frame.cels ++
            [{ layer := layer, x := x, y := y, opacity := opacity,
               w := none, h := none, pixels := none, linked := none }] },
           next_chunk)
  else
    -- unrecognized chunk type: skipped by the unconditional ptr = next_chunk
    .ok (sp, frame, next_chunk)

/-- The chunk loop: `for chunk in range(0, chunks)`. -/
def readChunks (decompress : List Nat → Option (List Nat)) (data : List Nat)
    (n : Nat) (sp : Sprite) (frame : Frame) (ptr : Nat) :
    Except Err (Sprite × Frame × Nat) :=
  match n with
  | 0 => .ok (sp, frame, ptr)
  | Nat.succ m => do
    let (sp, frame, ptr) ← readChunk decompress data sp frame ptr
    readChunks decompress data m sp frame ptr

/-- The frame loop: `for frame_i in range(0, frames)`. -/
def readFrames (decompress : List Nat → Option (List Nat)) (data : List Nat)
    (n : Nat) (sp : Sprite) (ptr : Nat) : Except Err (Sprite × Nat) :=
  match n with
  | 0 => .ok (sp, ptr)
  | Nat.succ m => do
    let fh ← unpackFrameRec (pyslice data ptr (ptr + 16))
    let chunks := if fh.chunks = 0 then fh.old_chunks else fh.chunks
    if fh.magic = 0xF1FA then do
      let frame : Frame := { duration := fh.duration, cels := [] }
      let ptr := ptr + 16
      let (sp, frame, ptr) ← readChunks decompress data chunks sp frame ptr
      readFrames decompress data m { sp with frames := sp.frames ++ [frame] } ptr
    else
      .error .assertError   -- assert(magic == 0xF1FA)

/-- `read_aseprite_file`: decodes a byte buffer into a `Sprite`.  The Python
function takes a path and derives the sprite name from it; here the name and
the file contents are passed directly, and `zlib.decompress` is the
`decompress` parameter (`none` models `zlib.error`). -/
def read_aseprite_file (name : List Nat)
    (decompress : List Nat → Option (List Nat)) (data : List Nat) :
    Except Err Sprite := do
  let header ← unpackHeader (pyslice data 0 36)
  let sprite : Sprite :=
    { name := name, w := header.width, h := header.height,
      trans := header.transp, speed := header.speed,
      indexed := header.cdepth = 8,
      palette := none, layers := some [], tags := none, frames := [] }
  let (sprite, _) ← readFrames decompress data header.frames sprite 128
  .ok sprite

/-! ## Writer: `write_aseprite_file`

The Python writer packs into a fixed `bytearray` of `1024 * 100` zero bytes
with an explicit cursor, then writes out `data[:ptr]`.  `WBuf` carries the
buffer, its current length (slice assignment can change it) and the cursor. -/

structure WBuf where
  data : List Nat
  dlen : Nat
  ptr : Nat

/-- `struct.pack_into` byte placement: requires `p + bytes.length` bytes of
buffer, then overwrites in place. -/
def packInto (b : WBuf) (p : Nat) (bytes : List Nat) : Except Err WBuf :=
  if p + bytes.length ≤ b.dlen then
    .ok { b with data := b.data.take p ++ bytes ++ b.data.drop (p + bytes.length) }
  else .error .structError

/-- Python `data[p:p+k] = bytes` on a bytearray: replaces the clamped slice,
growing or shrinking the buffer when lengths differ. -/
def spliceAssign (b : WBuf) (p k : Nat) (bytes : List Nat) : WBuf :=
  let lo := min p b.dlen
  let hi := min (p + k) b.dlen
  { data := b.data.take p ++ bytes ++ b.data.drop hi,
    dlen := b.dlen - (hi - lo) + bytes.length,
    ptr := b.ptr }

/-- `struct.pack` of an `'H'` value: range-checked little-endian 16-bit. -/
def pckH (v : Nat) : Except Err (List Nat) :=
  if v < 65536 then .ok (le16 v) else .error .structError

/-- `struct.pack` of an `'I'` value. -/
def pckI (v : Nat) : Except Err (List Nat) :=
  if v < 4294967296 then .ok (le32 v) else .error .structError

/-- `struct.pack` of an `'I'` value that is a Python `int` (may be
negative, e.g. `len(palette) - 1`). -/
def pckIneg (v : Int) : Except Err (List Nat) :=
  if 0 ≤ v ∧ v < 4294967296 then .ok (le32 v.toNat) else .error .structError

/-- `struct.pack` of a `'B'` value. -/
def pckB (v : Nat) : Except Err (List Nat) :=
  if v < 256 then .ok [v] else .error .structError

/-- `struct.pack` of an `'h'` (signed 16-bit) value. -/
def pckh (v : Int) : Except Err (List Nat) :=
  if -32768 ≤ v ∧ v < 32768 then .ok (le16 (v % 65536).toNat)
  else .error .structError

/-- Python dict access `cel['w']` etc.: `KeyError` when the key is absent. -/
def getKey {α : Type} (o : Option α) : Except Err α :=
  match o with
  | some v => .ok v
  | none => .error .keyError

/-- `bytearray(name, 'utf-8')`. -/
def pyUtf8Enc (nm : List Nat) : Except Err (List Nat) :=
  match utf8Enc nm with
  | some bs => .ok bs
  | none => .error .unicodeEncodeError

/-- The palette-entry loop of the writer:
`struct.pack_into('=HBBBB', data, ptr, 0, p[0], p[1], p[2], 255)` per entry.
Note the entry's alpha `p[3]` is never read; 255 is written instead. -/
def writePalEntries (pal : List (Nat × Nat × Nat × Nat)) (b : WBuf) :
    Except Err WBuf :=
  match pal with
  | [] => .ok b
  | p :: rest => do
    let r ← pckB p.1
    let g ← pckB p.2.1
    let bl ← pckB p.2.2.1
    let a255 ← pckB 255
    let b ← packInto b b.ptr (le16 0 ++ r ++ g ++ bl ++ a255)
    writePalEntries rest { b with ptr := b.ptr + 6 }

/-- The palette chunk emitter (first frame, indexed sprites only). -/
def writePaletteChunk (pal : List (Nat × Nat × Nat × Nat)) (b : WBuf) :
    Except Err WBuf := do
  let chunk_size_ptr := b.ptr
  let b := { b with ptr := b.ptr + 4 }
  let t ← pckH 0x2019
  let n ← pckI pal.length
  let z ← pckI 0
  let lst ← pckIneg ((pal.length : Int) - 1)
  let b ← packInto b b.ptr (t ++ n ++ z ++ lst)
  let b := { b with ptr := b.ptr + 14 + 8 }
  let b ← writePalEntries pal b
  let sz ← pckI (b.ptr - chunk_size_ptr)
  packInto b chunk_size_ptr sz

/-- The per-tag loop of the tags chunk emitter. -/
def writeTagList (ts : List Tag) (b : WBuf) : Except Err WBuf :=
  match ts with
  | [] => .ok b
  | t :: rest => do
    let f ← pckH t.fromFrame
    let o ← pckH t.toFrame
    let l ← pckB t.loop_dir
    let b ← packInto b b.ptr (f ++ o ++ l)
    let b := { b with ptr := b.ptr + 5 + 8 + 3 + 1 }
    let n ← pckH t.name.length
    let b ← packInto b b.ptr n
    let b := { b with ptr := b.ptr + 2 }
    let nb ← pyUtf8Enc t.name
    let b := spliceAssign b b.ptr t.name.length nb
    writeTagList rest { b with ptr := b.ptr + t.name.length }

/-- The tags chunk emitter (first frame, when `'tags' in sprite`). -/
def writeTagsChunk (ts : List Tag) (b : WBuf) : Except Err WBuf := do
  let chunk_size_ptr := b.ptr
  let b := { b with ptr := b.ptr + 4 }
  let t ← pckH 0x2018
  let n ← pckH ts.length
  let b ← packInto b b.ptr (t ++ n)
  let b := { b with ptr := b.ptr + 4 + 8 }
  let b ← writeTagList ts b
  let sz ← pckI (b.ptr - chunk_size_ptr)
  packInto b chunk_size_ptr sz

/-- One layer chunk emitter. -/
def writeLayerChunk (l : Layer) (b : WBuf) : Except Err WBuf := do
  let chunk_size_ptr := b.ptr
  let b := { b with ptr := b.ptr + 4 }
  let t ← pckH 0x2004
  let b ← packInto b b.ptr t
  let b := { b with ptr := b.ptr + 2 }
  let f ← pckH l.flags
  let ty ← pckH l.type
  let c ← pckH l.child_level
  let z1 ← pckH 0
  let z2 ← pckH 0
  let bm ← pckH l.blend_mode
  let op ← pckB l.opacity
  let b ← packInto b b.ptr (f ++ ty ++ c ++ z1 ++ z2 ++ bm ++ op)
  let b := { b with ptr := b.ptr + 13 + 3 }
  let n ← pckH l.name.length
  let b ← packInto b b.ptr n
  let b := { b with ptr := b.ptr + 2 }
  let nb ← pyUtf8Enc l.name
  let b := spliceAssign b b.ptr l.name.length nb
  let b := { b with ptr := b.ptr + l.name.length }
  let sz ← pckI (b.ptr - chunk_size_ptr)
  packInto b chunk_size_ptr sz

/-- The layer loop of the first frame. -/
def writeLayerChunks (ls : List Layer) (b : WBuf) : Except Err WBuf :=
  match ls with
  | [] => .ok b
  | l :: rest => do
    let b ← writeLayerChunk l b
    writeLayerChunks rest b

/-- One cel chunk emitter: sub-type 1 when the cel has a `'linked'` key,
otherwise sub-type 2 with DEFLATE-compressed pixels. -/
def writeCelChunk (compress : List Nat → List Nat) (cel : Cel) (b : WBuf) :
    Except Err WBuf := do
  let chunk_size_ptr := b.ptr
  let b := { b with ptr := b.ptr + 4 }
  let cel_type : Nat := match cel.linked with | some _ => 1 | none => 2
  let t ← pckH 0x2005
  let ly ← pckH cel.layer
  let xb ← pckh cel.x
  let yb ← pckh cel.y
  let op ← pckB cel.opacity
  let ct ← pckH cel_type
  let b ← packInto b b.ptr (t ++ ly ++ xb ++ yb ++ op ++ ct)
  let b := { b with ptr := b.ptr + 11 + 7 }
  let b ← (if cel_type = 1 then do
      let lk ← getKey cel.linked
      let lkb ← pckH lk
      let b ← packInto b b.ptr lkb
      .ok { b with ptr := b.ptr + 2 }
    else do
      let w ← getKey cel.w
      let hh ← getKey cel.h
      let wb ← pckH w
      let hb ← pckH hh
      let b ← packInto b b.ptr (wb ++ hb)
      let b := { b with ptr := b.ptr + 4 }
      let px ← getKey cel.pixels
      let compressed := compress px
      let b := spliceAssign b b.ptr compressed.length compressed
      .ok { b with ptr := b.ptr + compressed.length })
  let sz ← pckI (b.ptr - chunk_size_ptr)
  packInto b chunk_size_ptr sz

/-- The cel loop of a frame. -/
def writeCelChunks (compress : List Nat → List Nat) (cels : List Cel)
    (b : WBuf) : Except Err WBuf :=
  match cels with
  | [] => .ok b
  | c :: rest => do
    let b ← writeCelChunk compress c b
    writeCelChunks compress rest b

/-- The `if first_frame:` block: palette chunk (indexed sprites), tags
chunk (when `'tags' in sprite`), one layer chunk per layer (when
`'layers' in sprite`); returns the buffer and the number of chunks
emitted. -/
def writeFirstFrameChunks (sprite : Sprite) (b : WBuf) :
    Except Err (WBuf × Nat) := do
  let (b, cnt) ←
    if sprite.indexed then do
      let pal ← getKey sprite.palette
      let b ← writePaletteChunk pal b
      .ok (b, 1)
    else .ok (b, 0)
  let (b, cnt) ←
    match sprite.tags with
    | some ts => do
      let b ← writeTagsChunk ts b
      .ok (b, cnt + 1)
    | none => .ok (b, cnt)
  match sprite.layers with
  | some ls => do
    let b ← writeLayerChunks ls b
    .ok (b, cnt + ls.length)
  | none => .ok (b, cnt)

/-- One frame: placeholder frame-size and chunk-count fields, the chunk
emissions, then both back-patches.  `chunk_count` is patched with the number
of chunks actually emitted. -/
def writeFrame (compress : List Nat → List Nat) (sprite : Sprite)
    (first_frame : Bool) (frame : Frame) (b : WBuf) : Except Err WBuf := do
  let frame_size_ptr := b.ptr
  let b := { b with ptr := b.ptr + 4 }
  let d ← pckH frame.duration
  let b ← packInto b b.ptr (le16 0xF1FA ++ le16 0 ++ d ++ [0, 0] ++ le32 0)
  let chunk_count_ptr := b.ptr + 2
  let b := { b with ptr := b.ptr + 12 }
  let (b, chunk_count) ←
    if first_frame then writeFirstFrameChunks sprite b
    else .ok (b, 0)
  let b ← writeCelChunks compress frame.cels b
  let chunk_count := chunk_count + frame.cels.length
  let cb ← pckH chunk_count
  let b ← packInto b chunk_count_ptr cb
  let fs ← pckI (b.ptr - frame_size_ptr)
  packInto b frame_size_ptr fs

/-- The frame loop. -/
def writeFrames (compress : List Nat → List Nat) (sprite : Sprite)
    (first_frame : Bool) (frames : List Frame) (b : WBuf) : Except Err WBuf :=
  match frames with
  | [] => .ok b
  | f :: rest => do
    let b ← writeFrame compress sprite first_frame f b
    writeFrames compress sprite false rest b

/-- `write_aseprite_file`: encodes a `Sprite` to bytes.  The Python function
writes `data[:ptr]` to a path; here the bytes are returned, and
`zlib.compress` is the `compress` parameter. -/
def write_aseprite_file (compress : List Nat → List Nat) (sprite : Sprite) :
    Except Err (List Nat) := do
  let b : WBuf := { data := List.replicate (1024 * 100) 0,
                    dlen := 1024 * 100, ptr := 4 }
  let cdepth : Nat := if sprite.indexed then 8 else 32
  -- struct.pack_into('=HHHHHIHIIBBBBHBB', data, ptr, 0xA5E0, len(frames), w,
  --   h, cdepth, 1, speed, 0, 0, trans, 0, 0, 0, len(palette), 0, 0)
  -- argument evaluation reads sprite['palette'] before packing
  let pal ← getKey sprite.palette
  let m ← pckH 0xA5E0
  let fc ← pckH sprite.frames.length
  let wb ← pckH sprite.w
  let hb ← pckH sprite.h
  let cd ← pckH cdepth
  let fl ← pckI 1
  let spd ← pckH sprite.speed
  let z1 ← pckI 0
  let z2 ← pckI 0
  let tr ← pckB sprite.trans
  let zb ← pckB 0
  let cols ← pckH pal.length
  let pw ← pckB 0
  let ph ← pckB 0
  let b ← packInto b b.ptr
    (m ++ fc ++ wb ++ hb ++ cd ++ fl ++ spd ++ z1 ++ z2 ++ tr ++ zb ++ zb ++ zb
      ++ cols ++ pw ++ ph)
  let b := { b with ptr := b.ptr + 124 }
  let b ← writeFrames compress sprite true sprite.frames b
  let ts ← pckI b.ptr
  let b ← packInto b 0 ts
  .ok (b.data.take b.ptr)

/-! ## Canonical byte layout of the writer's output (proof helper)

For sprites whose fields are in range and whose names are ASCII, the
writer's back-patching produces exactly the following byte lists. -/

/-- Signed 16-bit little-endian encoding (range `[-32768, 32768)`). -/
def p16i (x : Int) : List Nat := le16 (x % 65536).toNat

def entryBytes (e : Nat × Nat × Nat × Nat) : List Nat :=
  [0, 0, e.1, e.2.1, e.2.2.1, 255]

def palChunkBytes (pal : List (Nat × Nat × Nat × Nat)) : List Nat :=
  le32 (26 + 6 * pal.length) ++ le16 0x2019 ++ le32 pal.length ++ le32 0 ++
  le32 (pal.length - 1) ++ List.replicate 8 0 ++ (pal.map entryBytes).flatten

def tagBytes (t : Tag) : List Nat :=
  le16 t.fromFrame ++ le16 t.toFrame ++ [t.loop_dir] ++ List.replicate 12 0 ++
  le16 t.name.length ++ t.name

def tagsChunkBytes (ts : List Tag) : List Nat :=
  le32 (16 + ((ts.map tagBytes).flatten).length) ++ le16 0x2018 ++
  le16 ts.length ++ List.replicate 8 0 ++ (ts.map tagBytes).flatten

def layerChunkBytes (l : Layer) : List Nat :=
  le32 (24 + l.name.length) ++ le16 0x2004 ++ le16 l.flags ++ le16 l.type ++
  le16 l.child_level ++ le16 0 ++ le16 0 ++ le16 l.blend_mode ++ [l.opacity] ++
  List.replicate 3 0 ++ le16 l.name.length ++ l.name

def celChunkBytes (compress : List Nat → List Nat) (c : Cel) : List Nat :=
  match c.linked with
  | some lk =>
    le32 24 ++ le16 0x2005 ++ le16 c.layer ++ p16i c.x ++ p16i c.y ++
    [c.opacity] ++ le16 1 ++ List.replicate 7 0 ++ le16 lk
  | none =>
    le32 (26 + (compress (c.pixels.getD [])).length) ++ le16 0x2005 ++
    le16 c.layer ++ p16i c.x ++ p16i c.y ++ [c.opacity] ++ le16 2 ++
    List.replicate 7 0 ++ le16 (c.w.getD 0) ++ le16 (c.h.getD 0) ++
    compress (c.pixels.getD [])

def firstChunksBytes (s : Sprite) : List Nat :=
  (if s.indexed then palChunkBytes (s.palette.getD []) else []) ++
  (match s.tags with | some ts => tagsChunkBytes ts | none => []) ++
  ((s.layers.getD []).map layerChunkBytes).flatten

def firstChunkCount (s : Sprite) : Nat :=
  (if s.indexed then 1 else 0) +
  (match s.tags with | some _ => 1 | none => 0) + (s.layers.getD []).length

def frameChunksBytes (compress : List Nat → List Nat) (s : Sprite)
    (first : Bool) (f : Frame) : List Nat :=
  (if first then firstChunksBytes s else []) ++
  (f.cels.map (celChunkBytes compress)).flatten

def frameChunkCount (s : Sprite) (first : Bool) (f : Frame) : Nat :=
  (if first then firstChunkCount s else 0) + f.cels.length

def frameBytes (compress : List Nat → List Nat) (s : Sprite) (first : Bool)
    (f : Frame) : List Nat :=
  le32 (16 + (frameChunksBytes compress s first f).length) ++ le16 0xF1FA ++
  le16 (frameChunkCount s first f) ++ le16 f.duration ++ [0, 0] ++ le32 0 ++
  frameChunksBytes compress s first f

def framesBytes (compress : List Nat → List Nat) (s : Sprite) :
    Bool → List Frame → List Nat
  | _, [] => []
  | first, f :: fs => frameBytes compress s first f ++ framesBytes compress s false fs

def hdr32Bytes (s : Sprite) : List Nat :=
  le16 0xA5E0 ++ le16 s.frames.length ++ le16 s.w ++ le16 s.h ++
  le16 (if s.indexed then 8 else 32) ++ le32 1 ++ le16 s.speed ++ le32 0 ++
  le32 0 ++ [s.trans] ++ [0, 0, 0] ++ le16 (s.palette.getD []).length ++ [0, 0]

def specBytes (compress : List Nat → List Nat) (s : Sprite) : List Nat :=
  le32 (128 + (framesBytes compress s true s.frames).length) ++ hdr32Bytes s ++
  List.replicate 92 0 ++ framesBytes compress s true s.frames

/-! ## The canonicalization performed by one encode-decode round trip -/

/-- The writer discards each palette entry's alpha and writes 255. -/
def canonEntry (e : Nat × Nat × Nat × Nat) : Nat × Nat × Nat × Nat :=
  (e.1, e.2.1, e.2.2.1, 255)

/-- A linked cel is written as sub-type 1, so any `w`/`h`/`pixels` on it are
dropped by the round trip; other cels keep their fields. -/
def canonCel (c : Cel) : Cel :=
  match c.linked with
  | some lk =>
    { layer := c.layer, x := c.x, y := c.y, opacity := c.opacity,
      w := none, h := none, pixels := none, linked := some lk }
  | none => c

def canonFrame (f : Frame) : Frame :=
  { duration := f.duration, cels := f.cels.map canonCel }

/-- The sprite produced by decoding the encoding of a valid indexed sprite. -/
def canon (nm : List Nat) (s : Sprite) : Sprite :=
  { name := nm, w := s.w, h := s.h, trans := s.trans, speed := s.speed,
    indexed := true,
    palette := some ((s.palette.getD []).map canonEntry),
    layers := some (s.layers.getD []),
    tags := s.tags,
    frames := s.frames.map canonFrame }

/-- The byte length of a cel chunk. -/
def celChunkLen (compress : List Nat → List Nat) (c : Cel) : Nat :=
  match c.linked with
  | some _ => 24
  | none => 26 + (compress (c.pixels.getD [])).length

/-! ## Validity: the class of sprites the round-trip theorems quantify over -/

/-- Propositional form of per-cel validity. -/
def GoodCelP (c : Cel) : Prop :=
  c.layer < 65536 ∧ -32768 ≤ c.x ∧ c.x < 32768 ∧ -32768 ≤ c.y ∧ c.y < 32768 ∧
  c.opacity < 256 ∧
  (match c.linked with
   | some lk => lk < 65536
   | none => (∃ wv, c.w = some wv ∧ wv < 65536) ∧
             (∃ hv, c.h = some hv ∧ hv < 65536) ∧ (∃ px, c.pixels = some px))

/-- Propositional form of per-layer validity. -/
def GoodLayerP (l : Layer) : Prop :=
  l.flags < 65536 ∧ l.type < 65536 ∧ l.child_level < 65536 ∧
  l.blend_mode < 65536 ∧ l.opacity < 256 ∧ l.name.length < 65536 ∧
  ∀ c ∈ l.name, c < 128

/-- Propositional form of per-tag validity. -/
def GoodTagP (t : Tag) : Prop :=
  t.fromFrame < 65536 ∧ t.toFrame < 65536 ∧ t.loop_dir < 256 ∧
  t.name.length < 65536 ∧ ∀ c ∈ t.name, c < 128

/-- Propositional form of sprite validity. -/
def GoodSpriteP (s : Sprite) : Prop :=
  s.indexed = true ∧ s.w < 65536 ∧ s.h < 65536 ∧ s.speed < 65536 ∧
  s.trans < 256 ∧ 1 ≤ s.frames.length ∧ s.frames.length < 65536 ∧
  (∃ pal, s.palette = some pal ∧ 1 ≤ pal.length ∧ pal.length < 65536 ∧
    ∀ e ∈ pal, e.1 < 256 ∧ e.2.1 < 256 ∧ e.2.2.1 < 256) ∧
  (∀ ls, s.layers = some ls → ∀ l ∈ ls, GoodLayerP l) ∧
  (∀ ts, s.tags = some ts → ts.length < 65536 ∧ ∀ t ∈ ts, GoodTagP t) ∧
  ∀ f ∈ s.frames, f.duration < 65536 ∧ (∀ c ∈ f.cels, GoodCelP c) ∧
    2 + (s.layers.getD []).length + f.cels.length < 65536


/-- ASCII name whose length fits the 16-bit length field. -/
def goodName (nm : List Nat) : Bool :=
  nm.length < 65536 && nm.all (fun c => c < 128)

def goodLayer (l : Layer) : Bool :=
  l.flags < 65536 && l.type < 65536 && l.child_level < 65536 &&
  l.blend_mode < 65536 && l.opacity < 256 && goodName l.name

def goodTag (t : Tag) : Bool :=
  t.fromFrame < 65536 && t.toFrame < 65536 && t.loop_dir < 256 &&
  goodName t.name

def goodCel (c : Cel) : Bool :=
  c.layer < 65536 && (-32768 ≤ c.x) && (c.x < 32768) &&
  (-32768 ≤ c.y) && (c.y < 32768) && c.opacity < 256 &&
  (match c.linked with
   | some lk => lk < 65536
   | none => c.w.isSome && c.h.isSome && c.pixels.isSome &&
             c.w.getD 0 < 65536 && c.h.getD 0 < 65536)

/-- A sprite built only from supported features: indexed color mode with a
nonempty palette, in-range numeric fields, ASCII names. -/
def goodSprite (s : Sprite) : Bool :=
  s.indexed &&
  s.w < 65536 && s.h < 65536 && s.speed < 65536 && s.trans < 256 &&
  1 ≤ s.frames.length && s.frames.length < 65536 &&
  (match s.palette with
   | some pal => 1 ≤ pal.length && pal.length < 65536 &&
       pal.all (fun e => e.1 < 256 && e.2.1 < 256 && e.2.2.1 < 256)
   | none => false) &&
  (match s.layers with
   | some ls => ls.all goodLayer
   | none => true) &&
  (match s.tags with
   | some ts => ts.length < 65536 && ts.all goodTag
   | none => true) &&
  s.frames.all (fun f => f.duration < 65536 && f.cels.all goodCel &&
    2 + (s.layers.getD []).length + f.cels.length < 65536)

/-- The encode-then-decode composition: `decode(encode(s))`. -/
def roundTrip (nm : List Nat) (dec : List Nat → Option (List Nat))
    (compress : List Nat → List Nat) (s : Sprite) : Except Err Sprite :=
  write_aseprite_file compress s >>= read_aseprite_file nm dec

/-! ## The spec's frame-record reading (for comparison with the code's)

The spec describes the 16-byte frame record as `{frame byte size,
magic 0xF1FA, old chunk count (16-bit), duration, new chunk count
(32-bit)}`: the new chunk count is the 32-bit field at offset 12.  This
definition follows those words; `unpackFrameRec` follows the code. -/
def specFrameRec : List Nat → Except Err FrameRec
  | [s0, s1, s2, s3, m0, m1, o0, o1, d0, d1, _b0, _b1, c0, c1, c2, c3] =>
    .ok { frame_size := u32 s0 s1 s2 s3, magic := u16 m0 m1,
          old_chunks := u16 o0 o1, duration := u16 d0 d1,
          chunks := u32 c0 c1 c2 c3 }
  | _ => .error .structError

/-- Effective chunk count: the new count when nonzero, else the old one
(the conditional both the spec and the code apply, to different fields). -/
def effChunks (fh : FrameRec) : Nat :=
  if fh.chunks = 0 then fh.old_chunks else fh.chunks

/-- A 16-byte frame record whose 32-bit new-chunk-count field (offset 12)
is 2 while the old 16-bit count is 1 and the reserved bytes are zero. -/
def rec16Bad : List Nat :=
  le32 16 ++ le16 0xF1FA ++ le16 1 ++ le16 100 ++ [0, 0] ++ le32 2

/-! ## Concrete sprites and files used by the claim analyses -/

/-- An rgba-mode sprite (supported per the data model) with one frame. -/
def sRGBA : Sprite :=
  { name := [], w := 2, h := 2, trans := 0, speed := 100, indexed := false,
    palette := some [(1, 2, 3, 4)], layers := none, tags := none,
    frames := [{ duration := 50, cels := [] }] }

/-- An indexed sprite exercising palette, a layer, a tag and a compressed
cel; its palette entry carries alpha 4. -/
def sGood : Sprite :=
  { name := [], w := 2, h := 2, trans := 0, speed := 100, indexed := true,
    palette := some [(1, 2, 3, 4)],
    layers := some [{ flags := 3, type := 0, child_level := 0,
                      blend_mode := 0, opacity := 255, name := [98, 103] }],
    tags := some [{ name := [114, 117, 110], fromFrame := 0, toFrame := 0,
                    loop_dir := 0 }],
    frames := [{ duration := 50,
                 cels := [{ layer := 0, x := 0, y := 0, opacity := 255,
                            w := some 2, h := some 2,
                            pixels := some [0, 1, 1, 0],
                            linked := none }] }] }

/-- A file whose single frame holds one CEL chunk of sub-type 3. -/
def file4 : List Nat :=
  le32 166 ++ le16 0xA5E0 ++ le16 1 ++ le16 2 ++ le16 2 ++ le16 8 ++
  le32 1 ++ le16 100 ++ le32 0 ++ le32 0 ++ [0] ++ [0, 0, 0] ++ le16 0 ++
  [0, 0] ++ List.replicate 92 0 ++
  (le32 38 ++ le16 0xF1FA ++ le16 1 ++ le16 10 ++ [0, 0] ++ le32 0) ++
  (le32 22 ++ le16 0x2005 ++ le16 0 ++ p16i 1 ++ p16i 2 ++ [255] ++ le16 3)

/-- A chunkless single-frame file whose header magic field is 0x1234
instead of 0xA5E0. -/
def file5 : List Nat :=
  le32 144 ++ le16 0x1234 ++ le16 1 ++ le16 2 ++ le16 2 ++ le16 8 ++
  le32 1 ++ le16 100 ++ le32 0 ++ le32 0 ++ [0] ++ [0, 0, 0] ++ le16 0 ++
  [0, 0] ++ List.replicate 92 0 ++
  (le32 16 ++ le16 0xF1FA ++ le16 0 ++ le16 10 ++ [0, 0] ++ le32 0)

/-- A file with one compressed (sub-type 2) 2×2 cel whose compressed
payload is the single byte 9. -/
def file6 : List Nat :=
  le32 171 ++ le16 0xA5E0 ++ le16 1 ++ le16 2 ++ le16 2 ++ le16 8 ++
  le32 1 ++ le16 100 ++ le32 0 ++ le32 0 ++ [0] ++ [0, 0, 0] ++ le16 0 ++
  [0, 0] ++ List.replicate 92 0 ++
  (le32 43 ++ le16 0xF1FA ++ le16 1 ++ le16 10 ++ [0, 0] ++ le32 0) ++
  (le32 27 ++ le16 0x2005 ++ le16 0 ++ p16i 0 ++ p16i 0 ++ [255] ++
   le16 2 ++ List.replicate 7 0 ++ le16 2 ++ le16 2 ++ [9])

/-- A file whose raw 2×2 cel chunk declares 30 bytes but the buffer ends
after only 28 of them: the declared chunk end (174) exceeds the file
length (172). -/
def file7 : List Nat :=
  le32 174 ++ le16 0xA5E0 ++ le16 1 ++ le16 2 ++ le16 2 ++ le16 8 ++
  le32 1 ++ le16 100 ++ le32 0 ++ le32 0 ++ [0] ++ [0, 0, 0] ++ le16 0 ++
  [0, 0] ++ List.replicate 92 0 ++
  (le32 46 ++ le16 0xF1FA ++ le16 1 ++ le16 10 ++ [0, 0] ++ le32 0) ++
  (le32 30 ++ le16 0x2005 ++ le16 0 ++ p16i 0 ++ p16i 0 ++ [255] ++
   le16 0 ++ List.replicate 7 0 ++ le16 2 ++ le16 2 ++ [5, 6])

/-- The raw 2×2 cel chunk shared by the two C8 files. -/
def cel8 : List Nat :=
  le32 30 ++ le16 0x2005 ++ le16 0 ++ p16i 0 ++ p16i 0 ++ [255] ++
  le16 0 ++ List.replicate 7 0 ++ le16 2 ++ le16 2 ++ [0, 1, 1, 0]

/-- A USER (0x2020) chunk with an arbitrary payload. -/
def user8 (pl : List Nat) : List Nat :=
  le32 (6 + pl.length) ++ le16 0x2020 ++ pl

/-- The cel both C8 files decode to. -/
def f8cel : Cel :=
  { layer := 0, x := 0, y := 0, opacity := 255, w := some 2, h := some 2,
    pixels := some [0, 1, 1, 0], linked := none }

/-- The sprite both C8 files decode to (with the given name). -/
def sprite8 (nm : List Nat) : Sprite :=
  { name := nm, w := 2, h := 2, trans := 0, speed := 100, indexed := true,
    palette := some [(9, 8, 7, 255)], layers := some [], tags := none,
    frames := [{ duration := 10, cels := [f8cel] }] }

/-- Frame: palette chunk, USER chunk with payload `pl`, then a raw cel. -/
def file8with (pl : List Nat) : List Nat :=
  le32 (212 + pl.length) ++ hdr32Bytes (sprite8 []) ++
  List.replicate 92 0 ++
  (le32 (84 + pl.length) ++ le16 0xF1FA ++ le16 3 ++ le16 10 ++ [0, 0] ++
   le32 0) ++
  palChunkBytes [(9, 8, 7, 255)] ++ user8 pl ++ cel8

/-- The same frame without the USER chunk. -/
def file8without : List Nat :=
  le32 206 ++ hdr32Bytes (sprite8 []) ++ List.replicate 92 0 ++
  (le32 78 ++ le16 0xF1FA ++ le16 2 ++ le16 10 ++ [0, 0] ++ le32 0) ++
  palChunkBytes [(9, 8, 7, 255)] ++ cel8

/-- An indexed sprite with a layer whose name holds the non-ASCII code
point 233 followed by the ASCII letter 97: two characters, three UTF-8
bytes. -/
def sNonAscii : Sprite :=
  { name := [], w := 2, h := 2, trans := 0, speed := 100, indexed := true,
    palette := some [(1, 2, 3, 255)],
    layers := some [{ flags := 3, type := 0, child_level := 0,
                      blend_mode := 0, opacity := 255,
                      name := [233, 97] }],
    tags := none,
    frames := [{ duration := 50,
                 cels := [{ layer := 0, x := 0, y := 0, opacity := 255,
                            w := some 2, h := some 2,
                            pixels := some [0, 1, 1, 0],
                            linked := none }] }] }

/-- What the reader returns on `file4`: the sub-type-3 cel is appended in
partial form (layer, x, y, opacity only). -/
def sprite4 : Sprite :=
  { name := [], w := 2, h := 2, trans := 0, speed := 100, indexed := true,
    palette := none, layers := some [], tags := none,
    frames := [{ duration := 10,
                 cels := [{ layer := 0, x := 1, y := 2, opacity := 255,
                            w := none, h := none, pixels := none,
                            linked := none }] }] }

/-- What the reader returns on `file5` despite its header magic 0x1234. -/
def sprite5 : Sprite :=
  { name := [], w := 2, h := 2, trans := 0, speed := 100, indexed := true,
    palette := none, layers := some [], tags := none,
    frames := [{ duration := 10, cels := [] }] }

/-- What the reader returns on `file6` when decompression yields the
three bytes `[7, 7, 7]` for the declared 2×2 (4-pixel) cel. -/
def sprite6 : Sprite :=
  { name := [], w := 2, h := 2, trans := 0, speed := 100, indexed := true,
    palette := none, layers := some [], tags := none,
    frames := [{ duration := 10,
                 cels := [{ layer := 0, x := 0, y := 0, opacity := 255,
                            w := some 2, h := some 2,
                            pixels := some [7, 7, 7],
                            linked := none }] }] }

/-- What the reader returns on `file7`: the truncated two-byte pixel
buffer of the cel whose chunk declared four pixel bytes. -/
def sprite7 : Sprite :=
  { name := [], w := 2, h := 2, trans := 0, speed := 100, indexed := true,
    palette := none, layers := some [], tags := none,
    frames := [{ duration := 10,
                 cels := [{ layer := 0, x := 0, y := 0, opacity := 255,
                            w := some 2, h := some 2,
                            pixels := some [5, 6],
                            linked := none }] }] }

/-- What one round trip of `sNonAscii` returns: the stream stayed
consistent (the cel after the layer chunk parsed intact) but the layer
name was truncated to its first character-count UTF-8 bytes. -/
def sNonAsciiRead : Sprite :=
  { name := [], w := 2, h := 2, trans := 0, speed := 100, indexed := true,
    palette := some [(1, 2, 3, 255)],
    layers := some [{ flags := 3, type := 0, child_level := 0,
                      blend_mode := 0, opacity := 255, name := [233] }],
    tags := none,
    frames := [{ duration := 50,
                 cels := [{ layer := 0, x := 0, y := 0, opacity := 255,
                            w := some 2, h := some 2,
                            pixels := some [0, 1, 1, 0],
                            linked := none }] }] }

end Aseprite

deriving instance DecidableEq for Except

namespace Aseprite

/-! ## Basic lemmas: Except, bytes, slices, buffers -/

@[simp]
theorem ok_bind {α β : Type} (a : α) (f : α → Except Err β) :
    (Except.ok a >>= f) = f a := rfl

@[simp]
theorem error_bind {α β : Type} (e : Err) (f : α → Except Err β) :
    ((Except.error e : Except Err α) >>= f) = Except.error e := rfl

theorem le16_length (v : Nat) : (le16 v).length = 2 := rfl

theorem le32_length (v : Nat) : (le32 v).length = 4 := rfl

theorem p16i_length (x : Int) : (p16i x).length = 2 := rfl

theorem u16_le16 (v : Nat) (h : v < 65536) :
    u16 (v % 256) (v / 256 % 256) = v := by
  unfold u16; omega

theorem u32_le32 (v : Nat) (h : v < 4294967296) :
    u32 (v % 256) (v / 256 % 256) (v / 65536 % 256) (v / 16777216 % 256) = v := by
  unfold u32; omega

theorem s16_p16i (x : Int) (h1 : -32768 ≤ x) (h2 : x < 32768) :
    s16 ((x % 65536).toNat % 256) ((x % 65536).toNat / 256 % 256) = x := by
  simp only [s16, u16]
  split <;> omega

theorem drop_len_add {α : Type} (a b : List α) (n : Nat) :
    (a ++ b).drop (a.length + n) = b.drop n := by
  rw [← List.drop_drop, List.drop_left]

theorem replicate_split (z n : Nat) (h : n ≤ z) :
    List.replicate z (0 : Nat) = List.replicate n 0 ++ List.replicate (z - n) 0 := by
  rw [← List.replicate_add]; congr 1; omega

theorem pyslice_drop (data : List Nat) (p n : Nat) :
    pyslice data p (p + n) = (data.drop p).take n := by
  simp [pyslice]

/-- A slice fully inside a block located at offset `p` of the buffer. -/
theorem pyslice_block (data blk rest : List Nat) (p k n : Nat)
    (hd : data.drop p = blk ++ rest) (hkn : k + n ≤ blk.length) :
    pyslice data (p + k) (p + k + n) = (blk.drop k).take n := by
  rw [pyslice_drop, ← List.drop_drop, hd,
    List.drop_append_of_le_length (by omega), List.take_append_of_le_length]
  simp only [List.length_drop]; omega

/-- Dropping a whole block located at offset `p` of the buffer. -/
theorem drop_block (data blk rest : List Nat) (p : Nat)
    (hd : data.drop p = blk ++ rest) :
    data.drop (p + blk.length) = rest := by
  rw [← List.drop_drop, hd, List.drop_left]

/-- `struct.pack_into` at offset `o1.length` overwriting a same-length
region `mid`. -/
theorem packInto_spec (bytes mid o1 o2 : List Nat) (L q : Nat)
    (hm : mid.length = bytes.length) (hb : o1.length + bytes.length ≤ L) :
    packInto ⟨o1 ++ mid ++ o2, L, q⟩ o1.length bytes =
      .ok ⟨o1 ++ bytes ++ o2, L, q⟩ := by
  have htake : (o1 ++ mid ++ o2).take o1.length = o1 := by
    rw [List.append_assoc, List.take_left]
  have hdrop : (o1 ++ mid ++ o2).drop (o1.length + bytes.length) = o2 := by
    rw [List.append_assoc, ← hm, drop_len_add, List.drop_left]
  unfold packInto
  rw [if_pos hb]
  simp only [htake, hdrop]

/-- Python slice assignment at the end of the written region: replaces `k` of
the `z` trailing zero bytes by `bytes`, adjusting the buffer length. -/
theorem spliceAssign_end (out bytes : List Nat) (z k q : Nat) (hk : k ≤ z) :
    spliceAssign ⟨out ++ List.replicate z 0, out.length + z, q⟩ out.length k bytes
      = ⟨out ++ bytes ++ List.replicate (z - k) 0, out.length + z - k + bytes.length, q⟩ := by
  have hmin1 : min out.length (out.length + z) = out.length := by omega
  have hmin2 : min (out.length + k) (out.length + z) = out.length + k := by omega
  have htake : (out ++ List.replicate z 0).take out.length = out :=
    List.take_left _ _
  have hdrop : (out ++ List.replicate z 0).drop (out.length + k) =
      List.replicate (z - k) 0 := by
    rw [drop_len_add, List.drop_replicate]
  unfold spliceAssign
  simp only [hmin1, hmin2, htake, hdrop, WBuf.mk.injEq, and_true, true_and]
  omega

/-! ## UTF-8 lemmas -/

/-- Encoding a pure-ASCII code-point list is the identity. -/
theorem utf8Enc_ascii (nm : List Nat) (h : ∀ c ∈ nm, c < 128) :
    utf8Enc nm = some nm := by
  induction nm with
  | nil => rfl
  | cons c r ih =>
    have hc : c < 128 := h c (by simp)
    have h1 : utf8EncCp c = some [c] := by rw [utf8EncCp, if_pos hc]
    rw [utf8Enc, h1, ih (fun d hd => h d (by simp [hd]))]
    rfl

theorem utf8DecStep_ascii (b : Nat) (rest : List Nat) (hb : b < 128) :
    utf8DecStep b rest = some (b, rest) := by
  unfold utf8DecStep; rw [if_pos hb]

theorem utf8DecGo_ascii (fuel : Nat) (bs : List Nat) (hf : bs.length ≤ fuel)
    (h : ∀ c ∈ bs, c < 128) : utf8DecGo fuel bs = some bs := by
  induction fuel generalizing bs with
  | zero =>
    cases bs with
    | nil => rfl
    | cons b r => simp at hf
  | succ n ih =>
    cases bs with
    | nil => rfl
    | cons b r =>
      have hb : b < 128 := h b (by simp)
      show (match utf8DecStep b r with
            | some (cp, rr) => (utf8DecGo n rr).map (fun t => cp :: t)
            | none => none) = some (b :: r)
      rw [utf8DecStep_ascii b r hb]
      show (utf8DecGo n r).map (fun t => b :: t) = some (b :: r)
      rw [ih r (by simp at hf; omega) (fun d hd => h d (by simp [hd]))]
      rfl

/-- Decoding a pure-ASCII byte list is the identity. -/
theorem utf8Dec_ascii (bs : List Nat) (h : ∀ c ∈ bs, c < 128) :
    utf8Dec bs = some bs :=
  utf8DecGo_ascii bs.length bs le_rfl h

/-! ## Writer characterization

For a valid sprite, each emitter produces exactly the canonical bytes.  The
lemmas describe buffers of the shape `out ++ replicate z 0` (written prefix
followed by untouched zeros) with the cursor `p` at the end of `out`. -/

theorem writePalEntries_spec (pal : List (Nat × Nat × Nat × Nat))
    (out : List Nat) (z L p : Nat)
    (hg : ∀ e ∈ pal, e.1 < 256 ∧ e.2.1 < 256 ∧ e.2.2.1 < 256)
    (hz : 6 * pal.length ≤ z) (hL : L = out.length + z) (hp : p = out.length) :
    writePalEntries pal ⟨out ++ List.replicate z 0, L, p⟩ =
      .ok ⟨(out ++ (pal.map entryBytes).flatten) ++
             List.replicate (z - 6 * pal.length) 0, L, p + 6 * pal.length⟩ := by
  induction pal generalizing out z p with
  | nil => simp [writePalEntries]
  | cons e rest ih =>
    obtain ⟨h1, h2, h3⟩ := hg e (by simp)
    have hz6 : 6 ≤ z := by simp at hz; omega
    rw [writePalEntries]
    simp only [pckB, if_pos h1, if_pos h2, if_pos h3,
      if_pos (by norm_num : (255:Nat) < 256), ok_bind]
    have hsplit : List.replicate z (0:Nat) =
        List.replicate 6 0 ++ List.replicate (z - 6) 0 := replicate_split z 6 hz6
    have hbytes : le16 0 ++ [e.1] ++ [e.2.1] ++ [e.2.2.1] ++ [255] = entryBytes e := by
      simp [le16, entryBytes]
    rw [hbytes, hsplit, ← List.append_assoc, hp]
    rw [packInto_spec (entryBytes e) (List.replicate 6 0) out
      (List.replicate (z - 6) 0) L out.length (by simp [entryBytes])
      (by simp [entryBytes]; omega)]
    simp only [ok_bind]
    have hplen : out.length + 6 = (out ++ entryBytes e).length := by
      simp [entryBytes]
    have hrec := ih (out ++ entryBytes e) (z - 6) (out.length + 6)
      (fun d hd => hg d (by simp [hd]))
      (by simp at hz ⊢; omega) (by simp [entryBytes]; omega) hplen
    simp only [List.append_assoc] at hrec ⊢
    refine hrec.trans ?_
    have hrep : z - 6 - 6 * rest.length = z - 6 * (rest.length + 1) := by omega
    simp only [List.map_cons, List.flatten_cons, List.length_cons,
      List.append_assoc, hrep, Except.ok.injEq, WBuf.mk.injEq, true_and]
    omega

/-- `packInto` with the offset given by an equation rather than syntactically. -/
theorem packInto_at (bytes mid o1 o2 : List Nat) (L q po : Nat)
    (hpo : po = o1.length) (hm : mid.length = bytes.length)
    (hb : po + bytes.length ≤ L) :
    packInto ⟨o1 ++ mid ++ o2, L, q⟩ po bytes = .ok ⟨o1 ++ bytes ++ o2, L, q⟩ := by
  subst hpo; exact packInto_spec bytes mid o1 o2 L q hm hb

/-- Splitting off `k` zero bytes at the cursor boundary. -/
theorem shape_shift (a : List Nat) (k z : Nat) (hk : k ≤ z) :
    a ++ List.replicate z (0:Nat) =
      (a ++ List.replicate k 0) ++ List.replicate (z - k) 0 := by
  rw [replicate_split z k hk, ← List.append_assoc]

/-- `packInto` that appends `bytes` at the current end of the written prefix. -/
theorem packInto_end (out bytes : List Nat) (z L q po n : Nat)
    (hpo : po = out.length) (hn : bytes.length = n) (hz : n ≤ z)
    (hb : po + n ≤ L) :
    packInto ⟨out ++ List.replicate z 0, L, q⟩ po bytes =
      .ok ⟨(out ++ bytes) ++ List.replicate (z - n) 0, L, q⟩ := by
  subst hn
  rw [shape_shift out bytes.length z hz]
  rw [packInto_at bytes (List.replicate bytes.length 0) out
    (List.replicate (z - bytes.length) 0) L q po hpo (by simp) (by omega)]

/-- Slice assignment at the current end of the written prefix. -/
theorem spliceAssign_at (out bytes : List Nat) (z L k q po : Nat)
    (hpo : po = out.length) (hL : L = out.length + z) (hk : k ≤ z) :
    spliceAssign ⟨out ++ List.replicate z 0, L, q⟩ po k bytes =
      ⟨(out ++ bytes) ++ List.replicate (z - k) 0, L - k + bytes.length, q⟩ := by
  subst hpo; subst hL
  exact spliceAssign_end out bytes z k q hk

theorem writePaletteChunk_spec (pal : List (Nat × Nat × Nat × Nat))
    (out : List Nat) (z L p : Nat)
    (hg : ∀ e ∈ pal, e.1 < 256 ∧ e.2.1 < 256 ∧ e.2.2.1 < 256)
    (hn1 : 1 ≤ pal.length) (hn2 : pal.length < 65536)
    (hz : 26 + 6 * pal.length ≤ z) (hL : L = out.length + z)
    (hp : p = out.length) :
    writePaletteChunk pal ⟨out ++ List.replicate z 0, L, p⟩ =
      .ok ⟨(out ++ palChunkBytes pal) ++
             List.replicate (z - (26 + 6 * pal.length)) 0, L,
           p + (26 + 6 * pal.length)⟩ := by
  rw [writePaletteChunk]
  simp only [pckH, pckI, pckIneg, if_pos (by norm_num : (0x2019:Nat) < 65536),
    if_pos (by omega : pal.length < 4294967296),
    if_pos (by norm_num : (0:Nat) < 4294967296),
    if_pos (by omega : (0:Int) ≤ (pal.length:Int) - 1 ∧
      ((pal.length:Int) - 1) < 4294967296), ok_bind]
  rw [show ((pal.length:Int) - 1).toNat = pal.length - 1 from by omega]
  rw [shape_shift out 4 z (by omega)]
  rw [packInto_end (out ++ List.replicate 4 0)
    (le16 0x2019 ++ le32 pal.length ++ le32 0 ++ le32 (pal.length - 1))
    (z - 4) L (p + 4) (p + 4) 14 (by simp [hp]) (by simp [le16, le32]) (by omega)
    (by omega)]
  simp only [ok_bind]
  rw [shape_shift ((out ++ List.replicate 4 0) ++
        (le16 0x2019 ++ le32 pal.length ++ le32 0 ++ le32 (pal.length - 1)))
      8 (z - 4 - 14) (by omega)]
  rw [writePalEntries_spec pal _ (z - 4 - 14 - 8) L (p + 4 + 14 + 8) hg
    (by omega) (by simp [le16, le32, hL]; omega) (by simp [le16, le32, hp])]
  simp only [ok_bind]
  rw [show p + 4 + 14 + 8 + 6 * pal.length - p = 26 + 6 * pal.length from by omega]
  simp only [pckI, if_pos (by omega : 26 + 6 * pal.length < 4294967296), ok_bind]
  have hre : ((((out ++ List.replicate 4 0) ++
      (le16 0x2019 ++ le32 pal.length ++ le32 0 ++ le32 (pal.length - 1))) ++
      List.replicate 8 0) ++ (pal.map entryBytes).flatten) ++
      List.replicate (z - 4 - 14 - 8 - 6 * pal.length) 0 =
      (out ++ List.replicate 4 0) ++
      ((le16 0x2019 ++ le32 pal.length ++ le32 0 ++ le32 (pal.length - 1)) ++
       List.replicate 8 0 ++ (pal.map entryBytes).flatten ++
       List.replicate (z - 4 - 14 - 8 - 6 * pal.length) 0) := by
    simp [List.append_assoc]
  rw [hre]
  rw [packInto_at (le32 (26 + 6 * pal.length)) (List.replicate 4 0) out
    ((le16 0x2019 ++ le32 pal.length ++ le32 0 ++ le32 (pal.length - 1)) ++
     List.replicate 8 0 ++ (pal.map entryBytes).flatten ++
     List.replicate (z - 4 - 14 - 8 - 6 * pal.length) 0) L
    (p + 4 + 14 + 8 + 6 * pal.length) p hp (by simp [le32]) (by simp [le32]; omega)]
  rw [show z - 4 - 14 - 8 - 6 * pal.length = z - (26 + 6 * pal.length) from by omega]
  simp only [palChunkBytes, List.append_assoc, Except.ok.injEq, WBuf.mk.injEq,
    true_and]
  omega

theorem tagBytes_length (t : Tag) : (tagBytes t).length = 19 + t.name.length := by
  simp [tagBytes, le16]; omega

theorem writeTagList_spec (ts : List Tag) (out : List Nat) (z L p : Nat)
    (hg : ∀ t ∈ ts, t.fromFrame < 65536 ∧ t.toFrame < 65536 ∧
      t.loop_dir < 256 ∧ t.name.length < 65536 ∧ ∀ c ∈ t.name, c < 128)
    (hz : ((ts.map tagBytes).flatten).length ≤ z) (hL : L = out.length + z)
    (hp : p = out.length) :
    writeTagList ts ⟨out ++ List.replicate z 0, L, p⟩ =
      .ok ⟨(out ++ (ts.map tagBytes).flatten) ++
             List.replicate (z - ((ts.map tagBytes).flatten).length) 0, L,
           p + ((ts.map tagBytes).flatten).length⟩ := by
  induction ts generalizing out z p with
  | nil => simp [writeTagList]
  | cons t rest ih =>
    obtain ⟨h1, h2, h3, h4, h5⟩ := hg t (by simp)
    have hz' : 19 + t.name.length + ((rest.map tagBytes).flatten).length ≤ z := by
      simpa [tagBytes_length] using hz
    rw [writeTagList]
    simp only [pckH, pckB, if_pos h1, if_pos h2, if_pos h3, if_pos h4, ok_bind]
    rw [packInto_end out (le16 t.fromFrame ++ le16 t.toFrame ++ [t.loop_dir])
      z L p p 5 hp (by simp [le16]) (by omega) (by omega)]
    simp only [ok_bind]
    rw [shape_shift (out ++ (le16 t.fromFrame ++ le16 t.toFrame ++ [t.loop_dir]))
      12 (z - 5) (by omega)]
    rw [packInto_end ((out ++ (le16 t.fromFrame ++ le16 t.toFrame ++ [t.loop_dir])) ++
        List.replicate 12 0) (le16 t.name.length) (z - 5 - 12) L
      (p + 5 + 8 + 3 + 1) (p + 5 + 8 + 3 + 1) 2
      (by simp [le16, hp]) (by simp [le16]) (by omega) (by omega)]
    simp only [ok_bind, pyUtf8Enc, utf8Enc_ascii t.name h5]
    rw [spliceAssign_at (((out ++ (le16 t.fromFrame ++ le16 t.toFrame ++
        [t.loop_dir])) ++ List.replicate 12 0) ++ le16 t.name.length) t.name
      (z - 5 - 12 - 2) L t.name.length (p + 5 + 8 + 3 + 1 + 2)
      (p + 5 + 8 + 3 + 1 + 2) (by simp [le16, hp]) (by simp [le16]; omega)
      (by omega)]
    rw [show L - t.name.length + t.name.length = L from by omega]
    have hrec := ih ((((out ++ (le16 t.fromFrame ++ le16 t.toFrame ++
        [t.loop_dir])) ++ List.replicate 12 0) ++ le16 t.name.length) ++ t.name)
      (z - 5 - 12 - 2 - t.name.length) (p + 5 + 8 + 3 + 1 + 2 + t.name.length)
      (fun d hd => hg d (by simp [hd]))
      (by omega) (by simp [le16, hL]; omega) (by simp [le16, hp]; omega)
    simp only [List.append_assoc] at hrec ⊢
    refine hrec.trans ?_
    have hrep : z - 5 - 12 - 2 - t.name.length -
        ((rest.map tagBytes).flatten).length =
        z - (((t :: rest).map tagBytes).flatten).length := by
      simp only [List.map_cons, List.flatten_cons, List.length_append,
        tagBytes_length]
      omega
    simp only [List.map_cons, List.flatten_cons, List.length_append,
      tagBytes_length, tagBytes, List.append_assoc, le16_length,
      List.length_replicate, List.length_cons, List.length_nil,
      Except.ok.injEq, WBuf.mk.injEq]
    simp only [List.append_right_inj, List.cons.injEq, List.cons_append,
      List.nil_append, List.replicate_left_inj, true_and]
    omega

theorem writeTagsChunk_spec (ts : List Tag) (out : List Nat) (z L p : Nat)
    (hg : ∀ t ∈ ts, t.fromFrame < 65536 ∧ t.toFrame < 65536 ∧
      t.loop_dir < 256 ∧ t.name.length < 65536 ∧ ∀ c ∈ t.name, c < 128)
    (hn : ts.length < 65536)
    (hz : (tagsChunkBytes ts).length ≤ z) (hL : L = out.length + z)
    (hL32 : L < 4294967296) (hp : p = out.length) :
    writeTagsChunk ts ⟨out ++ List.replicate z 0, L, p⟩ =
      .ok ⟨(out ++ tagsChunkBytes ts) ++
             List.replicate (z - (tagsChunkBytes ts).length) 0, L,
           p + (tagsChunkBytes ts).length⟩ := by
  have hzlen : (tagsChunkBytes ts).length =
      16 + ((ts.map tagBytes).flatten).length := by
    simp [tagsChunkBytes, le16, le32]; omega
  rw [hzlen] at hz
  rw [writeTagsChunk]
  simp only [pckH, if_pos (by norm_num : (0x2018:Nat) < 65536), if_pos hn,
    ok_bind]
  rw [shape_shift out 4 z (by omega)]
  rw [packInto_end (out ++ List.replicate 4 0)
    (le16 0x2018 ++ le16 ts.length) (z - 4) L (p + 4) (p + 4) 4
    (by simp [hp]) (by simp [le16]) (by omega) (by omega)]
  simp only [ok_bind]
  rw [shape_shift ((out ++ List.replicate 4 0) ++
      (le16 0x2018 ++ le16 ts.length)) 8 (z - 4 - 4) (by omega)]
  rw [writeTagList_spec ts _ (z - 4 - 4 - 8) L (p + 4 + 4 + 8) hg
    (by omega) (by simp [le16, hL]; omega) (by simp [le16, hp])]
  simp only [ok_bind]
  rw [show p + 4 + 4 + 8 + ((ts.map tagBytes).flatten).length - p =
    16 + ((ts.map tagBytes).flatten).length from by omega]
  simp only [pckI, if_pos (by omega : 16 + ((ts.map tagBytes).flatten).length <
    4294967296), ok_bind]
  have hre : ((((out ++ List.replicate 4 0) ++ (le16 0x2018 ++ le16 ts.length)) ++
      List.replicate 8 0) ++ (ts.map tagBytes).flatten) ++
      List.replicate (z - 4 - 4 - 8 - ((ts.map tagBytes).flatten).length) 0 =
      (out ++ List.replicate 4 0) ++
      ((le16 0x2018 ++ le16 ts.length) ++ List.replicate 8 0 ++
       (ts.map tagBytes).flatten ++
       List.replicate (z - 4 - 4 - 8 - ((ts.map tagBytes).flatten).length) 0) := by
    simp [List.append_assoc]
  rw [hre]
  rw [packInto_at (le32 (16 + ((ts.map tagBytes).flatten).length))
    (List.replicate 4 0) out
    ((le16 0x2018 ++ le16 ts.length) ++ List.replicate 8 0 ++
     (ts.map tagBytes).flatten ++
     List.replicate (z - 4 - 4 - 8 - ((ts.map tagBytes).flatten).length) 0) L
    (p + 4 + 4 + 8 + ((ts.map tagBytes).flatten).length) p hp (by simp [le32])
    (by simp [le32]; omega)]
  simp only [tagsChunkBytes, le16, le32, List.map_cons, List.flatten_cons,
    List.append_assoc, List.cons_append, List.nil_append, Except.ok.injEq,
    WBuf.mk.injEq, List.append_right_inj, List.cons.injEq,
    List.replicate_left_inj, true_and, le16_length, le32_length,
    List.length_append, List.length_replicate, List.length_cons,
    List.length_nil]
  omega

theorem layerChunkBytes_length (l : Layer) :
    (layerChunkBytes l).length = 24 + l.name.length := by
  simp [layerChunkBytes, le16, le32]; omega

theorem writeLayerChunk_spec (l : Layer) (out : List Nat) (z L p : Nat)
    (hg : GoodLayerP l)
    (hz : 24 + l.name.length ≤ z) (hL : L = out.length + z)
    (hp : p = out.length) :
    writeLayerChunk l ⟨out ++ List.replicate z 0, L, p⟩ =
      .ok ⟨(out ++ layerChunkBytes l) ++
             List.replicate (z - (24 + l.name.length)) 0, L,
           p + (24 + l.name.length)⟩ := by
  obtain ⟨h1, h2, h3, h4, h5, h6, h7⟩ := hg
  rw [writeLayerChunk]
  simp only [pckH, pckB, if_pos (by norm_num : (0x2004:Nat) < 65536),
    if_pos h1, if_pos h2, if_pos h3, if_pos h4, if_pos h5, if_pos h6,
    if_pos (by norm_num : (0:Nat) < 65536), ok_bind]
  rw [shape_shift out 4 z (by omega)]
  rw [packInto_end (out ++ List.replicate 4 0) (le16 0x2004) (z - 4) L
    (p + 4) (p + 4) 2 (by simp [hp]) (by simp [le16]) (by omega) (by omega)]
  simp only [ok_bind]
  rw [packInto_end ((out ++ List.replicate 4 0) ++ le16 0x2004)
    (le16 l.flags ++ le16 l.type ++ le16 l.child_level ++ le16 0 ++ le16 0 ++
      le16 l.blend_mode ++ [l.opacity]) (z - 4 - 2) L (p + 4 + 2) (p + 4 + 2) 13
    (by simp [le16, hp]) (by simp [le16]) (by omega) (by omega)]
  simp only [ok_bind]
  rw [shape_shift (((out ++ List.replicate 4 0) ++ le16 0x2004) ++
      (le16 l.flags ++ le16 l.type ++ le16 l.child_level ++ le16 0 ++ le16 0 ++
       le16 l.blend_mode ++ [l.opacity])) 3 (z - 4 - 2 - 13) (by omega)]
  rw [packInto_end ((((out ++ List.replicate 4 0) ++ le16 0x2004) ++
      (le16 l.flags ++ le16 l.type ++ le16 l.child_level ++ le16 0 ++ le16 0 ++
       le16 l.blend_mode ++ [l.opacity])) ++ List.replicate 3 0)
    (le16 l.name.length) (z - 4 - 2 - 13 - 3) L (p + 6 + 13 + 3) (p + 6 + 13 + 3)
    2 (by simp [le16, hp] <;> omega) (by simp [le16]) (by omega) (by omega)]
  simp only [ok_bind, pyUtf8Enc, utf8Enc_ascii l.name h7]
  rw [spliceAssign_at (((((out ++ List.replicate 4 0) ++ le16 0x2004) ++
      (le16 l.flags ++ le16 l.type ++ le16 l.child_level ++ le16 0 ++ le16 0 ++
       le16 l.blend_mode ++ [l.opacity])) ++ List.replicate 3 0) ++
      le16 l.name.length) l.name (z - 4 - 2 - 13 - 3 - 2) L l.name.length
    (p + 6 + 13 + 3 + 2) (p + 6 + 13 + 3 + 2) (by simp [le16, hp] <;> omega)
    (by simp [le16] <;> omega) (by omega)]
  rw [show L - l.name.length + l.name.length = L from by omega]
  rw [show p + 6 + 13 + 3 + 2 + l.name.length - p = 24 + l.name.length from by
    omega]
  simp only [pckI, if_pos (by omega : 24 + l.name.length < 4294967296), ok_bind]
  have hre : ((((((out ++ List.replicate 4 0) ++ le16 0x2004) ++
      (le16 l.flags ++ le16 l.type ++ le16 l.child_level ++ le16 0 ++ le16 0 ++
       le16 l.blend_mode ++ [l.opacity])) ++ List.replicate 3 0) ++
      le16 l.name.length) ++ l.name) ++
      List.replicate (z - 4 - 2 - 13 - 3 - 2 - l.name.length) 0 =
      (out ++ List.replicate 4 0) ++
      (le16 0x2004 ++ (le16 l.flags ++ le16 l.type ++ le16 l.child_level ++
       le16 0 ++ le16 0 ++ le16 l.blend_mode ++ [l.opacity]) ++
       List.replicate 3 0 ++ le16 l.name.length ++ l.name ++
       List.replicate (z - 4 - 2 - 13 - 3 - 2 - l.name.length) 0) := by
    simp [List.append_assoc]
  rw [hre]
  rw [packInto_at (le32 (24 + l.name.length)) (List.replicate 4 0) out
    (le16 0x2004 ++ (le16 l.flags ++ le16 l.type ++ le16 l.child_level ++
     le16 0 ++ le16 0 ++ le16 l.blend_mode ++ [l.opacity]) ++
     List.replicate 3 0 ++ le16 l.name.length ++ l.name ++
     List.replicate (z - 4 - 2 - 13 - 3 - 2 - l.name.length) 0) L
    (p + 24 + l.name.length) p hp (by simp [le32]) (by simp [le32]; omega)]
  simp only [layerChunkBytes, List.append_assoc, List.cons_append,
    List.nil_append, Except.ok.injEq, WBuf.mk.injEq, List.append_right_inj,
    List.cons.injEq, List.replicate_left_inj, true_and]
  omega

theorem writeLayerChunks_spec (ls : List Layer) (out : List Nat) (z L p : Nat)
    (hg : ∀ l ∈ ls, GoodLayerP l)
    (hz : ((ls.map layerChunkBytes).flatten).length ≤ z)
    (hL : L = out.length + z) (hp : p = out.length) :
    writeLayerChunks ls ⟨out ++ List.replicate z 0, L, p⟩ =
      .ok ⟨(out ++ (ls.map layerChunkBytes).flatten) ++
             List.replicate (z - ((ls.map layerChunkBytes).flatten).length) 0,
           L, p + ((ls.map layerChunkBytes).flatten).length⟩ := by
  induction ls generalizing out z p with
  | nil => simp [writeLayerChunks]
  | cons l rest ih =>
    have hgl := hg l (by simp)
    have hz' : 24 + l.name.length +
        ((rest.map layerChunkBytes).flatten).length ≤ z := by
      simpa [layerChunkBytes_length] using hz
    rw [writeLayerChunks]
    rw [writeLayerChunk_spec l out z L p hgl (by omega) hL hp]
    simp only [ok_bind]
    have hrec := ih (out ++ layerChunkBytes l) (z - (24 + l.name.length))
      (p + (24 + l.name.length)) (fun d hd => hg d (by simp [hd]))
      (by omega) (by simp [layerChunkBytes_length, hL] <;> omega)
      (by simp [layerChunkBytes_length, hp] <;> omega)
    simp only [List.append_assoc] at hrec ⊢
    refine hrec.trans ?_
    simp only [List.map_cons, List.flatten_cons, List.length_append,
      layerChunkBytes_length, List.append_assoc, List.append_right_inj,
      List.replicate_left_inj, Except.ok.injEq, WBuf.mk.injEq, true_and]
    omega

theorem celChunkBytes_length (compress : List Nat → List Nat) (c : Cel) :
    (celChunkBytes compress c).length = celChunkLen compress c := by
  unfold celChunkBytes celChunkLen
  cases c.linked with
  | some lk => simp [le16, le32, p16i]
  | none => simp [le16, le32, p16i]; omega

theorem writeCelChunk_spec (compress : List Nat → List Nat) (c : Cel)
    (out : List Nat) (z L p : Nat) (hg : GoodCelP c)
    (hz : celChunkLen compress c ≤ z) (hL : L = out.length + z)
    (hL32 : L < 4294967296) (hp : p = out.length) :
    writeCelChunk compress c ⟨out ++ List.replicate z 0, L, p⟩ =
      .ok ⟨(out ++ celChunkBytes compress c) ++
             List.replicate (z - celChunkLen compress c) 0, L,
           p + celChunkLen compress c⟩ := by
  obtain ⟨h1, h2, h3, h4, h5, h6, h7⟩ := hg
  rw [writeCelChunk]
  cases hc : c.linked with
  | some lk =>
    rw [hc] at h7
    have hlk : lk < 65536 := h7
    have hc24 : celChunkLen compress c = 24 := by simp [celChunkLen, hc]
    have hz24 : (24:Nat) ≤ z := by omega
    rw [hc24]
    simp only [hc, pckH, pckB, pckh, getKey,
      if_pos (by norm_num : (0x2005:Nat) < 65536), if_pos h1,
      if_pos (And.intro h2 h3), if_pos (And.intro h4 h5), if_pos h6,
      if_pos (by norm_num : (1:Nat) < 65536), if_pos hlk, if_true, ok_bind]
    rw [shape_shift out 4 z (by omega)]
    rw [packInto_end (out ++ List.replicate 4 0)
      (le16 0x2005 ++ le16 c.layer ++ le16 (c.x % 65536).toNat ++
        le16 (c.y % 65536).toNat ++ [c.opacity] ++ le16 1) (z - 4) L
      (p + 4) (p + 4) 11 (by simp [hp]) (by simp [le16]) (by omega) (by omega)]
    simp only [ok_bind]
    rw [shape_shift ((out ++ List.replicate 4 0) ++
        (le16 0x2005 ++ le16 c.layer ++ le16 (c.x % 65536).toNat ++
         le16 (c.y % 65536).toNat ++ [c.opacity] ++ le16 1)) 7 (z - 4 - 11)
      (by omega)]
    rw [packInto_end (((out ++ List.replicate 4 0) ++
        (le16 0x2005 ++ le16 c.layer ++ le16 (c.x % 65536).toNat ++
         le16 (c.y % 65536).toNat ++ [c.opacity] ++ le16 1)) ++
        List.replicate 7 0) (le16 lk) (z - 4 - 11 - 7) L
      (p + 4 + 11 + 7) (p + 4 + 11 + 7) 2 (by simp [le16, hp] <;> omega)
      (by simp [le16]) (by omega) (by omega)]
    simp only [ok_bind]
    rw [show p + 4 + 11 + 7 + 2 - p = 24 from by omega]
    simp only [pckI, if_pos (by norm_num : (24:Nat) < 4294967296), ok_bind]
    have hre : ((((out ++ List.replicate 4 0) ++
        (le16 0x2005 ++ le16 c.layer ++ le16 (c.x % 65536).toNat ++
         le16 (c.y % 65536).toNat ++ [c.opacity] ++ le16 1)) ++
        List.replicate 7 0) ++ le16 lk) ++
        List.replicate (z - 4 - 11 - 7 - 2) 0 =
        (out ++ List.replicate 4 0) ++
        ((le16 0x2005 ++ le16 c.layer ++ le16 (c.x % 65536).toNat ++
          le16 (c.y % 65536).toNat ++ [c.opacity] ++ le16 1) ++
         List.replicate 7 0 ++ le16 lk ++
         List.replicate (z - 4 - 11 - 7 - 2) 0) := by
      simp [List.append_assoc]
    rw [hre]
    rw [packInto_at (le32 24) (List.replicate 4 0) out
      ((le16 0x2005 ++ le16 c.layer ++ le16 (c.x % 65536).toNat ++
        le16 (c.y % 65536).toNat ++ [c.opacity] ++ le16 1) ++
       List.replicate 7 0 ++ le16 lk ++
       List.replicate (z - 4 - 11 - 7 - 2) 0) L (p + 4 + 11 + 7 + 2) p hp
      (by simp [le32]) (by simp [le32]; omega)]
    simp only [celChunkBytes, celChunkLen, hc, p16i, List.append_assoc,
      List.cons_append, List.nil_append, Except.ok.injEq, WBuf.mk.injEq,
      List.append_right_inj, List.cons.injEq, List.replicate_left_inj, true_and,
      and_true]
    omega
  | none =>
    rw [hc] at h7
    have h7' : (∃ wv, c.w = some wv ∧ wv < 65536) ∧
        (∃ hv, c.h = some hv ∧ hv < 65536) ∧ (∃ px, c.pixels = some px) := h7
    obtain ⟨⟨wv, hwv, hwlt⟩, ⟨hv, hhv, hhlt⟩, ⟨px, hpx⟩⟩ := h7'
    have hcl : celChunkLen compress c = 26 + (compress px).length := by
      simp [celChunkLen, hc, hpx]
    rw [hcl] at hz
    rw [hcl]
    simp only [hc, hwv, hhv, hpx, pckH, pckB, pckh, getKey,
      if_pos (by norm_num : (0x2005:Nat) < 65536),
      if_pos h1, if_pos (And.intro h2 h3), if_pos (And.intro h4 h5), if_pos h6,
      if_pos (by norm_num : (2:Nat) < 65536), if_pos hwlt, if_pos hhlt,
      if_neg (by norm_num : ¬ (2:Nat) = 1), if_false, ok_bind]
    rw [shape_shift out 4 z (by omega)]
    rw [packInto_end (out ++ List.replicate 4 0)
      (le16 0x2005 ++ le16 c.layer ++ le16 (c.x % 65536).toNat ++
        le16 (c.y % 65536).toNat ++ [c.opacity] ++ le16 2) (z - 4) L
      (p + 4) (p + 4) 11 (by simp [hp]) (by simp [le16]) (by omega) (by omega)]
    simp only [ok_bind]
    rw [shape_shift ((out ++ List.replicate 4 0) ++
        (le16 0x2005 ++ le16 c.layer ++ le16 (c.x % 65536).toNat ++
         le16 (c.y % 65536).toNat ++ [c.opacity] ++ le16 2)) 7 (z - 4 - 11)
      (by omega)]
    rw [packInto_end (((out ++ List.replicate 4 0) ++
        (le16 0x2005 ++ le16 c.layer ++ le16 (c.x % 65536).toNat ++
         le16 (c.y % 65536).toNat ++ [c.opacity] ++ le16 2)) ++
        List.replicate 7 0) (le16 wv ++ le16 hv) (z - 4 - 11 - 7) L
      (p + 4 + 11 + 7) (p + 4 + 11 + 7) 4 (by simp [le16, hp] <;> omega)
      (by simp [le16]) (by omega) (by omega)]
    simp only [ok_bind]
    rw [spliceAssign_at ((((out ++ List.replicate 4 0) ++
        (le16 0x2005 ++ le16 c.layer ++ le16 (c.x % 65536).toNat ++
         le16 (c.y % 65536).toNat ++ [c.opacity] ++ le16 2)) ++
        List.replicate 7 0) ++ (le16 wv ++ le16 hv)) (compress px)
      (z - 4 - 11 - 7 - 4) L (compress px).length (p + 4 + 11 + 7 + 4)
      (p + 4 + 11 + 7 + 4) (by simp [le16, hp] <;> omega)
      (by simp [le16] <;> omega) (by omega)]
    rw [show L - (compress px).length + (compress px).length = L from by omega]
    rw [show p + 4 + 11 + 7 + 4 + (compress px).length - p =
      26 + (compress px).length from by omega]
    simp only [pckI, if_pos (by omega : 26 + (compress px).length < 4294967296),
      ok_bind]
    have hre : (((((out ++ List.replicate 4 0) ++
        (le16 0x2005 ++ le16 c.layer ++ le16 (c.x % 65536).toNat ++
         le16 (c.y % 65536).toNat ++ [c.opacity] ++ le16 2)) ++
        List.replicate 7 0) ++ (le16 wv ++ le16 hv)) ++
        compress px) ++ List.replicate (z - 4 - 11 - 7 - 4 -
          (compress px).length) 0 =
        (out ++ List.replicate 4 0) ++
        ((le16 0x2005 ++ le16 c.layer ++ le16 (c.x % 65536).toNat ++
          le16 (c.y % 65536).toNat ++ [c.opacity] ++ le16 2) ++
         List.replicate 7 0 ++ (le16 wv ++ le16 hv) ++ compress px ++
         List.replicate (z - 4 - 11 - 7 - 4 - (compress px).length) 0) := by
      simp [List.append_assoc]
    rw [hre]
    rw [packInto_at (le32 (26 + (compress px).length)) (List.replicate 4 0) out
      ((le16 0x2005 ++ le16 c.layer ++ le16 (c.x % 65536).toNat ++
        le16 (c.y % 65536).toNat ++ [c.opacity] ++ le16 2) ++
       List.replicate 7 0 ++ (le16 wv ++ le16 hv) ++ compress px ++
       List.replicate (z - 4 - 11 - 7 - 4 - (compress px).length) 0) L
      (p + 4 + 11 + 7 + 4 + (compress px).length) p hp (by simp [le32])
      (by simp [le32]; omega)]
    simp only [celChunkBytes, celChunkLen, hc, hwv, hhv, hpx, p16i,
      Option.getD, List.append_assoc, List.cons_append, List.nil_append,
      Except.ok.injEq, WBuf.mk.injEq, List.append_right_inj, List.cons.injEq,
      List.replicate_left_inj, true_and, and_true]
    omega

theorem writeCelChunks_spec (compress : List Nat → List Nat) (cels : List Cel)
    (out : List Nat) (z L p : Nat) (hg : ∀ c ∈ cels, GoodCelP c)
    (hz : ((cels.map (celChunkBytes compress)).flatten).length ≤ z)
    (hL : L = out.length + z) (hL32 : L < 4294967296) (hp : p = out.length) :
    writeCelChunks compress cels ⟨out ++ List.replicate z 0, L, p⟩ =
      .ok ⟨(out ++ (cels.map (celChunkBytes compress)).flatten) ++
             List.replicate
               (z - ((cels.map (celChunkBytes compress)).flatten).length) 0,
           L, p + ((cels.map (celChunkBytes compress)).flatten).length⟩ := by
  induction cels generalizing out z p with
  | nil => simp [writeCelChunks]
  | cons c rest ih =>
    have hgc := hg c (by simp)
    have hz' : celChunkLen compress c +
        ((rest.map (celChunkBytes compress)).flatten).length ≤ z := by
      simpa [celChunkBytes_length] using hz
    rw [writeCelChunks]
    rw [writeCelChunk_spec compress c out z L p hgc (by omega) hL hL32 hp]
    simp only [ok_bind]
    have hrec := ih (out ++ celChunkBytes compress c)
      (z - celChunkLen compress c) (p + celChunkLen compress c)
      (fun d hd => hg d (by simp [hd]))
      (by omega) (by simp [celChunkBytes_length, hL] <;> omega)
      (by simp [celChunkBytes_length, hp] <;> omega)
    simp only [List.append_assoc] at hrec ⊢
    refine hrec.trans ?_
    simp only [List.map_cons, List.flatten_cons, List.length_append,
      celChunkBytes_length, List.append_assoc, List.append_right_inj,
      List.replicate_left_inj, Except.ok.injEq, WBuf.mk.injEq, true_and]
    omega

theorem entriesFlat_length (pal : List (Nat × Nat × Nat × Nat)) :
    ((pal.map entryBytes).flatten).length = 6 * pal.length := by
  induction pal with
  | nil => simp
  | cons e rest ih =>
    simp only [List.map_cons, List.flatten_cons, List.length_append, ih,
      entryBytes, List.length_cons, List.length_nil]
    omega

theorem palChunkBytes_length (pal : List (Nat × Nat × Nat × Nat)) :
    (palChunkBytes pal).length = 26 + 6 * pal.length := by
  simp only [palChunkBytes, le16, le32, List.length_append,
    entriesFlat_length, List.length_cons, List.length_nil,
    List.length_replicate]

theorem writeFirstFrameChunks_spec (s : Sprite) (out : List Nat) (z L p : Nat)
    (hgs : GoodSpriteP s)
    (hz : (firstChunksBytes s).length ≤ z) (hL : L = out.length + z)
    (hL32 : L < 4294967296) (hp : p = out.length) :
    writeFirstFrameChunks s ⟨out ++ List.replicate z 0, L, p⟩ =
      .ok (⟨(out ++ firstChunksBytes s) ++
              List.replicate (z - (firstChunksBytes s).length) 0, L,
            p + (firstChunksBytes s).length⟩, firstChunkCount s) := by
  obtain ⟨hii, -, -, -, -, -, -, ⟨pal, hpal, hp1, hp2, hpg⟩, hlsg, htsg, -⟩ := hgs
  have hPL : (palChunkBytes pal).length = 26 + 6 * pal.length :=
    palChunkBytes_length pal
  rw [writeFirstFrameChunks]
  simp only [hii, if_true, getKey, hpal, ok_bind]
  cases hts : s.tags with
  | none =>
    cases hls : s.layers with
    | none =>
      have hfb : firstChunksBytes s = palChunkBytes pal := by
        simp [firstChunksBytes, hii, hpal, hts, hls]
      rw [hfb] at hz ⊢
      rw [writePaletteChunk_spec pal out z L p hpg hp1 hp2
        (by rw [← hPL]; omega) hL hp]
      simp only [ok_bind, hPL, firstChunkCount, hii, hts, hls, if_true]
      rfl
    | some ls =>
      have hlg : ∀ l ∈ ls, GoodLayerP l := hlsg ls hls
      have hfb : firstChunksBytes s =
          palChunkBytes pal ++ ((ls.map layerChunkBytes).flatten) := by
        simp [firstChunksBytes, hii, hpal, hts, hls]
      rw [hfb] at hz ⊢
      simp only [List.length_append, hPL] at hz
      rw [writePaletteChunk_spec pal out z L p hpg hp1 hp2 (by omega) hL hp]
      simp only [ok_bind]
      rw [writeLayerChunks_spec ls (out ++ palChunkBytes pal)
        (z - (26 + 6 * pal.length)) L (p + (26 + 6 * pal.length)) hlg
        (by omega) (by simp [hPL, hL]; omega) (by simp [hPL, hp])]
      simp only [ok_bind, firstChunkCount, hii, hts, hls, if_true,
        Option.getD_some, Option.getD_none]
      simp only [List.append_assoc, List.length_append, List.length_nil, hPL,
        Prod.mk.injEq, Except.ok.injEq, WBuf.mk.injEq, true_and,
        List.append_right_inj, List.replicate_left_inj, and_true]
      omega
  | some ts =>
    obtain ⟨htn, htg⟩ := htsg ts hts
    cases hls : s.layers with
    | none =>
      have hfb : firstChunksBytes s = palChunkBytes pal ++ tagsChunkBytes ts := by
        simp [firstChunksBytes, hii, hpal, hts, hls]
      rw [hfb] at hz ⊢
      simp only [List.length_append, hPL] at hz
      rw [writePaletteChunk_spec pal out z L p hpg hp1 hp2 (by omega) hL hp]
      simp only [ok_bind]
      rw [writeTagsChunk_spec ts (out ++ palChunkBytes pal)
        (z - (26 + 6 * pal.length)) L (p + (26 + 6 * pal.length))
        (fun t ht => htg t ht) htn (by omega) (by simp [hPL, hL]; omega) hL32
        (by simp [hPL, hp])]
      simp only [ok_bind, firstChunkCount, hii, hts, hls, if_true,
        Option.getD_some, Option.getD_none]
      simp only [List.append_assoc, List.length_append, List.length_nil, hPL,
        Prod.mk.injEq, Except.ok.injEq, WBuf.mk.injEq, true_and,
        List.append_right_inj, List.replicate_left_inj, and_true]
      omega
    | some ls =>
      have hlg : ∀ l ∈ ls, GoodLayerP l := hlsg ls hls
      have hfb : firstChunksBytes s = palChunkBytes pal ++ tagsChunkBytes ts ++
          ((ls.map layerChunkBytes).flatten) := by
        simp [firstChunksBytes, hii, hpal, hts, hls]
      rw [hfb] at hz ⊢
      simp only [List.length_append, hPL] at hz
      rw [writePaletteChunk_spec pal out z L p hpg hp1 hp2 (by omega) hL hp]
      simp only [ok_bind]
      rw [writeTagsChunk_spec ts (out ++ palChunkBytes pal)
        (z - (26 + 6 * pal.length)) L (p + (26 + 6 * pal.length))
        (fun t ht => htg t ht) htn (by omega) (by simp [hPL, hL]; omega) hL32
        (by simp [hPL, hp])]
      simp only [ok_bind]
      rw [writeLayerChunks_spec ls ((out ++ palChunkBytes pal) ++
          tagsChunkBytes ts)
        (z - (26 + 6 * pal.length) - (tagsChunkBytes ts).length) L
        (p + (26 + 6 * pal.length) + (tagsChunkBytes ts).length) hlg
        (by omega) (by simp [hPL, hL]; omega) (by simp [hPL, hp] <;> omega)]
      simp only [ok_bind, firstChunkCount, hii, hts, hls, if_true,
        Option.getD_some, Option.getD_none]
      simp only [List.append_assoc, List.length_append, List.length_nil, hPL,
        Prod.mk.injEq, Except.ok.injEq, WBuf.mk.injEq, true_and,
        List.append_right_inj, List.replicate_left_inj, and_true]
      omega

theorem writeFrame_spec (compress : List Nat → List Nat) (s : Sprite)
    (first : Bool) (f : Frame) (out : List Nat) (z L p : Nat)
    (hgs : GoodSpriteP s) (hfd : f.duration < 65536)
    (hfc : ∀ c ∈ f.cels, GoodCelP c)
    (hcnt : frameChunkCount s first f < 65536)
    (hz : 16 + (frameChunksBytes compress s first f).length ≤ z)
    (hL : L = out.length + z) (hL32 : L < 4294967296) (hp : p = out.length) :
    writeFrame compress s first f ⟨out ++ List.replicate z 0, L, p⟩ =
      .ok ⟨(out ++ frameBytes compress s first f) ++
             List.replicate
               (z - (16 + (frameChunksBytes compress s first f).length)) 0, L,
           p + (16 + (frameChunksBytes compress s first f).length)⟩ := by
  rw [writeFrame]
  simp only [pckH, if_pos hfd, ok_bind]
  rw [shape_shift out 4 z (by omega)]
  rw [packInto_end (out ++ List.replicate 4 0)
    (le16 0xF1FA ++ le16 0 ++ le16 f.duration ++ [0, 0] ++ le32 0) (z - 4) L
    (p + 4) (p + 4) 12 (by simp [hp]) (by simp [le16, le32]) (by omega)
    (by omega)]
  simp only [ok_bind]
  cases first with
  | true =>
    have hzz : 16 + ((firstChunksBytes s).length +
        ((f.cels.map (celChunkBytes compress)).flatten).length) ≤ z := by
      simpa [frameChunksBytes, List.length_append] using hz
    rw [writeFirstFrameChunks_spec s ((out ++ List.replicate 4 0) ++
        (le16 0xF1FA ++ le16 0 ++ le16 f.duration ++ [0, 0] ++ le32 0))
      (z - 4 - 12) L (p + 4 + 12) hgs (by omega)
      (by simp [le16, le32, hL] <;> omega) hL32
      (by simp [le16, le32, hp] <;> omega)]
    simp only [ok_bind, if_true]
    rw [writeCelChunks_spec compress f.cels
      (((out ++ List.replicate 4 0) ++
        (le16 0xF1FA ++ le16 0 ++ le16 f.duration ++ [0, 0] ++ le32 0)) ++
       firstChunksBytes s) (z - 4 - 12 - (firstChunksBytes s).length) L
      (p + 4 + 12 + (firstChunksBytes s).length) hfc (by omega)
      (by simp [le16, le32, hL] <;> omega) hL32
      (by simp [le16, le32, hp] <;> omega)]
    simp only [ok_bind]
    have hcnt' : firstChunkCount s + f.cels.length < 65536 := by
      simpa [frameChunkCount] using hcnt
    simp only [pckH, if_pos hcnt', ok_bind]
    have hre1 : ((((out ++ List.replicate 4 0) ++
        (le16 0xF1FA ++ le16 0 ++ le16 f.duration ++ [0, 0] ++ le32 0)) ++
        firstChunksBytes s) ++ (f.cels.map (celChunkBytes compress)).flatten) ++
        List.replicate (z - 4 - 12 - (firstChunksBytes s).length -
          ((f.cels.map (celChunkBytes compress)).flatten).length) 0 =
        (((out ++ List.replicate 4 0) ++ le16 0xF1FA) ++ le16 0) ++
        (le16 f.duration ++ [0, 0] ++ le32 0 ++ firstChunksBytes s ++
         (f.cels.map (celChunkBytes compress)).flatten ++
         List.replicate (z - 4 - 12 - (firstChunksBytes s).length -
           ((f.cels.map (celChunkBytes compress)).flatten).length) 0) := by
      simp [List.append_assoc]
    rw [hre1]
    rw [show ((((out ++ List.replicate 4 0) ++ le16 0xF1FA) ++ le16 0) ++
        (le16 f.duration ++ [0, 0] ++ le32 0 ++ firstChunksBytes s ++
         (f.cels.map (celChunkBytes compress)).flatten ++
         List.replicate (z - 4 - 12 - (firstChunksBytes s).length -
           ((f.cels.map (celChunkBytes compress)).flatten).length) 0)) =
        (((out ++ List.replicate 4 0) ++ le16 0xF1FA) ++ le16 0 ++
         (le16 f.duration ++ [0, 0] ++ le32 0 ++ firstChunksBytes s ++
          (f.cels.map (celChunkBytes compress)).flatten ++
          List.replicate (z - 4 - 12 - (firstChunksBytes s).length -
            ((f.cels.map (celChunkBytes compress)).flatten).length) 0)) from by
      simp [List.append_assoc]]
    rw [packInto_at (le16 (firstChunkCount s + f.cels.length)) (le16 0)
      ((out ++ List.replicate 4 0) ++ le16 0xF1FA)
      (le16 f.duration ++ [0, 0] ++ le32 0 ++ firstChunksBytes s ++
       (f.cels.map (celChunkBytes compress)).flatten ++
       List.replicate (z - 4 - 12 - (firstChunksBytes s).length -
         ((f.cels.map (celChunkBytes compress)).flatten).length) 0) L
      (p + 4 + 12 + (firstChunksBytes s).length +
        ((f.cels.map (celChunkBytes compress)).flatten).length) (p + 4 + 2)
      (by simp [le16, hp]) (by simp [le16]) (by simp [le16]; omega)]
    simp only [ok_bind]
    rw [show p + 4 + 12 + (firstChunksBytes s).length +
        ((f.cels.map (celChunkBytes compress)).flatten).length - p =
        16 + ((firstChunksBytes s).length +
          ((f.cels.map (celChunkBytes compress)).flatten).length) from by omega]
    simp only [pckI, if_pos (by omega : 16 + ((firstChunksBytes s).length +
      ((f.cels.map (celChunkBytes compress)).flatten).length) < 4294967296),
      ok_bind]
    rw [show (((out ++ List.replicate 4 0) ++ le16 0xF1FA) ++
        le16 (firstChunkCount s + f.cels.length) ++
        (le16 f.duration ++ [0, 0] ++ le32 0 ++ firstChunksBytes s ++
         (f.cels.map (celChunkBytes compress)).flatten ++
         List.replicate (z - 4 - 12 - (firstChunksBytes s).length -
           ((f.cels.map (celChunkBytes compress)).flatten).length) 0)) =
        ((out ++ List.replicate 4 0) ++
         (le16 0xF1FA ++ le16 (firstChunkCount s + f.cels.length) ++
          le16 f.duration ++ [0, 0] ++ le32 0 ++ firstChunksBytes s ++
          (f.cels.map (celChunkBytes compress)).flatten ++
          List.replicate (z - 4 - 12 - (firstChunksBytes s).length -
            ((f.cels.map (celChunkBytes compress)).flatten).length) 0)) from by
      simp [List.append_assoc]]
    rw [packInto_at (le32 (16 + ((firstChunksBytes s).length +
        ((f.cels.map (celChunkBytes compress)).flatten).length)))
      (List.replicate 4 0) out
      (le16 0xF1FA ++ le16 (firstChunkCount s + f.cels.length) ++
       le16 f.duration ++ [0, 0] ++ le32 0 ++ firstChunksBytes s ++
       (f.cels.map (celChunkBytes compress)).flatten ++
       List.replicate (z - 4 - 12 - (firstChunksBytes s).length -
         ((f.cels.map (celChunkBytes compress)).flatten).length) 0) L
      (p + 4 + 12 + (firstChunksBytes s).length +
        ((f.cels.map (celChunkBytes compress)).flatten).length) p hp
      (by simp [le32]) (by simp [le32]; omega)]
    simp only [frameBytes, frameChunksBytes, frameChunkCount, if_true,
      List.append_assoc, List.length_append, Except.ok.injEq, WBuf.mk.injEq,
      List.append_right_inj, List.replicate_left_inj, true_and, and_true]
    omega
  | false =>
    have hzz : 16 + ((f.cels.map (celChunkBytes compress)).flatten).length ≤ z := by
      simpa [frameChunksBytes, List.length_append] using hz
    simp only [if_false, Bool.false_eq_true, ok_bind]
    rw [writeCelChunks_spec compress f.cels
      ((out ++ List.replicate 4 0) ++
        (le16 0xF1FA ++ le16 0 ++ le16 f.duration ++ [0, 0] ++ le32 0))
      (z - 4 - 12) L (p + 4 + 12) hfc (by omega)
      (by simp [le16, le32, hL] <;> omega) hL32
      (by simp [le16, le32, hp] <;> omega)]
    simp only [ok_bind]
    have hcnt' : 0 + f.cels.length < 65536 := by
      simpa [frameChunkCount] using hcnt
    simp only [pckH, if_pos hcnt', ok_bind]
    have hre1 : (((out ++ List.replicate 4 0) ++
        (le16 0xF1FA ++ le16 0 ++ le16 f.duration ++ [0, 0] ++ le32 0)) ++
        (f.cels.map (celChunkBytes compress)).flatten) ++
        List.replicate (z - 4 - 12 -
          ((f.cels.map (celChunkBytes compress)).flatten).length) 0 =
        (((out ++ List.replicate 4 0) ++ le16 0xF1FA) ++ le16 0 ++
         (le16 f.duration ++ [0, 0] ++ le32 0 ++
          (f.cels.map (celChunkBytes compress)).flatten ++
          List.replicate (z - 4 - 12 -
            ((f.cels.map (celChunkBytes compress)).flatten).length) 0)) := by
      simp [List.append_assoc]
    rw [hre1]
    rw [packInto_at (le16 (0 + f.cels.length)) (le16 0)
      ((out ++ List.replicate 4 0) ++ le16 0xF1FA)
      (le16 f.duration ++ [0, 0] ++ le32 0 ++
       (f.cels.map (celChunkBytes compress)).flatten ++
       List.replicate (z - 4 - 12 -
         ((f.cels.map (celChunkBytes compress)).flatten).length) 0) L
      (p + 4 + 12 + ((f.cels.map (celChunkBytes compress)).flatten).length)
      (p + 4 + 2) (by simp [le16, hp]) (by simp [le16]) (by simp [le16]; omega)]
    simp only [ok_bind]
    rw [show p + 4 + 12 +
        ((f.cels.map (celChunkBytes compress)).flatten).length - p =
        16 + ((f.cels.map (celChunkBytes compress)).flatten).length from by
      omega]
    simp only [pckI, if_pos (by omega : 16 +
      ((f.cels.map (celChunkBytes compress)).flatten).length < 4294967296),
      ok_bind]
    rw [show (((out ++ List.replicate 4 0) ++ le16 0xF1FA) ++
        le16 (0 + f.cels.length) ++
        (le16 f.duration ++ [0, 0] ++ le32 0 ++
         (f.cels.map (celChunkBytes compress)).flatten ++
         List.replicate (z - 4 - 12 -
           ((f.cels.map (celChunkBytes compress)).flatten).length) 0)) =
        ((out ++ List.replicate 4 0) ++
         (le16 0xF1FA ++ le16 (0 + f.cels.length) ++ le16 f.duration ++
          [0, 0] ++ le32 0 ++ (f.cels.map (celChunkBytes compress)).flatten ++
          List.replicate (z - 4 - 12 -
            ((f.cels.map (celChunkBytes compress)).flatten).length) 0)) from by
      simp [List.append_assoc]]
    rw [packInto_at (le32 (16 +
        ((f.cels.map (celChunkBytes compress)).flatten).length))
      (List.replicate 4 0) out
      (le16 0xF1FA ++ le16 (0 + f.cels.length) ++ le16 f.duration ++
       [0, 0] ++ le32 0 ++ (f.cels.map (celChunkBytes compress)).flatten ++
       List.replicate (z - 4 - 12 -
         ((f.cels.map (celChunkBytes compress)).flatten).length) 0) L
      (p + 4 + 12 + ((f.cels.map (celChunkBytes compress)).flatten).length) p
      hp (by simp [le32]) (by simp [le32]; omega)]
    simp only [frameBytes, frameChunksBytes, frameChunkCount, if_false,
      Bool.false_eq_true, List.append_assoc, List.nil_append,
      List.length_append, List.length_nil, Except.ok.injEq, WBuf.mk.injEq,
      List.append_right_inj, List.replicate_left_inj, true_and, and_true]
    omega

theorem frameBytes_length (compress : List Nat → List Nat) (s : Sprite)
    (first : Bool) (f : Frame) :
    (frameBytes compress s first f).length =
      16 + (frameChunksBytes compress s first f).length := by
  simp only [frameBytes, le16, le32, List.length_append, List.length_cons,
    List.length_nil]
  try omega

theorem firstChunkCount_le (s : Sprite) :
    firstChunkCount s ≤ 2 + (s.layers.getD []).length := by
  unfold firstChunkCount
  cases s.tags <;> cases s.indexed <;> simp <;> omega

theorem writeFrames_spec (compress : List Nat → List Nat) (s : Sprite)
    (fs : List Frame) (first : Bool) (out : List Nat) (z L p : Nat)
    (hgs : GoodSpriteP s)
    (hfs : ∀ f ∈ fs, f.duration < 65536 ∧ (∀ c ∈ f.cels, GoodCelP c) ∧
      2 + (s.layers.getD []).length + f.cels.length < 65536)
    (hz : (framesBytes compress s first fs).length ≤ z)
    (hL : L = out.length + z) (hL32 : L < 4294967296) (hp : p = out.length) :
    writeFrames compress s first fs ⟨out ++ List.replicate z 0, L, p⟩ =
      .ok ⟨(out ++ framesBytes compress s first fs) ++
             List.replicate (z - (framesBytes compress s first fs).length) 0,
           L, p + (framesBytes compress s first fs).length⟩ := by
  induction fs generalizing first out z p with
  | nil => simp [writeFrames, framesBytes]
  | cons f rest ih =>
    obtain ⟨hfd, hfc, hbound⟩ := hfs f (by simp)
    have hFL : (frameBytes compress s first f).length =
        16 + (frameChunksBytes compress s first f).length :=
      frameBytes_length compress s first f
    have hz' : (frameBytes compress s first f).length +
        (framesBytes compress s false rest).length ≤ z := by
      simpa [framesBytes, List.length_append] using hz
    have hcnt : frameChunkCount s first f < 65536 := by
      have h1 := firstChunkCount_le s
      unfold frameChunkCount
      cases first <;> simp <;> omega
    rw [writeFrames]
    rw [writeFrame_spec compress s first f out z L p hgs hfd hfc hcnt
      (by omega) hL hL32 hp]
    simp only [ok_bind]
    have hrec := ih false (out ++ frameBytes compress s first f)
      (z - (16 + (frameChunksBytes compress s first f).length))
      (p + (16 + (frameChunksBytes compress s first f).length))
      (fun d hd => hfs d (by simp [hd]))
      (by omega) (by simp [hFL, hL] <;> omega) (by simp [hFL, hp] <;> omega)
    simp only [List.append_assoc] at hrec ⊢
    refine hrec.trans ?_
    simp only [framesBytes, List.length_append, hFL, List.append_assoc,
      List.append_right_inj, List.replicate_left_inj, Except.ok.injEq,
      WBuf.mk.injEq, true_and, and_true]
    omega

theorem hdr32Bytes_length (s : Sprite) : (hdr32Bytes s).length = 32 := by
  simp [hdr32Bytes, le16, le32]

/-- The writer characterization: on a valid sprite whose encoding fits the
fixed 100 KiB scratch buffer, `write_aseprite_file` succeeds and produces
exactly the canonical serialization `specBytes`. -/
theorem write_aseprite_file_spec (compress : List Nat → List Nat) (s : Sprite)
    (hgs : GoodSpriteP s)
    (hfit : 128 + (framesBytes compress s true s.frames).length ≤ 102400) :
    write_aseprite_file compress s = .ok (specBytes compress s) := by
  have hgs2 := hgs
  obtain ⟨hii, hw, hh, hsp, htr, -, hfc, ⟨pal, hpal, hp1, hp2, hpg⟩, -, -, hfr⟩ := hgs
  rw [write_aseprite_file]
  simp only [hii, if_true, getKey, hpal, pckH, pckB, pckI, if_pos hw,
    if_pos hh, if_pos hsp, if_pos htr, if_pos hfc, if_pos hp2,
    if_pos (by norm_num : (0xA5E0:Nat) < 65536),
    if_pos (by norm_num : (8:Nat) < 65536),
    if_pos (by norm_num : (1:Nat) < 4294967296),
    if_pos (by norm_num : (0:Nat) < 4294967296),
    if_pos (by norm_num : (0:Nat) < 256), ok_bind]
  rw [show (List.replicate (1024 * 100) (0:Nat)) =
    (List.replicate 4 0 ++ List.replicate 102396 0) from by
      rw [← List.replicate_add]]
  have hhdr : le16 0xA5E0 ++ le16 s.frames.length ++ le16 s.w ++ le16 s.h ++
      le16 8 ++ le32 1 ++ le16 s.speed ++ le32 0 ++ le32 0 ++ [s.trans] ++
      [0] ++ [0] ++ [0] ++ le16 pal.length ++ [0] ++ [0] = hdr32Bytes s := by
    simp [hdr32Bytes, hii, hpal, List.append_assoc]
  rw [hhdr]
  rw [packInto_end (List.replicate 4 0) (hdr32Bytes s) 102396 102400 4 4 32
    (by simp) (hdr32Bytes_length s) (by omega) (by omega)]
  simp only [ok_bind]
  rw [shape_shift (List.replicate 4 0 ++ hdr32Bytes s) 92 (102396 - 32)
    (by omega)]
  rw [writeFrames_spec compress s s.frames true
    ((List.replicate 4 0 ++ hdr32Bytes s) ++ List.replicate 92 0)
    (102396 - 32 - 92) 102400 128 hgs2
    (fun f hf => hfr f hf) (by omega)
    (by simp [hdr32Bytes_length]) (by norm_num)
    (by simp [hdr32Bytes_length])]
  simp only [ok_bind]
  simp only [pckI, if_pos (by omega : 128 +
    (framesBytes compress s true s.frames).length < 4294967296), ok_bind]
  rw [show (((List.replicate 4 0 ++ hdr32Bytes s) ++ List.replicate 92 0) ++
      framesBytes compress s true s.frames) ++
      List.replicate (102396 - 32 - 92 -
        (framesBytes compress s true s.frames).length) 0 =
      (([] : List Nat) ++ List.replicate 4 0) ++
      (hdr32Bytes s ++ List.replicate 92 0 ++
       framesBytes compress s true s.frames ++
       List.replicate (102396 - 32 - 92 -
         (framesBytes compress s true s.frames).length) 0) from by
    simp [List.append_assoc]]
  rw [packInto_at (le32 (128 + (framesBytes compress s true s.frames).length))
    (List.replicate 4 0) []
    (hdr32Bytes s ++ List.replicate 92 0 ++
     framesBytes compress s true s.frames ++
     List.replicate (102396 - 32 - 92 -
       (framesBytes compress s true s.frames).length) 0) 102400
    (128 + (framesBytes compress s true s.frames).length) 0 (by simp)
    (by simp [le32]) (by simp [le32] <;> omega)]
  have htake : (((([] : List Nat) ++
      le32 (128 + (framesBytes compress s true s.frames).length)) ++
      (hdr32Bytes s ++ List.replicate 92 0 ++
       framesBytes compress s true s.frames ++
       List.replicate (102396 - 32 - 92 -
         (framesBytes compress s true s.frames).length) 0))).take
      (128 + (framesBytes compress s true s.frames).length) =
      specBytes compress s := by
    have hlen : ((([] : List Nat) ++
        le32 (128 + (framesBytes compress s true s.frames).length)) ++
        (hdr32Bytes s ++ List.replicate 92 0 ++
         framesBytes compress s true s.frames)).length =
        128 + (framesBytes compress s true s.frames).length := by
      simp only [List.length_append, List.length_nil, le32_length,
        hdr32Bytes_length, List.length_replicate]
      omega
    have hsplit : ((([] : List Nat) ++
        le32 (128 + (framesBytes compress s true s.frames).length)) ++
        (hdr32Bytes s ++ List.replicate 92 0 ++
         framesBytes compress s true s.frames ++
         List.replicate (102396 - 32 - 92 -
           (framesBytes compress s true s.frames).length) 0)) =
        ((([] : List Nat) ++
          le32 (128 + (framesBytes compress s true s.frames).length)) ++
         (hdr32Bytes s ++ List.replicate 92 0 ++
          framesBytes compress s true s.frames)) ++
        List.replicate (102396 - 32 - 92 -
          (framesBytes compress s true s.frames).length) 0 := by
      simp [List.append_assoc]
    rw [hsplit, List.take_append_eq_append_take, List.take_of_length_le
      (by omega), hlen]
    simp only [Nat.sub_self, List.take_zero, List.append_nil]
    simp [specBytes, List.append_assoc]
  exact congrArg Except.ok htake

/-! ## Reader characterization: unpack lemmas on canonical byte shapes -/

theorem eb_assoc {α β γ : Type} (m : Except Err α) (f : α → Except Err β)
    (g : β → Except Err γ) : (m >>= f) >>= g = m >>= fun x => f x >>= g := by
  cases m <;> rfl

theorem readChunks_append (dec : List Nat → Option (List Nat))
    (data : List Nat) (a b : Nat) (sp : Sprite) (fr : Frame) (ptr : Nat) :
    readChunks dec data (a + b) sp fr ptr =
      (readChunks dec data a sp fr ptr) >>= fun r =>
        readChunks dec data b r.1 r.2.1 r.2.2 := by
  induction a generalizing sp fr ptr with
  | zero => simp [readChunks]
  | succ n ih =>
    rw [show n + 1 + b = (n + b) + 1 from by omega]
    rw [readChunks, readChunks, eb_assoc]
    cases hstep : readChunk dec data sp fr ptr with
    | error e => rfl
    | ok r =>
      simp only [ok_bind]
      exact ih r.1 r.2.1 r.2.2

theorem unpackChunkHead_le (a b : Nat) (ha : a < 4294967296) (hb : b < 65536) :
    unpackChunkHead (le32 a ++ le16 b) = .ok (a, b) := by
  simp only [le32, le16, List.cons_append, List.nil_append, unpackChunkHead]
  rw [u32_le32 a ha, u16_le16 b hb]

theorem unpackH_le (v : Nat) (hv : v < 65536) :
    unpackH (le16 v) = .ok v := by
  simp only [le16, unpackH]
  rw [u16_le16 v hv]

theorem unpackHH_le (w h : Nat) (hw : w < 65536) (hh : h < 65536) :
    unpackHH (le16 w ++ le16 h) = .ok (w, h) := by
  simp only [le16, List.cons_append, List.nil_append, unpackHH]
  rw [u16_le16 w hw, u16_le16 h hh]

theorem unpackIII_le (a b c : Nat) (ha : a < 4294967296) (hb : b < 4294967296)
    (hc : c < 4294967296) :
    unpackIII (le32 a ++ le32 b ++ le32 c) = .ok (a, b, c) := by
  simp only [le32, List.cons_append, List.nil_append, unpackIII]
  rw [u32_le32 a ha, u32_le32 b hb, u32_le32 c hc]

theorem unpackPalEntry_entry (e : Nat × Nat × Nat × Nat) :
    unpackPalEntry (entryBytes e) = .ok (0, e.1, e.2.1, e.2.2.1, 255) := by
  simp [entryBytes, unpackPalEntry, u16]

theorem unpackLayerRec_le (l : Layer) (hg : GoodLayerP l) :
    unpackLayerRec (le16 l.flags ++ le16 l.type ++ le16 l.child_level ++
      le16 0 ++ le16 0 ++ le16 l.blend_mode ++ [l.opacity] ++
      List.replicate 3 0 ++ le16 l.name.length) =
    .ok (l.flags, l.type, l.child_level, l.blend_mode, l.opacity,
      l.name.length) := by
  obtain ⟨h1, h2, h3, h4, h5, h6, -⟩ := hg
  simp only [le16, List.cons_append, List.nil_append, List.replicate,
    unpackLayerRec]
  rw [u16_le16 l.flags h1, u16_le16 l.type h2, u16_le16 l.child_level h3,
    u16_le16 l.blend_mode h4, u16_le16 l.name.length h6]

theorem unpackTagRec_le (a b c : Nat) (ha : a < 65536) (hb : b < 65536) :
    unpackTagRec (le16 a ++ le16 b ++ [c]) = .ok (a, b, c) := by
  simp only [le16, List.cons_append, List.nil_append, unpackTagRec]
  rw [u16_le16 a ha, u16_le16 b hb]

theorem unpackCelRec_le (layer : Nat) (x y : Int) (op ct : Nat)
    (h1 : layer < 65536) (h2 : -32768 ≤ x) (h3 : x < 32768) (h4 : -32768 ≤ y)
    (h5 : y < 32768) (hct : ct < 65536) :
    unpackCelRec (le16 layer ++ p16i x ++ p16i y ++ [op] ++ le16 ct) =
      .ok (layer, x, y, op, ct) := by
  simp only [le16, p16i, List.cons_append, List.nil_append, unpackCelRec]
  rw [u16_le16 layer h1, u16_le16 ct hct, s16_p16i x h2 h3, s16_p16i y h4 h5]

theorem unpackFrameRec_le (fs cnt dur : Nat) (hfs : fs < 4294967296)
    (hcnt : cnt < 65536) (hdur : dur < 65536) :
    unpackFrameRec (le32 fs ++ le16 0xF1FA ++ le16 cnt ++ le16 dur ++
      [0, 0] ++ le32 0) =
    .ok { frame_size := fs, magic := 0xF1FA, old_chunks := cnt,
          duration := dur, chunks := 0 } := by
  simp only [le32, le16, List.cons_append, List.nil_append, unpackFrameRec]
  rw [u32_le32 fs hfs, u16_le16 cnt hcnt, u16_le16 dur hdur]
  norm_num [u16]

theorem unpackHeader_le (total : Nat) (s : Sprite) (pal : List (Nat × Nat × Nat × Nat))
    (htotal : total < 4294967296) (hpal : s.palette = some pal)
    (hii : s.indexed = true) (hw : s.w < 65536) (hh : s.h < 65536)
    (hsp : s.speed < 65536) (hfc : s.frames.length < 65536)
    (hpl : pal.length < 65536) :
    unpackHeader (le32 total ++ hdr32Bytes s) =
      .ok { size := total, frames := s.frames.length, width := s.w,
            height := s.h, cdepth := 8, flags := 1, speed := s.speed,
            transp := s.trans, cols := pal.length, pix_w := 0, pix_h := 0 } := by
  simp only [hdr32Bytes, hpal, hii, if_true, Option.getD_some, le32, le16,
    List.cons_append, List.nil_append, unpackHeader]
  rw [u32_le32 total htotal, u16_le16 s.frames.length hfc, u16_le16 s.w hw,
    u16_le16 s.h hh, u16_le16 s.speed hsp, u16_le16 pal.length hpl]
  norm_num [u16, u32]

/-- Reading the head of the block at offset `p`. -/
theorem pyslice_head (data blk tail : List Nat) (p n : Nat)
    (hd : data.drop p = blk ++ tail) (hn : blk.length = n) :
    pyslice data p (p + n) = blk := by
  rw [pyslice_drop, hd, List.take_left' hn]

/-- Advancing the cursor past the block at offset `p`. -/
theorem drop_past (data blk tail : List Nat) (p n : Nat)
    (hd : data.drop p = blk ++ tail) (hn : blk.length = n) :
    data.drop (p + n) = tail := by
  rw [← List.drop_drop, hd, List.drop_left' hn]

theorem readPalEntries_spec_r (dec : List Nat → Option (List Nat))
    (pal : List (Nat × Nat × Nat × Nat)) (data rest : List Nat)
    (ptr : Nat) (acc : List (Nat × Nat × Nat × Nat))
    (hd : data.drop ptr = (pal.map entryBytes).flatten ++ rest) :
    readPalEntries data pal.length ptr acc =
      .ok (acc ++ pal.map canonEntry, ptr + 6 * pal.length) := by
  induction pal generalizing ptr acc rest with
  | nil => simp [readPalEntries]
  | cons e tl ih =>
    simp only [List.map_cons, List.flatten_cons, List.append_assoc] at hd
    simp only [List.length_cons]
    rw [readPalEntries]
    rw [pyslice_head data (entryBytes e) ((tl.map entryBytes).flatten ++ rest)
      ptr 6 hd (by simp [entryBytes])]
    rw [unpackPalEntry_entry e]
    simp only [ok_bind]
    have hd6 : data.drop (ptr + 6) = (tl.map entryBytes).flatten ++ rest :=
      drop_past data (entryBytes e) _ ptr 6 hd (by simp [entryBytes])
    rw [ih rest (ptr + 6) (acc ++ [(e.1, e.2.1, e.2.2.1, 255)]) hd6]
    simp only [canonEntry, List.append_assoc, List.cons_append,
      List.nil_append, List.map_cons, Except.ok.injEq, Prod.mk.injEq,
      true_and]
    omega

theorem readChunk_palette (dec : List Nat → Option (List Nat))
    (pal : List (Nat × Nat × Nat × Nat)) (data rest : List Nat)
    (sp : Sprite) (fr : Frame) (ptr : Nat)
    (hd : data.drop ptr = palChunkBytes pal ++ rest)
    (hn : pal.length < 65536) :
    readChunk dec data sp fr ptr =
      .ok ({ sp with palette := some (pal.map canonEntry) }, fr,
           ptr + (26 + 6 * pal.length)) := by
  have hd' : data.drop ptr = (le32 (26 + 6 * pal.length) ++ le16 0x2019) ++
      ((le32 pal.length ++ le32 0 ++ le32 (pal.length - 1)) ++
       (List.replicate 8 0 ++ ((pal.map entryBytes).flatten ++ rest))) := by
    rw [hd]; simp [palChunkBytes, List.append_assoc]
  rw [readChunk]
  rw [pyslice_head data (le32 (26 + 6 * pal.length) ++ le16 0x2019) _ ptr 6 hd'
    (by simp [le32, le16])]
  rw [unpackChunkHead_le (26 + 6 * pal.length) 0x2019 (by omega) (by norm_num)]
  simp only [ok_bind, PALETTE, if_pos rfl]
  have hd6 : data.drop (ptr + 6) =
      (le32 pal.length ++ le32 0 ++ le32 (pal.length - 1)) ++
      (List.replicate 8 0 ++ ((pal.map entryBytes).flatten ++ rest)) :=
    drop_past data _ _ ptr 6 hd' (by simp [le32, le16])
  rw [pyslice_head data (le32 pal.length ++ le32 0 ++ le32 (pal.length - 1)) _
    (ptr + 6) 12 hd6 (by simp [le32])]
  rw [unpackIII_le pal.length 0 (pal.length - 1) (by omega) (by norm_num)
    (by omega)]
  simp only [ok_bind]
  have hd18 : data.drop (ptr + 6 + 12) =
      List.replicate 8 0 ++ ((pal.map entryBytes).flatten ++ rest) :=
    drop_past data _ _ (ptr + 6) 12 hd6 (by simp [le32])
  have hd26 : data.drop (ptr + 6 + 12 + 8) = (pal.map entryBytes).flatten ++
      rest :=
    drop_past data _ _ (ptr + 6 + 12) 8 hd18 (by simp)
  rw [readPalEntries_spec_r dec pal data rest (ptr + 6 + 12 + 8) [] hd26]
  simp only [ok_bind, List.nil_append, if_true, Except.ok.injEq, Prod.mk.injEq,
    Sprite.mk.injEq, true_and, and_true]
  try omega

theorem readChunk_layer (dec : List Nat → Option (List Nat)) (l : Layer)
    (data rest : List Nat) (sp : Sprite) (fr : Frame) (ptr : Nat)
    (hd : data.drop ptr = layerChunkBytes l ++ rest)
    (hg : GoodLayerP l) :
    readChunk dec data sp fr ptr =
      .ok ({ sp with layers := some ((sp.layers.getD []) ++ [l]) }, fr,
           ptr + (24 + l.name.length)) := by
  obtain ⟨h1, h2, h3, h4, h5, hnl, hna⟩ := hg
  have hd' : data.drop ptr = (le32 (24 + l.name.length) ++ le16 0x2004) ++
      ((le16 l.flags ++ le16 l.type ++ le16 l.child_level ++ le16 0 ++
        le16 0 ++ le16 l.blend_mode ++ [l.opacity] ++ List.replicate 3 0 ++
        le16 l.name.length) ++ (l.name ++ rest)) := by
    rw [hd]; simp [layerChunkBytes, List.append_assoc]
  rw [readChunk]
  rw [pyslice_head data (le32 (24 + l.name.length) ++ le16 0x2004) _ ptr 6 hd'
    (by simp [le32, le16])]
  rw [unpackChunkHead_le (24 + l.name.length) 0x2004 (by omega) (by norm_num)]
  simp only [ok_bind, PALETTE, LAYER, if_true]
  rw [if_neg (show ¬((8196 : Nat) = 8217) by norm_num)]
  have hd6 : data.drop (ptr + 6) =
      (le16 l.flags ++ le16 l.type ++ le16 l.child_level ++ le16 0 ++
       le16 0 ++ le16 l.blend_mode ++ [l.opacity] ++ List.replicate 3 0 ++
       le16 l.name.length) ++ (l.name ++ rest) :=
    drop_past data _ _ ptr 6 hd' (by simp [le32, le16])
  rw [pyslice_head data _ _ (ptr + 6) 18 hd6 (by simp [le16])]
  rw [unpackLayerRec_le l ⟨h1, h2, h3, h4, h5, hnl, hna⟩]
  simp only [ok_bind]
  have hd24 : data.drop (ptr + 6 + 18) = l.name ++ rest :=
    drop_past data _ _ (ptr + 6) 18 hd6 (by simp [le16])
  by_cases hn0 : l.name.length > 0
  · rw [if_pos hn0]
    rw [pyslice_head data l.name rest (ptr + 6 + 18) l.name.length hd24 rfl]
    rw [pyUtf8Dec, utf8Dec_ascii l.name hna]
    simp only [ok_bind]
  · rw [if_neg hn0]
    have hnil : l.name = [] := List.length_eq_zero.mp (by omega)
    have hle : ({ flags := l.flags, type := l.type,
                  child_level := l.child_level, blend_mode := l.blend_mode,
                  opacity := l.opacity, name := ([] : List Nat) } : Layer)
        = l := by
      rw [← hnil]
    rw [hle]

theorem readTags_spec_r (ts : List Tag) (data rest : List Nat)
    (ptr : Nat) (acc : List Tag)
    (hd : data.drop ptr = (ts.map tagBytes).flatten ++ rest)
    (hg : ∀ t ∈ ts, GoodTagP t) :
    readTags data ts.length ptr acc =
      .ok (acc ++ ts, ptr + ((ts.map tagBytes).flatten).length) := by
  induction ts generalizing ptr acc rest with
  | nil => simp [readTags]
  | cons t tl ih =>
    obtain ⟨hf, ht, hl, hnl, hna⟩ := hg t (by simp)
    simp only [List.map_cons, List.flatten_cons, List.append_assoc] at hd
    have hd' : data.drop ptr = (le16 t.fromFrame ++ le16 t.toFrame ++
        [t.loop_dir]) ++ (List.replicate 12 0 ++ (le16 t.name.length ++
        (t.name ++ ((tl.map tagBytes).flatten ++ rest)))) := by
      rw [hd]; simp [tagBytes, List.append_assoc]
    simp only [List.length_cons]
    rw [readTags]
    rw [pyslice_head data (le16 t.fromFrame ++ le16 t.toFrame ++ [t.loop_dir])
      _ ptr 5 hd' (by simp [le16])]
    rw [unpackTagRec_le t.fromFrame t.toFrame t.loop_dir hf ht]
    simp only [ok_bind]
    have hd5 : data.drop (ptr + 5) = List.replicate 12 0 ++
        (le16 t.name.length ++ (t.name ++ ((tl.map tagBytes).flatten ++
        rest))) :=
      drop_past data _ _ ptr 5 hd' (by simp [le16])
    have hd17 : data.drop (ptr + 5 + 12) = le16 t.name.length ++
        (t.name ++ ((tl.map tagBytes).flatten ++ rest)) :=
      drop_past data _ _ (ptr + 5) 12 hd5 (by simp)
    rw [pyslice_head data (le16 t.name.length) _ (ptr + 5 + 12) 2 hd17
      (by simp [le16])]
    rw [unpackH_le t.name.length hnl]
    simp only [ok_bind]
    have hd19 : data.drop (ptr + 5 + 12 + 2) = t.name ++
        ((tl.map tagBytes).flatten ++ rest) :=
      drop_past data _ _ (ptr + 5 + 12) 2 hd17 (by simp [le16])
    have hdnm : data.drop (ptr + 5 + 12 + 2 + t.name.length) =
        (tl.map tagBytes).flatten ++ rest :=
      drop_past data _ _ (ptr + 5 + 12 + 2) t.name.length hd19 rfl
    have hstep : ∀ nmv, nmv = t.name →
        readTags data tl.length (ptr + 5 + 12 + 2 + t.name.length)
          (acc ++ [{ name := nmv, fromFrame := t.fromFrame,
                     toFrame := t.toFrame, loop_dir := t.loop_dir }]) =
        .ok (acc ++ t :: tl,
             ptr + (19 + t.name.length + ((tl.map tagBytes).flatten).length)) := by
      intro nmv hnmv
      subst hnmv
      rw [ih rest ((ptr + 5 + 12) + 2 + t.name.length) _ hdnm
        (fun u hu => hg u (by simp [hu]))]
      simp only [Except.ok.injEq, Prod.mk.injEq, List.append_assoc,
        List.singleton_append, true_and]
      try omega
    by_cases hn0 : t.name.length > 0
    · rw [if_pos hn0]
      rw [pyslice_head data t.name _ (ptr + 5 + 12 + 2) t.name.length hd19 rfl]
      rw [pyUtf8Dec, utf8Dec_ascii t.name hna]
      simp only [ok_bind]
      rw [hstep t.name rfl]
      simp only [List.map_cons, List.flatten_cons, List.length_append,
        tagBytes_length, Except.ok.injEq, Prod.mk.injEq, true_and]
      try omega
    · rw [if_neg hn0]
      have hnil : t.name = [] := List.length_eq_zero.mp (by omega)
      rw [hstep [] hnil.symm]
      simp only [List.map_cons, List.flatten_cons, List.length_append,
        tagBytes_length, Except.ok.injEq, Prod.mk.injEq, true_and]
      try omega

theorem readChunk_tags (dec : List Nat → Option (List Nat)) (ts : List Tag)
    (data rest : List Nat) (sp : Sprite) (fr : Frame) (ptr : Nat)
    (hd : data.drop ptr = tagsChunkBytes ts ++ rest)
    (hn : ts.length < 65536)
    (hsz : 16 + ((ts.map tagBytes).flatten).length < 4294967296)
    (hg : ∀ t ∈ ts, GoodTagP t) :
    readChunk dec data sp fr ptr =
      .ok ({ sp with tags := some ts }, fr,
           ptr + (16 + ((ts.map tagBytes).flatten).length)) := by
  have hd' : data.drop ptr =
      (le32 (16 + ((ts.map tagBytes).flatten).length) ++ le16 0x2018) ++
      (le16 ts.length ++ (List.replicate 8 0 ++
        ((ts.map tagBytes).flatten ++ rest))) := by
    rw [hd]; simp [tagsChunkBytes, List.append_assoc]
  rw [readChunk]
  rw [pyslice_head data
    (le32 (16 + ((ts.map tagBytes).flatten).length) ++ le16 0x2018) _ ptr 6
    hd' (by simp [le32, le16])]
  rw [unpackChunkHead_le (16 + ((ts.map tagBytes).flatten).length) 0x2018
    hsz (by norm_num)]
  simp only [ok_bind, PALETTE, LAYER, TAGS, if_true]
  rw [if_neg (show ¬((8216 : Nat) = 8217) by norm_num),
      if_neg (show ¬((8216 : Nat) = 8196) by norm_num)]
  have hd6 : data.drop (ptr + 6) = le16 ts.length ++
      (List.replicate 8 0 ++ ((ts.map tagBytes).flatten ++ rest)) :=
    drop_past data _ _ ptr 6 hd' (by simp [le32, le16])
  rw [pyslice_head data (le16 ts.length) _ (ptr + 6) 2 hd6 (by simp [le16])]
  rw [unpackH_le ts.length hn]
  simp only [ok_bind]
  have hd8 : data.drop (ptr + 6 + 2) = List.replicate 8 0 ++
      ((ts.map tagBytes).flatten ++ rest) :=
    drop_past data _ _ (ptr + 6) 2 hd6 (by simp [le16])
  have hd16 : data.drop (ptr + 6 + 2 + 8) = (ts.map tagBytes).flatten ++
      rest :=
    drop_past data _ _ (ptr + 6 + 2) 8 hd8 (by simp)
  rw [readTags_spec_r ts data rest (ptr + 6 + 2 + 8) [] hd16 hg]
  simp only [ok_bind, List.nil_append, Except.ok.injEq, Prod.mk.injEq,
    true_and, and_true]
  try omega

/-- Reading the head of a block when the right endpoint is an arbitrary
expression rather than `p + n`. -/
theorem pyslice_head2 (data blk tail : List Nat) (p b : Nat)
    (hd : data.drop p = blk ++ tail) (hb : b - p = blk.length) :
    pyslice data p b = blk := by
  unfold pyslice
  rw [hd, hb, List.take_left]

theorem readChunk_cel_linked (dec : List Nat → Option (List Nat)) (c : Cel)
    (lk : Nat) (data rest : List Nat) (sp : Sprite) (fr : Frame) (ptr : Nat)
    (compress : List Nat → List Nat)
    (hd : data.drop ptr = celChunkBytes compress c ++ rest)
    (hlk : c.linked = some lk) (hg : GoodCelP c) :
    readChunk dec data sp fr ptr =
      .ok (sp, { fr with cels := fr.cels ++ [canonCel c] }, ptr + 24) := by
  obtain ⟨h1, h2, h3, h4, h5, h6, h7⟩ := hg
  rw [hlk] at h7
  have hlk16 : lk < 65536 := h7
  have hd' : data.drop ptr = (le32 24 ++ le16 0x2005) ++
      ((le16 c.layer ++ p16i c.x ++ p16i c.y ++ [c.opacity] ++ le16 1) ++
       (List.replicate 7 0 ++ (le16 lk ++ rest))) := by
    rw [hd]; simp [celChunkBytes, hlk, List.append_assoc]
  rw [readChunk]
  rw [pyslice_head data (le32 24 ++ le16 0x2005) _ ptr 6 hd'
    (by simp [le32, le16])]
  rw [unpackChunkHead_le 24 0x2005 (by norm_num) (by norm_num)]
  simp only [ok_bind, PALETTE, LAYER, TAGS, CEL, if_true]
  rw [if_neg (show ¬((8197 : Nat) = 8217) by norm_num),
      if_neg (show ¬((8197 : Nat) = 8196) by norm_num),
      if_neg (show ¬((8197 : Nat) = 8216) by norm_num)]
  have hd6 : data.drop (ptr + 6) =
      (le16 c.layer ++ p16i c.x ++ p16i c.y ++ [c.opacity] ++ le16 1) ++
      (List.replicate 7 0 ++ (le16 lk ++ rest)) :=
    drop_past data _ _ ptr 6 hd' (by simp [le32, le16])
  rw [pyslice_head data
    (le16 c.layer ++ p16i c.x ++ p16i c.y ++ [c.opacity] ++ le16 1) _
    (ptr + 6) 9 hd6 (by simp [le16, p16i])]
  rw [unpackCelRec_le c.layer c.x c.y c.opacity 1 h1 h2 h3 h4 h5
    (by norm_num)]
  simp only [ok_bind, if_true]
  have hd15 : data.drop (ptr + 6 + 9) =
      List.replicate 7 0 ++ (le16 lk ++ rest) :=
    drop_past data _ _ (ptr + 6) 9 hd6 (by simp [le16, p16i])
  have hd22 : data.drop (ptr + 6 + 9 + 7) = le16 lk ++ rest :=
    drop_past data _ _ (ptr + 6 + 9) 7 hd15 (by simp)
  rw [pyslice_head data (le16 lk) _ (ptr + 6 + 9 + 7) 2 hd22
    (by simp [le16])]
  rw [unpackH_le lk hlk16]
  simp only [ok_bind, canonCel, hlk, Except.ok.injEq, Prod.mk.injEq,
    Frame.mk.injEq, true_and, and_true]
  try rw [if_neg (show ¬((1 : Nat) = 0) by norm_num)]
  try omega

theorem readChunk_cel_image (dec : List Nat → Option (List Nat)) (c : Cel)
    (wv hv : Nat) (px : List Nat) (data rest : List Nat) (sp : Sprite)
    (fr : Frame) (ptr : Nat) (compress : List Nat → List Nat)
    (hd : data.drop ptr = celChunkBytes compress c ++ rest)
    (hlk : c.linked = none) (hw : c.w = some wv) (hh : c.h = some hv)
    (hpx : c.pixels = some px) (hg : GoodCelP c)
    (hdec : dec (compress px) = some px)
    (hsz : 26 + (compress px).length < 4294967296) :
    readChunk dec data sp fr ptr =
      .ok (sp, { fr with cels := fr.cels ++ [c] },
           ptr + (26 + (compress px).length)) := by
  obtain ⟨h1, h2, h3, h4, h5, h6, h7⟩ := hg
  rw [hlk] at h7
  obtain ⟨⟨wv2, hw2, hwlt2⟩, ⟨hv2, hh2, hhlt2⟩, -⟩ := h7
  rw [hw] at hw2; rw [hh] at hh2
  have hwlt : wv < 65536 := by injection hw2 with hE; rw [hE]; exact hwlt2
  have hhlt : hv < 65536 := by injection hh2 with hE; rw [hE]; exact hhlt2
  have hd' : data.drop ptr =
      (le32 (26 + (compress px).length) ++ le16 0x2005) ++
      ((le16 c.layer ++ p16i c.x ++ p16i c.y ++ [c.opacity] ++ le16 2) ++
       (List.replicate 7 0 ++ ((le16 wv ++ le16 hv) ++
        (compress px ++ rest)))) := by
    rw [hd]; simp [celChunkBytes, hlk, hw, hh, hpx, List.append_assoc]
  rw [readChunk]
  rw [pyslice_head data (le32 (26 + (compress px).length) ++ le16 0x2005) _
    ptr 6 hd' (by simp [le32, le16])]
  rw [unpackChunkHead_le (26 + (compress px).length) 0x2005 hsz (by norm_num)]
  simp only [ok_bind, PALETTE, LAYER, TAGS, CEL, if_true]
  rw [if_neg (show ¬((8197 : Nat) = 8217) by norm_num),
      if_neg (show ¬((8197 : Nat) = 8196) by norm_num),
      if_neg (show ¬((8197 : Nat) = 8216) by norm_num)]
  have hd6 : data.drop (ptr + 6) =
      (le16 c.layer ++ p16i c.x ++ p16i c.y ++ [c.opacity] ++ le16 2) ++
      (List.replicate 7 0 ++ ((le16 wv ++ le16 hv) ++
       (compress px ++ rest))) :=
    drop_past data _ _ ptr 6 hd' (by simp [le32, le16])
  rw [pyslice_head data
    (le16 c.layer ++ p16i c.x ++ p16i c.y ++ [c.opacity] ++ le16 2) _
    (ptr + 6) 9 hd6 (by simp [le16, p16i])]
  rw [unpackCelRec_le c.layer c.x c.y c.opacity 2 h1 h2 h3 h4 h5
    (by norm_num)]
  simp only [ok_bind, if_true]
  have hd15 : data.drop (ptr + 6 + 9) =
      List.replicate 7 0 ++ ((le16 wv ++ le16 hv) ++ (compress px ++ rest)) :=
    drop_past data _ _ (ptr + 6) 9 hd6 (by simp [le16, p16i])
  have hd22 : data.drop (ptr + 6 + 9 + 7) =
      (le16 wv ++ le16 hv) ++ (compress px ++ rest) :=
    drop_past data _ _ (ptr + 6 + 9) 7 hd15 (by simp)
  rw [pyslice_head data (le16 wv ++ le16 hv) _ (ptr + 6 + 9 + 7) 4 hd22
    (by simp [le16])]
  rw [unpackHH_le wv hv hwlt hhlt]
  simp only [ok_bind]
  have hd26 : data.drop (ptr + 6 + 9 + 7 + 4) = compress px ++ rest :=
    drop_past data _ _ (ptr + 6 + 9 + 7) 4 hd22 (by simp [le16])
  rw [pyslice_head2 data (compress px) rest (ptr + 6 + 9 + 7 + 4)
    (ptr + (26 + (compress px).length)) hd26 (by omega)]
  rw [hdec]
  have hcel : ({ layer := c.layer, x := c.x, y := c.y, opacity := c.opacity,
                 w := some wv, h := some hv, pixels := some px,
                 linked := none } : Cel) = c := by
    rw [← hw, ← hh, ← hpx, ← hlk]
  rw [if_neg (show ¬((2 : Nat) = 0) by norm_num),
      if_neg (show ¬((2 : Nat) = 1) by norm_num)]
  simp only [hcel]

theorem readChunk_skip (dec : List Nat → Option (List Nat))
    (sz ty : Nat) (data rest : List Nat) (sp : Sprite) (fr : Frame)
    (ptr : Nat)
    (hd : data.drop ptr = le32 sz ++ le16 ty ++ rest)
    (hsz : sz < 4294967296) (hty : ty < 65536)
    (ht1 : ty ≠ 0x2019) (ht2 : ty ≠ 0x2004) (ht3 : ty ≠ 0x2018)
    (ht4 : ty ≠ 0x2005) :
    readChunk dec data sp fr ptr = .ok (sp, fr, ptr + sz) := by
  have hd' : data.drop ptr = (le32 sz ++ le16 ty) ++ rest := hd
  rw [readChunk]
  rw [pyslice_head data (le32 sz ++ le16 ty) _ ptr 6 hd'
    (by simp [le32, le16])]
  rw [unpackChunkHead_le sz ty hsz hty]
  simp only [ok_bind, PALETTE, LAYER, TAGS, CEL]
  rw [if_neg ht1, if_neg ht2, if_neg ht3, if_neg ht4]

theorem readChunks_layers (dec : List Nat → Option (List Nat))
    (ls : List Layer) (data : List Nat) (fr : Frame) (rest : List Nat)
    (sp : Sprite) (ls0 : List Layer) (ptr : Nat)
    (hly : sp.layers = some ls0)
    (hd : data.drop ptr = (ls.map layerChunkBytes).flatten ++ rest)
    (hg : ∀ l ∈ ls, GoodLayerP l) :
    readChunks dec data ls.length sp fr ptr =
      .ok ({ sp with layers := some (ls0 ++ ls) }, fr,
           ptr + ((ls.map layerChunkBytes).flatten).length) := by
  induction ls generalizing rest sp ls0 ptr with
  | nil =>
    simp only [List.length_nil, readChunks, List.map_nil, List.flatten_nil,
      List.append_nil, Nat.add_zero]
    rw [← hly]
  | cons l tl ih =>
    simp only [List.map_cons, List.flatten_cons, List.append_assoc] at hd
    simp only [List.length_cons]
    rw [readChunks]
    rw [readChunk_layer dec l data ((tl.map layerChunkBytes).flatten ++ rest)
      sp fr ptr hd (hg l (by simp))]
    simp only [ok_bind, hly, Option.getD_some]
    have hd2 : data.drop (ptr + (24 + l.name.length)) =
        (tl.map layerChunkBytes).flatten ++ rest :=
      drop_past data (layerChunkBytes l) _ ptr (24 + l.name.length)
        (by rw [hd]) (layerChunkBytes_length l)
    rw [ih rest _ (ls0 ++ [l]) (ptr + (24 + l.name.length)) rfl hd2
      (fun u hu => hg u (by simp [hu]))]
    simp only [List.append_assoc, List.singleton_append, List.map_cons,
      List.flatten_cons, List.length_append, layerChunkBytes_length,
      Except.ok.injEq, Prod.mk.injEq, true_and, and_true]
    try omega

theorem readChunks_cels (dec : List Nat → Option (List Nat))
    (compress : List Nat → List Nat) (cs : List Cel) (data : List Nat)
    (sp : Sprite) (rest : List Nat) (fr : Frame) (ptr : Nat)
    (hzlib : ∀ x, dec (compress x) = some x)
    (hd : data.drop ptr = (cs.map (celChunkBytes compress)).flatten ++ rest)
    (hg : ∀ c ∈ cs, GoodCelP c)
    (hsz : ∀ c ∈ cs, celChunkLen compress c < 4294967296) :
    readChunks dec data cs.length sp fr ptr =
      .ok (sp, { fr with cels := fr.cels ++ cs.map canonCel },
           ptr + ((cs.map (celChunkBytes compress)).flatten).length) := by
  induction cs generalizing rest fr ptr with
  | nil =>
    simp only [List.length_nil, readChunks, List.map_nil, List.flatten_nil,
      List.append_nil, Nat.add_zero]
  | cons c tl ih =>
    simp only [List.map_cons, List.flatten_cons, List.append_assoc] at hd
    simp only [List.length_cons]
    rw [readChunks]
    have hgc := hg c (by simp)
    have hd2 : data.drop (ptr + celChunkLen compress c) =
        (tl.map (celChunkBytes compress)).flatten ++ rest :=
      drop_past data (celChunkBytes compress c) _ ptr
        (celChunkLen compress c) (by rw [hd])
        (celChunkBytes_length compress c)
    cases hlk : c.linked with
    | some lk =>
      rw [readChunk_cel_linked dec c lk data
        ((tl.map (celChunkBytes compress)).flatten ++ rest) sp fr ptr
        compress hd hlk hgc]
      simp only [ok_bind]
      have hlen : celChunkLen compress c = 24 := by
        unfold celChunkLen; rw [hlk]
      rw [hlen] at hd2
      rw [ih rest _ (ptr + 24) hd2 (fun u hu => hg u (by simp [hu]))
        (fun u hu => hsz u (by simp [hu]))]
      simp only [List.map_cons, List.flatten_cons, List.length_append,
        celChunkBytes_length, hlen, List.append_assoc, List.singleton_append,
        Except.ok.injEq, Prod.mk.injEq, Frame.mk.injEq, true_and, and_true]
      try omega
    | none =>
      have hgc2 := hgc
      obtain ⟨-, -, -, -, -, -, h7⟩ := hgc2
      rw [hlk] at h7
      obtain ⟨⟨wv, hw, -⟩, ⟨hv, hh, -⟩, ⟨px, hpx⟩⟩ := h7
      have hlen : celChunkLen compress c = 26 + (compress px).length := by
        unfold celChunkLen; rw [hlk, hpx]; rfl
      rw [readChunk_cel_image dec c wv hv px data
        ((tl.map (celChunkBytes compress)).flatten ++ rest) sp fr ptr
        compress hd hlk hw hh hpx hgc (hzlib px)
        (by rw [← hlen]; exact hsz c (by simp))]
      simp only [ok_bind]
      rw [hlen] at hd2
      rw [ih rest _ (ptr + (26 + (compress px).length)) hd2
        (fun u hu => hg u (by simp [hu])) (fun u hu => hsz u (by simp [hu]))]
      have hcc : canonCel c = c := by unfold canonCel; rw [hlk]
      simp only [List.map_cons, List.flatten_cons, List.length_append,
        celChunkBytes_length, hlen, hcc, List.append_assoc,
        List.singleton_append, Except.ok.injEq, Prod.mk.injEq,
        Frame.mk.injEq, true_and, and_true]
      try omega

theorem readChunks_first (dec : List Nat → Option (List Nat)) (s : Sprite)
    (pal : List (Nat × Nat × Nat × Nat)) (data : List Nat) (fr : Frame)
    (rest : List Nat) (sp : Sprite) (ls0 : List Layer) (ptr : Nat)
    (hly : sp.layers = some ls0)
    (hii : s.indexed = true)
    (hpal : s.palette = some pal) (hpl : pal.length < 65536)
    (hlay : ∀ l ∈ s.layers.getD [], GoodLayerP l)
    (htags : ∀ ts, s.tags = some ts → ts.length < 65536 ∧
      (∀ t ∈ ts, GoodTagP t) ∧
      16 + ((ts.map tagBytes).flatten).length < 4294967296)
    (hd : data.drop ptr = firstChunksBytes s ++ rest) :
    readChunks dec data (firstChunkCount s) sp fr ptr =
      .ok ({ sp with
             palette := some (pal.map canonEntry),
             tags := (match s.tags with
                      | some ts => some ts
                      | none => sp.tags),
             layers := some (ls0 ++ s.layers.getD []) }, fr,
           ptr + (firstChunksBytes s).length) := by
  cases htag : s.tags with
  | none =>
    have hcnt : firstChunkCount s = (s.layers.getD []).length + 1 := by
      simp only [firstChunkCount, hii, htag, if_true]; omega
    have hfb : firstChunksBytes s = palChunkBytes pal ++
        (((s.layers.getD []).map layerChunkBytes).flatten ++ []) := by
      simp only [firstChunksBytes, hii, htag, hpal, if_true,
        Option.getD_some, List.append_nil, List.append_assoc]
    rw [hcnt, readChunks]
    rw [hfb] at hd
    simp only [List.append_assoc, List.append_nil] at hd
    rw [readChunk_palette dec pal data
      ((((s.layers.getD []).map layerChunkBytes).flatten) ++ rest) sp fr ptr
      hd hpl]
    simp only [ok_bind]
    have hd2 : data.drop (ptr + (26 + 6 * pal.length)) =
        (((s.layers.getD []).map layerChunkBytes).flatten) ++ rest :=
      drop_past data (palChunkBytes pal) _ ptr (26 + 6 * pal.length)
        (by rw [hd]) (palChunkBytes_length pal)
    rw [readChunks_layers dec (s.layers.getD []) data fr rest
      { sp with palette := some (pal.map canonEntry) } ls0
      (ptr + (26 + 6 * pal.length)) hly hd2 hlay]
    simp only [hfb, htag, List.append_nil, List.length_append,
      palChunkBytes_length, Except.ok.injEq, Prod.mk.injEq, true_and,
      and_true]
    try omega
  | some ts =>
    obtain ⟨hts1, hts2, hts3⟩ := htags ts htag
    have hcnt : firstChunkCount s = ((s.layers.getD []).length + 1) + 1 := by
      simp only [firstChunkCount, hii, htag, if_true]; omega
    have hfb : firstChunksBytes s = palChunkBytes pal ++
        (tagsChunkBytes ts ++
         (((s.layers.getD []).map layerChunkBytes).flatten ++ [])) := by
      simp only [firstChunksBytes, hii, htag, hpal, if_true,
        Option.getD_some, List.append_nil, List.append_assoc]
    rw [hcnt, readChunks]
    rw [hfb] at hd
    simp only [List.append_assoc, List.append_nil] at hd
    rw [readChunk_palette dec pal data
      (tagsChunkBytes ts ++
       (((s.layers.getD []).map layerChunkBytes).flatten ++ rest)) sp fr ptr
      hd hpl]
    simp only [ok_bind]
    rw [readChunks]
    have hd2 : data.drop (ptr + (26 + 6 * pal.length)) =
        tagsChunkBytes ts ++
        (((s.layers.getD []).map layerChunkBytes).flatten ++ rest) :=
      drop_past data (palChunkBytes pal) _ ptr (26 + 6 * pal.length)
        (by rw [hd]) (palChunkBytes_length pal)
    rw [readChunk_tags dec ts data
      (((s.layers.getD []).map layerChunkBytes).flatten ++ rest)
      { sp with palette := some (pal.map canonEntry) } fr
      (ptr + (26 + 6 * pal.length)) hd2 hts1 hts3 hts2]
    simp only [ok_bind]
    have hd3 : data.drop (ptr + (26 + 6 * pal.length) +
        (16 + ((ts.map tagBytes).flatten).length)) =
        ((s.layers.getD []).map layerChunkBytes).flatten ++ rest :=
      drop_past data (tagsChunkBytes ts) _ (ptr + (26 + 6 * pal.length))
        (16 + ((ts.map tagBytes).flatten).length) (by rw [hd2])
        (by simp [tagsChunkBytes, le32, le16]; omega)
    rw [readChunks_layers dec (s.layers.getD []) data fr rest
      { sp with palette := some (pal.map canonEntry), tags := some ts } ls0
      (ptr + (26 + 6 * pal.length) + (16 + ((ts.map tagBytes).flatten).length))
      hly hd3 hlay]
    simp only [hfb, htag, List.append_nil, List.length_append,
      palChunkBytes_length, Except.ok.injEq, Prod.mk.injEq, true_and,
      and_true]
    simp only [tagsChunkBytes, le32, le16, List.length_append,
      List.length_cons, List.length_nil, List.length_replicate]
    omega

theorem readFrames_rest (dec : List Nat → Option (List Nat))
    (compress : List Nat → List Nat) (s : Sprite) (fs : List Frame)
    (data : List Nat) (rest : List Nat) (sp : Sprite) (ptr : Nat)
    (hzlib : ∀ x, dec (compress x) = some x)
    (hd : data.drop ptr = framesBytes compress s false fs ++ rest)
    (hfg : ∀ f ∈ fs, f.duration < 65536 ∧ (∀ c ∈ f.cels, GoodCelP c) ∧
      f.cels.length < 65536 ∧
      (∀ c ∈ f.cels, celChunkLen compress c < 4294967296) ∧
      16 + (frameChunksBytes compress s false f).length < 4294967296) :
    readFrames dec data fs.length sp ptr =
      .ok ({ sp with frames := sp.frames ++ fs.map canonFrame },
           ptr + (framesBytes compress s false fs).length) := by
  induction fs generalizing rest sp ptr with
  | nil =>
    simp only [List.length_nil, readFrames, List.map_nil, List.append_nil,
      framesBytes, List.length_nil, Nat.add_zero]
  | cons f fs ih =>
    obtain ⟨hdur, hcg, hclen, hcsz, hfsz⟩ := hfg f (by simp)
    have hcnt : frameChunkCount s false f = f.cels.length := by
      simp [frameChunkCount]
    have hfcb : frameChunksBytes compress s false f =
        (f.cels.map (celChunkBytes compress)).flatten := by
      simp [frameChunksBytes]
    have hcnt16 : frameChunkCount s false f < 65536 := by omega
    rw [hfcb] at hfsz
    simp only [List.length_cons]
    rw [readFrames]
    have hd' : data.drop ptr =
        (le32 (16 + ((f.cels.map (celChunkBytes compress)).flatten).length) ++
         le16 0xF1FA ++ le16 (f.cels.length) ++ le16 f.duration ++ [0, 0] ++
         le32 0) ++
        ((f.cels.map (celChunkBytes compress)).flatten ++
         (framesBytes compress s false fs ++ rest)) := by
      rw [hd]
      simp only [framesBytes, frameBytes, hfcb, hcnt, List.append_assoc]
    rw [pyslice_head data _ _ ptr 16 hd' (by simp [le32, le16])]
    rw [unpackFrameRec_le (16 + ((f.cels.map (celChunkBytes compress)).flatten).length)
      f.cels.length f.duration hfsz (by omega) hdur]
    simp only [ok_bind]
    norm_num
    have hd16 : data.drop (ptr + 16) =
        (f.cels.map (celChunkBytes compress)).flatten ++
        (framesBytes compress s false fs ++ rest) :=
      drop_past data _ _ ptr 16 hd' (by simp [le32, le16])
    rw [readChunks_cels dec compress f.cels data sp
      (framesBytes compress s false fs ++ rest)
      { duration := f.duration, cels := [] } (ptr + 16) hzlib hd16 hcg hcsz]
    simp only [ok_bind, List.nil_append]
    have hd2 : data.drop (ptr + 16 +
        ((f.cels.map (celChunkBytes compress)).flatten).length) =
        framesBytes compress s false fs ++ rest :=
      drop_past data _ _ (ptr + 16)
        ((f.cels.map (celChunkBytes compress)).flatten).length hd16 rfl
    rw [ih rest { sp with frames := sp.frames ++
        [{ duration := f.duration, cels := f.cels.map canonCel }] }
      (ptr + 16 + ((f.cels.map (celChunkBytes compress)).flatten).length)
      hd2 (fun u hu => hfg u (by simp [hu]))]
    simp only [List.map_cons, List.append_assoc, List.singleton_append,
      framesBytes, frameBytes, List.length_append, hfcb, hcnt, canonFrame,
      Except.ok.injEq, Prod.mk.injEq, true_and, and_true, le32_length,
      le16_length, List.length_cons, List.length_nil]
    try omega

theorem flatten_mem_le {α : Type} (g : α → List Nat) (x : α) (xs : List α)
    (hx : x ∈ xs) : (g x).length ≤ ((xs.map g).flatten).length := by
  induction xs with
  | nil => simp at hx
  | cons y ys ih =>
    rcases List.mem_cons.mp hx with h | h
    · subst h; simp
    · simp only [List.map_cons, List.flatten_cons, List.length_append]
      have := ih h
      omega

theorem framesBytes_mem_le (compress : List Nat → List Nat) (s : Sprite)
    (fs : List Frame) (f : Frame) (hf : f ∈ fs) :
    (frameBytes compress s false f).length ≤
      (framesBytes compress s false fs).length := by
  induction fs with
  | nil => simp at hf
  | cons g gs ih =>
    rcases List.mem_cons.mp hf with h | h
    · subst h; simp only [framesBytes, List.length_append]; omega
    · simp only [framesBytes, List.length_append]
      have := ih h
      omega

theorem tagsChunkBytes_length (ts : List Tag) :
    (tagsChunkBytes ts).length = 16 + ((ts.map tagBytes).flatten).length := by
  simp [tagsChunkBytes, le32, le16]; omega

/-- Decoding the writer's output of a valid sprite yields the canonicalized
sprite. -/
theorem read_spec (nm : List Nat) (dec : List Nat → Option (List Nat))
    (compress : List Nat → List Nat) (s : Sprite)
    (hzlib : ∀ x, dec (compress x) = some x)
    (hgs : GoodSpriteP s)
    (hfit : 128 + (framesBytes compress s true s.frames).length ≤ 102400) :
    read_aseprite_file nm dec (specBytes compress s) = .ok (canon nm s) := by
  obtain ⟨hii, hw, hh, hsp, htr, hfr1, hfrlt, ⟨pal, hpal, hpl1, hpl2, hpe⟩,
    hlays, htags, hfrm⟩ := hgs
  obtain ⟨f0, fs, hfr⟩ : ∃ f0 fs, s.frames = f0 :: fs := by
    cases hq : s.frames with
    | nil => rw [hq] at hfr1; simp at hfr1
    | cons a b => exact ⟨a, b, rfl⟩
  have hfbf0_le : (frameBytes compress s true f0).length ≤
      (framesBytes compress s true s.frames).length := by
    rw [hfr]; simp only [framesBytes, List.length_append]; omega
  have hfb0 : (frameBytes compress s true f0).length =
      16 + (frameChunksBytes compress s true f0).length :=
    frameBytes_length compress s true f0
  have hframe0 := hfrm f0 (by rw [hfr]; simp)
  have hcels0flat : ((f0.cels.map (celChunkBytes compress)).flatten).length ≤
      (frameChunksBytes compress s true f0).length := by
    simp only [frameChunksBytes, List.length_append]; omega
  have hfirstflat : (firstChunksBytes s).length ≤
      (frameChunksBytes compress s true f0).length := by
    simp only [frameChunksBytes, if_true, List.length_append]; omega
  have hcels0 : ∀ c ∈ f0.cels, celChunkLen compress c < 4294967296 := by
    intro c hc
    have h1 := flatten_mem_le (celChunkBytes compress) c f0.cels hc
    rw [celChunkBytes_length] at h1
    omega
  have hcnt0 : frameChunkCount s true f0 < 65536 := by
    have h1 := firstChunkCount_le s
    have h2 : frameChunkCount s true f0 =
        firstChunkCount s + f0.cels.length := by
      simp [frameChunkCount]
    omega
  have hsz0 : 16 + (frameChunksBytes compress s true f0).length <
      4294967296 := by omega
  have htagsfull : ∀ ts, s.tags = some ts → ts.length < 65536 ∧
      (∀ t ∈ ts, GoodTagP t) ∧
      16 + ((ts.map tagBytes).flatten).length < 4294967296 := by
    intro ts hts
    obtain ⟨h1, h2⟩ := htags ts hts
    refine ⟨h1, h2, ?_⟩
    have h3 : (tagsChunkBytes ts).length ≤ (firstChunksBytes s).length := by
      simp only [firstChunksBytes, hts, List.length_append]; omega
    rw [tagsChunkBytes_length] at h3
    omega
  have hlay : ∀ l ∈ s.layers.getD [], GoodLayerP l := by
    intro l hl
    cases hq : s.layers with
    | none => rw [hq] at hl; simp at hl
    | some ls =>
      rw [hq] at hl
      exact hlays ls hq l (by simpa using hl)
  have hrest : ∀ f ∈ fs, f.duration < 65536 ∧ (∀ c ∈ f.cels, GoodCelP c) ∧
      f.cels.length < 65536 ∧
      (∀ c ∈ f.cels, celChunkLen compress c < 4294967296) ∧
      16 + (frameChunksBytes compress s false f).length < 4294967296 := by
    intro f hf
    have hgf := hfrm f (by rw [hfr]; simp [hf])
    have hmm := framesBytes_mem_le compress s fs f hf
    have hrl : (framesBytes compress s false fs).length ≤
        (framesBytes compress s true s.frames).length := by
      rw [hfr]; simp only [framesBytes, List.length_append]; omega
    have hfbl : (frameBytes compress s false f).length =
        16 + (frameChunksBytes compress s false f).length :=
      frameBytes_length compress s false f
    refine ⟨hgf.1, hgf.2.1, by have := hgf.2.2; omega, ?_, by omega⟩
    intro c hc
    have h1 := flatten_mem_le (celChunkBytes compress) c f.cels hc
    rw [celChunkBytes_length] at h1
    have h2 : ((f.cels.map (celChunkBytes compress)).flatten).length ≤
        (frameChunksBytes compress s false f).length := by
      simp only [frameChunksBytes, List.length_append]; omega
    omega
  have htotal : 128 + (framesBytes compress s true s.frames).length <
      4294967296 := by omega
  rw [read_aseprite_file]
  have hd0 : (specBytes compress s).drop 0 =
      (le32 (128 + (framesBytes compress s true s.frames).length) ++
       hdr32Bytes s) ++
      (List.replicate 92 0 ++
       (framesBytes compress s true s.frames ++ [])) := by
    rw [List.drop_zero]; simp [specBytes, List.append_assoc]
  rw [pyslice_head2 (specBytes compress s) _ _ 0 36 hd0
    (by simp [le32, hdr32Bytes_length])]
  rw [unpackHeader_le (128 + (framesBytes compress s true s.frames).length)
    s pal htotal hpal hii hw hh hsp hfrlt hpl2]
  simp only [ok_bind]
  have hlen1 : s.frames.length = fs.length + 1 := by rw [hfr]; simp
  rw [hlen1, readFrames]
  have hd128 : (specBytes compress s).drop 128 =
      frameBytes compress s true f0 ++
      (framesBytes compress s false fs ++ []) := by
    have heq : specBytes compress s =
        (le32 (128 + (framesBytes compress s true s.frames).length) ++
         hdr32Bytes s ++ List.replicate 92 0) ++
        (frameBytes compress s true f0 ++
         (framesBytes compress s false fs ++ [])) := by
      simp only [specBytes, List.append_assoc, List.append_nil]
      rw [hfr]
      simp [framesBytes, List.append_assoc]
    rw [heq, List.drop_left' (by simp [le32, hdr32Bytes_length])]
  have hd128' : (specBytes compress s).drop 128 =
      (le32 (16 + (frameChunksBytes compress s true f0).length) ++
       le16 0xF1FA ++ le16 (frameChunkCount s true f0) ++
       le16 f0.duration ++ [0, 0] ++ le32 0) ++
      (frameChunksBytes compress s true f0 ++
       (framesBytes compress s false fs ++ [])) := by
    rw [hd128]
    simp only [frameBytes, List.append_assoc]
  rw [pyslice_head (specBytes compress s) _ _ 128 16 hd128'
    (by simp [le32, le16])]
  rw [unpackFrameRec_le (16 + (frameChunksBytes compress s true f0).length)
    (frameChunkCount s true f0) f0.duration hsz0 hcnt0 hframe0.1]
  simp only [ok_bind]
  norm_num
  have hd144 : (specBytes compress s).drop (128 + 16) =
      frameChunksBytes compress s true f0 ++
      (framesBytes compress s false fs ++ []) :=
    drop_past (specBytes compress s) _ _ 128 16 hd128'
      (by simp [le32, le16])
  have hd144' : (specBytes compress s).drop (128 + 16) =
      firstChunksBytes s ++
      ((f0.cels.map (celChunkBytes compress)).flatten ++
       (framesBytes compress s false fs ++ [])) := by
    rw [hd144]
    simp only [frameChunksBytes, if_true, List.append_assoc]
  have hsplit : frameChunkCount s true f0 =
      firstChunkCount s + f0.cels.length := by
    simp [frameChunkCount]
  rw [hsplit, readChunks_append]
  rw [readChunks_first dec s pal (specBytes compress s)
    { duration := f0.duration, cels := [] }
    ((f0.cels.map (celChunkBytes compress)).flatten ++
     (framesBytes compress s false fs ++ []))
    { name := nm, w := s.w, h := s.h, trans := s.trans, speed := s.speed,
      indexed := true, palette := none, layers := some [], tags := none,
      frames := [] }
    [] (128 + 16) rfl hii hpal hpl2 hlay htagsfull hd144']
  simp only [ok_bind]
  have hd2 : (specBytes compress s).drop (128 + 16 +
      (firstChunksBytes s).length) =
      (f0.cels.map (celChunkBytes compress)).flatten ++
      (framesBytes compress s false fs ++ []) :=
    drop_past (specBytes compress s) _ _ (128 + 16)
      (firstChunksBytes s).length hd144' rfl
  rw [readChunks_cels dec compress f0.cels (specBytes compress s) _
    (framesBytes compress s false fs ++ [])
    { duration := f0.duration, cels := [] }
    (128 + 16 + (firstChunksBytes s).length) hzlib hd2 hframe0.2.1 hcels0]
  simp only [ok_bind, List.nil_append]
  have hd3 : (specBytes compress s).drop (128 + 16 +
      (firstChunksBytes s).length +
      ((f0.cels.map (celChunkBytes compress)).flatten).length) =
      framesBytes compress s false fs ++ [] :=
    drop_past (specBytes compress s) _ _
      (128 + 16 + (firstChunksBytes s).length)
      ((f0.cels.map (celChunkBytes compress)).flatten).length hd2 rfl
  rw [readFrames_rest dec compress s fs (specBytes compress s) [] _
    (128 + 16 + (firstChunksBytes s).length +
     ((f0.cels.map (celChunkBytes compress)).flatten).length)
    hzlib hd3 hrest]
  simp only [ok_bind]
  unfold canon
  rw [hfr, hpal]
  simp only [Option.getD_some, List.map_cons, List.nil_append,
    List.singleton_append, canonFrame, Except.ok.injEq, Sprite.mk.injEq,
    true_and, and_true]
  cases hq : s.tags <;> simp [hq]

/-! ## Canonicalization lemmas: one round trip is a fixed point -/

theorem canonEntry_idem (e : Nat × Nat × Nat × Nat) :
    canonEntry (canonEntry e) = canonEntry e := rfl

theorem canonCel_idem (c : Cel) : canonCel (canonCel c) = canonCel c := by
  unfold canonCel
  cases hlk : c.linked <;> simp [hlk]

theorem canonFrame_idem (f : Frame) :
    canonFrame (canonFrame f) = canonFrame f := by
  unfold canonFrame
  simp [List.map_map, Function.comp, canonCel_idem]

theorem canon_idem (nm : List Nat) (s : Sprite) :
    canon nm (canon nm s) = canon nm s := by
  unfold canon
  simp only [Option.getD_some, List.map_map, Sprite.mk.injEq, true_and,
    and_true]
  constructor
  · congr 1
  · exact List.map_congr_left (fun f _ => canonFrame_idem f)

theorem entryBytes_canonEntry (e : Nat × Nat × Nat × Nat) :
    entryBytes (canonEntry e) = entryBytes e := rfl

theorem palChunkBytes_canon (pal : List (Nat × Nat × Nat × Nat)) :
    palChunkBytes (pal.map canonEntry) = palChunkBytes pal := by
  unfold palChunkBytes
  simp only [List.map_map, List.length_map]
  have h : List.map (entryBytes ∘ canonEntry) pal = List.map entryBytes pal :=
    List.map_congr_left (fun e _ => entryBytes_canonEntry e)
  rw [h]

theorem celChunkBytes_canonCel (compress : List Nat → List Nat) (c : Cel) :
    celChunkBytes compress (canonCel c) = celChunkBytes compress c := by
  unfold celChunkBytes canonCel
  cases hlk : c.linked <;> simp [hlk]

theorem firstChunksBytes_canon (nm : List Nat) (s : Sprite)
    (hii : s.indexed = true) :
    firstChunksBytes (canon nm s) = firstChunksBytes s := by
  unfold firstChunksBytes
  simp only [canon, hii, if_true, Option.getD_some, palChunkBytes_canon]

theorem firstChunkCount_canon (nm : List Nat) (s : Sprite)
    (hii : s.indexed = true) :
    firstChunkCount (canon nm s) = firstChunkCount s := by
  unfold firstChunkCount
  simp only [canon, hii, if_true, Option.getD_some]

theorem frameChunksBytes_canon (compress : List Nat → List Nat)
    (nm : List Nat) (s : Sprite) (first : Bool) (f : Frame)
    (hii : s.indexed = true) :
    frameChunksBytes compress (canon nm s) first (canonFrame f) =
      frameChunksBytes compress s first f := by
  unfold frameChunksBytes
  rw [firstChunksBytes_canon nm s hii]
  unfold canonFrame
  simp only [List.map_map]
  have h : List.map (celChunkBytes compress ∘ canonCel) f.cels =
      List.map (celChunkBytes compress) f.cels :=
    List.map_congr_left (fun c _ => celChunkBytes_canonCel compress c)
  rw [h]

theorem frameChunkCount_canon (nm : List Nat) (s : Sprite) (first : Bool)
    (f : Frame) (hii : s.indexed = true) :
    frameChunkCount (canon nm s) first (canonFrame f) =
      frameChunkCount s first f := by
  unfold frameChunkCount
  rw [firstChunkCount_canon nm s hii]
  simp [canonFrame]

theorem frameBytes_canon (compress : List Nat → List Nat) (nm : List Nat)
    (s : Sprite) (first : Bool) (f : Frame) (hii : s.indexed = true) :
    frameBytes compress (canon nm s) first (canonFrame f) =
      frameBytes compress s first f := by
  unfold frameBytes
  rw [frameChunksBytes_canon compress nm s first f hii,
    frameChunkCount_canon nm s first f hii]
  simp [canonFrame]

theorem framesBytes_canon (compress : List Nat → List Nat) (nm : List Nat)
    (s : Sprite) (first : Bool) (fs : List Frame) (hii : s.indexed = true) :
    framesBytes compress (canon nm s) first (fs.map canonFrame) =
      framesBytes compress s first fs := by
  induction fs generalizing first with
  | nil => rfl
  | cons f tl ih =>
    simp only [List.map_cons, framesBytes]
    rw [frameBytes_canon compress nm s first f hii, ih false]

theorem hdr32Bytes_canon (nm : List Nat) (s : Sprite)
    (hii : s.indexed = true) :
    hdr32Bytes (canon nm s) = hdr32Bytes s := by
  unfold hdr32Bytes
  simp only [canon, hii, if_true, Option.getD_some, List.length_map]

theorem specBytes_canon (compress : List Nat → List Nat) (nm : List Nat)
    (s : Sprite) (hii : s.indexed = true) :
    specBytes compress (canon nm s) = specBytes compress s := by
  unfold specBytes
  rw [hdr32Bytes_canon nm s hii]
  have hfb : framesBytes compress (canon nm s) true (canon nm s).frames =
      framesBytes compress s true s.frames := by
    show framesBytes compress (canon nm s) true (s.frames.map canonFrame) =
      framesBytes compress s true s.frames
    exact framesBytes_canon compress nm s true s.frames hii
  rw [hfb]

theorem canon_goodP (nm : List Nat) (s : Sprite) (hgs : GoodSpriteP s) :
    GoodSpriteP (canon nm s) := by
  obtain ⟨hii, hw, hh, hsp, htr, hfr1, hfrlt, ⟨pal, hpal, hpl1, hpl2, hpe⟩,
    hlays, htags, hfrm⟩ := hgs
  refine ⟨rfl, hw, hh, hsp, htr, by simp [canon, hfr1],
    by simp [canon]; omega, ?_, ?_, ?_, ?_⟩
  · refine ⟨pal.map canonEntry, by simp [canon, hpal], by simp; omega,
      by simp; omega, ?_⟩
    intro e he
    obtain ⟨e0, he0, rfl⟩ := List.mem_map.mp he
    obtain ⟨q1, q2, q3⟩ := hpe e0 he0
    exact ⟨q1, q2, q3⟩
  · intro ls hls l hl
    have : ls = s.layers.getD [] := by
      simp only [canon, Option.some.injEq] at hls
      exact hls.symm
    subst this
    cases hq : s.layers with
    | none => rw [hq] at hl; simp at hl
    | some ls2 => rw [hq] at hl; exact hlays ls2 hq l (by simpa using hl)
  · intro ts hts
    simp only [canon] at hts
    exact htags ts hts
  · intro f hf
    simp only [canon] at hf
    obtain ⟨f0, hf0, rfl⟩ := List.mem_map.mp hf
    obtain ⟨q1, q2, q3⟩ := hfrm f0 hf0
    refine ⟨by simpa [canonFrame] using q1, ?_, ?_⟩
    · intro c hc
      simp only [canonFrame] at hc
      obtain ⟨c0, hc0, rfl⟩ := List.mem_map.mp hc
      have hg0 := q2 c0 hc0
      obtain ⟨p1, p2, p3, p4, p5, p6, p7⟩ := hg0
      unfold canonCel
      cases hlk : c0.linked with
      | some lk =>
        rw [hlk] at p7
        exact ⟨p1, p2, p3, p4, p5, p6, p7⟩
      | none =>
        rw [hlk] at p7
        exact ⟨p1, p2, p3, p4, p5, p6, by rw [hlk]; exact p7⟩
    · simp only [canonFrame, List.length_map, canon, Option.getD_some]
      have : (s.layers.getD []).length = (s.layers.getD []).length := rfl
      omega

theorem roundTrip_spec (nm : List Nat) (dec : List Nat → Option (List Nat))
    (compress : List Nat → List Nat) (s : Sprite)
    (hzlib : ∀ x, dec (compress x) = some x)
    (hgs : GoodSpriteP s)
    (hfit : 128 + (framesBytes compress s true s.frames).length ≤ 102400) :
    roundTrip nm dec compress s = .ok (canon nm s) := by
  unfold roundTrip
  rw [write_aseprite_file_spec compress s hgs hfit]
  simp only [ok_bind]
  exact read_spec nm dec compress s hzlib hgs hfit

theorem roundTrip_canon (nm : List Nat) (dec : List Nat → Option (List Nat))
    (compress : List Nat → List Nat) (s : Sprite)
    (hzlib : ∀ x, dec (compress x) = some x)
    (hgs : GoodSpriteP s)
    (hfit : 128 + (framesBytes compress s true s.frames).length ≤ 102400) :
    roundTrip nm dec compress (canon nm s) = .ok (canon nm s) := by
  have hii : s.indexed = true := hgs.1
  have hfit2 : 128 +
      (framesBytes compress (canon nm s) true (canon nm s).frames).length ≤
      102400 := by
    have : framesBytes compress (canon nm s) true (canon nm s).frames =
        framesBytes compress s true s.frames :=
      framesBytes_canon compress nm s true s.frames hii
    rw [this]; exact hfit
  have h1 := roundTrip_spec nm dec compress (canon nm s) hzlib
    (canon_goodP nm s hgs) hfit2
  rw [h1, canon_idem]

/-! ## Decidable validity implies the propositional form -/

theorem goodName_sound (nm : List Nat) (h : goodName nm = true) :
    nm.length < 65536 ∧ ∀ c ∈ nm, c < 128 := by
  unfold goodName at h
  simp only [Bool.and_eq_true, decide_eq_true_eq, List.all_eq_true] at h
  exact ⟨h.1, fun c hc => h.2 c hc⟩

theorem goodLayer_sound (l : Layer) (h : goodLayer l = true) :
    GoodLayerP l := by
  unfold goodLayer at h
  simp only [Bool.and_eq_true, decide_eq_true_eq] at h
  obtain ⟨⟨⟨⟨⟨h1, h2⟩, h3⟩, h4⟩, h5⟩, h6⟩ := h
  obtain ⟨n1, n2⟩ := goodName_sound l.name h6
  exact ⟨h1, h2, h3, h4, h5, n1, n2⟩

theorem goodTag_sound (t : Tag) (h : goodTag t = true) : GoodTagP t := by
  unfold goodTag at h
  simp only [Bool.and_eq_true, decide_eq_true_eq] at h
  obtain ⟨⟨⟨h1, h2⟩, h3⟩, h4⟩ := h
  obtain ⟨n1, n2⟩ := goodName_sound t.name h4
  exact ⟨h1, h2, h3, n1, n2⟩

theorem goodCel_sound (c : Cel) (h : goodCel c = true) : GoodCelP c := by
  unfold goodCel at h
  unfold GoodCelP
  cases hlk : c.linked with
  | some lk =>
    rw [hlk] at h
    simp only [Bool.and_eq_true, decide_eq_true_eq] at h
    obtain ⟨⟨⟨⟨⟨⟨h1, h2⟩, h3⟩, h4⟩, h5⟩, h6⟩, h7⟩ := h
    exact ⟨h1, h2, h3, h4, h5, h6, h7⟩
  | none =>
    rw [hlk] at h
    simp only [Bool.and_eq_true, decide_eq_true_eq] at h
    obtain ⟨⟨⟨⟨⟨⟨h1, h2⟩, h3⟩, h4⟩, h5⟩, h6⟩,
      ⟨⟨⟨⟨hw, hh⟩, hp⟩, hwl⟩, hhl⟩⟩ := h
    refine ⟨h1, h2, h3, h4, h5, h6, ?_, ?_, ?_⟩
    · obtain ⟨wv, hwv⟩ := Option.isSome_iff_exists.mp hw
      exact ⟨wv, hwv, by rw [hwv] at hwl; simpa using hwl⟩
    · obtain ⟨hv, hhv⟩ := Option.isSome_iff_exists.mp hh
      exact ⟨hv, hhv, by rw [hhv] at hhl; simpa using hhl⟩
    · exact Option.isSome_iff_exists.mp hp

theorem goodSprite_sound (s : Sprite) (h : goodSprite s = true) :
    GoodSpriteP s := by
  unfold goodSprite at h
  simp only [Bool.and_eq_true, decide_eq_true_eq] at h
  obtain ⟨⟨⟨⟨⟨⟨⟨⟨⟨⟨hii, hw⟩, hh⟩, hsp⟩, htr⟩, hf1⟩, hf2⟩, hpal⟩, hlay⟩,
    htag⟩, hfr⟩ := h
  refine ⟨hii, hw, hh, hsp, htr, hf1, hf2, ?_, ?_, ?_, ?_⟩
  · cases hq : s.palette with
    | none => rw [hq] at hpal; simp at hpal
    | some pal =>
      rw [hq] at hpal
      simp only [Bool.and_eq_true, decide_eq_true_eq,
        List.all_eq_true] at hpal
      obtain ⟨⟨p1, p2⟩, p3⟩ := hpal
      refine ⟨pal, rfl, p1, p2, ?_⟩
      intro e he
      have := p3 e he
      simp only [Bool.and_eq_true, decide_eq_true_eq] at this
      exact ⟨this.1.1, this.1.2, this.2⟩
  · intro ls hls l hl
    rw [hls] at hlay
    simp only [List.all_eq_true] at hlay
    exact goodLayer_sound l (hlay l hl)
  · intro ts hts
    rw [hts] at htag
    simp only [Bool.and_eq_true, decide_eq_true_eq, List.all_eq_true] at htag
    exact ⟨htag.1, fun t ht => goodTag_sound t (htag.2 t ht)⟩
  · intro f hf
    simp only [List.all_eq_true] at hfr
    have := hfr f hf
    simp only [Bool.and_eq_true, decide_eq_true_eq,
      List.all_eq_true] at this
    exact ⟨this.1.1, fun c hc => goodCel_sound c (this.1.2 c hc), this.2⟩

/-! ## Further cel-path facts: raw cels, unknown sub-types, unchecked
decompression, clamped slices -/

theorem readChunk_cel_raw (dec : List Nat → Option (List Nat))
    (ly : Nat) (x y : Int) (op : Nat) (w h : Nat) (px : List Nat)
    (data rest : List Nat) (sp : Sprite) (fr : Frame) (ptr : Nat)
    (hd : data.drop ptr = le32 (26 + px.length) ++ le16 0x2005 ++ le16 ly ++
      p16i x ++ p16i y ++ [op] ++ le16 0 ++ List.replicate 7 0 ++ le16 w ++
      le16 h ++ (px ++ rest))
    (hly : ly < 65536) (hx1 : -32768 ≤ x) (hx2 : x < 32768)
    (hy1 : -32768 ≤ y) (hy2 : y < 32768) (hw : w < 65536) (hh : h < 65536)
    (hsz : 26 + px.length < 4294967296) :
    readChunk dec data sp fr ptr =
      .ok (sp, { fr with cels := fr.cels ++
             [{ layer := ly, x := x, y := y, opacity := op, w := some w,
                h := some h, pixels := some px, linked := none }] },
           ptr + (26 + px.length)) := by
  have hd' : data.drop ptr = (le32 (26 + px.length) ++ le16 0x2005) ++
      ((le16 ly ++ p16i x ++ p16i y ++ [op] ++ le16 0) ++
       (List.replicate 7 0 ++ ((le16 w ++ le16 h) ++ (px ++ rest)))) := by
    rw [hd]; simp [List.append_assoc]
  rw [readChunk]
  rw [pyslice_head data (le32 (26 + px.length) ++ le16 0x2005) _ ptr 6 hd'
    (by simp [le32, le16])]
  rw [unpackChunkHead_le (26 + px.length) 0x2005 hsz (by norm_num)]
  simp only [ok_bind, PALETTE, LAYER, TAGS, CEL, if_true]
  rw [if_neg (show ¬((8197 : Nat) = 8217) by norm_num),
      if_neg (show ¬((8197 : Nat) = 8196) by norm_num),
      if_neg (show ¬((8197 : Nat) = 8216) by norm_num)]
  have hd6 : data.drop (ptr + 6) =
      (le16 ly ++ p16i x ++ p16i y ++ [op] ++ le16 0) ++
      (List.replicate 7 0 ++ ((le16 w ++ le16 h) ++ (px ++ rest))) :=
    drop_past data _ _ ptr 6 hd' (by simp [le32, le16])
  rw [pyslice_head data (le16 ly ++ p16i x ++ p16i y ++ [op] ++ le16 0) _
    (ptr + 6) 9 hd6 (by simp [le16, p16i])]
  rw [unpackCelRec_le ly x y op 0 hly hx1 hx2 hy1 hy2 (by norm_num)]
  simp only [ok_bind, if_true]
  have hd15 : data.drop (ptr + 6 + 9) =
      List.replicate 7 0 ++ ((le16 w ++ le16 h) ++ (px ++ rest)) :=
    drop_past data _ _ (ptr + 6) 9 hd6 (by simp [le16, p16i])
  have hd22 : data.drop (ptr + 6 + 9 + 7) =
      (le16 w ++ le16 h) ++ (px ++ rest) :=
    drop_past data _ _ (ptr + 6 + 9) 7 hd15 (by simp)
  rw [pyslice_head data (le16 w ++ le16 h) _ (ptr + 6 + 9 + 7) 4 hd22
    (by simp [le16])]
  rw [unpackHH_le w h hw hh]
  simp only [ok_bind]
  have hd26 : data.drop (ptr + 6 + 9 + 7 + 4) = px ++ rest :=
    drop_past data _ _ (ptr + 6 + 9 + 7) 4 hd22 (by simp [le16])
  rw [pyslice_head2 data px rest (ptr + 6 + 9 + 7 + 4)
    (ptr + (26 + px.length)) hd26 (by omega)]
  try rw [if_neg (show ¬((0 : Nat) = 1) by norm_num)]
  try rw [if_pos rfl]

theorem readChunk_cel_unknown (dec : List Nat → Option (List Nat))
    (sz ly : Nat) (x y : Int) (op ct : Nat) (data rest : List Nat)
    (sp : Sprite) (fr : Frame) (ptr : Nat)
    (hd : data.drop ptr = le32 sz ++ le16 0x2005 ++ le16 ly ++
      p16i x ++ p16i y ++ [op] ++ le16 ct ++ rest)
    (hsz : sz < 4294967296) (hly : ly < 65536)
    (hx1 : -32768 ≤ x) (hx2 : x < 32768) (hy1 : -32768 ≤ y) (hy2 : y < 32768)
    (hct : ct < 65536) (hct0 : ct ≠ 0) (hct1 : ct ≠ 1) (hct2 : ct ≠ 2) :
    readChunk dec data sp fr ptr =
      .ok (sp, { fr with cels := fr.cels ++
             [{ layer := ly, x := x, y := y, opacity := op, w := none,
                h := none, pixels := none, linked := none }] },
           ptr + sz) := by
  have hd' : data.drop ptr = (le32 sz ++ le16 0x2005) ++
      ((le16 ly ++ p16i x ++ p16i y ++ [op] ++ le16 ct) ++ rest) := by
    rw [hd]; simp [List.append_assoc]
  rw [readChunk]
  rw [pyslice_head data (le32 sz ++ le16 0x2005) _ ptr 6 hd'
    (by simp [le32, le16])]
  rw [unpackChunkHead_le sz 0x2005 hsz (by norm_num)]
  simp only [ok_bind, PALETTE, LAYER, TAGS, CEL, if_true]
  rw [if_neg (show ¬((8197 : Nat) = 8217) by norm_num),
      if_neg (show ¬((8197 : Nat) = 8196) by norm_num),
      if_neg (show ¬((8197 : Nat) = 8216) by norm_num)]
  have hd6 : data.drop (ptr + 6) =
      (le16 ly ++ p16i x ++ p16i y ++ [op] ++ le16 ct) ++ rest :=
    drop_past data _ _ ptr 6 hd' (by simp [le32, le16])
  rw [pyslice_head data (le16 ly ++ p16i x ++ p16i y ++ [op] ++ le16 ct) _
    (ptr + 6) 9 hd6 (by simp [le16, p16i])]
  rw [unpackCelRec_le ly x y op ct hly hx1 hx2 hy1 hy2 hct]
  simp only [ok_bind]
  rw [if_neg hct0, if_neg hct1, if_neg hct2]

theorem readChunk_cel_unchecked (dec : List Nat → Option (List Nat))
    (ly : Nat) (x y : Int) (op w h : Nat) (comp px2 : List Nat)
    (data rest : List Nat) (sp : Sprite)
    (fr : Frame) (ptr : Nat)
    (hd : data.drop ptr = le32 (26 + comp.length) ++ le16 0x2005 ++
      le16 ly ++ p16i x ++ p16i y ++ [op] ++ le16 2 ++
      List.replicate 7 0 ++ le16 w ++ le16 h ++ (comp ++ rest))
    (hly : ly < 65536) (hx1 : -32768 ≤ x) (hx2 : x < 32768)
    (hy1 : -32768 ≤ y) (hy2 : y < 32768) (hw : w < 65536) (hh : h < 65536)
    (hsz : 26 + comp.length < 4294967296)
    (hdec : dec comp = some px2) :
    readChunk dec data sp fr ptr =
      .ok (sp, { fr with cels := fr.cels ++
             [{ layer := ly, x := x, y := y, opacity := op, w := some w,
                h := some h, pixels := some px2, linked := none }] },
           ptr + (26 + comp.length)) := by
  have hd' : data.drop ptr = (le32 (26 + comp.length) ++ le16 0x2005) ++
      ((le16 ly ++ p16i x ++ p16i y ++ [op] ++ le16 2) ++
       (List.replicate 7 0 ++ ((le16 w ++ le16 h) ++ (comp ++ rest)))) := by
    rw [hd]; simp [List.append_assoc]
  rw [readChunk]
  rw [pyslice_head data (le32 (26 + comp.length) ++ le16 0x2005) _ ptr 6 hd'
    (by simp [le32, le16])]
  rw [unpackChunkHead_le (26 + comp.length) 0x2005 hsz (by norm_num)]
  simp only [ok_bind, PALETTE, LAYER, TAGS, CEL, if_true]
  rw [if_neg (show ¬((8197 : Nat) = 8217) by norm_num),
      if_neg (show ¬((8197 : Nat) = 8196) by norm_num),
      if_neg (show ¬((8197 : Nat) = 8216) by norm_num)]
  have hd6 : data.drop (ptr + 6) =
      (le16 ly ++ p16i x ++ p16i y ++ [op] ++ le16 2) ++
      (List.replicate 7 0 ++ ((le16 w ++ le16 h) ++ (comp ++ rest))) :=
    drop_past data _ _ ptr 6 hd' (by simp [le32, le16])
  rw [pyslice_head data (le16 ly ++ p16i x ++ p16i y ++ [op] ++ le16 2) _
    (ptr + 6) 9 hd6 (by simp [le16, p16i])]
  rw [unpackCelRec_le ly x y op 2 hly hx1 hx2 hy1 hy2 (by norm_num)]
  simp only [ok_bind]
  rw [if_neg (show ¬((2 : Nat) = 0) by norm_num),
      if_neg (show ¬((2 : Nat) = 1) by norm_num)]
  try rw [if_pos rfl]
  have hd15 : data.drop (ptr + 6 + 9) =
      List.replicate 7 0 ++ ((le16 w ++ le16 h) ++ (comp ++ rest)) :=
    drop_past data _ _ (ptr + 6) 9 hd6 (by simp [le16, p16i])
  have hd22 : data.drop (ptr + 6 + 9 + 7) =
      (le16 w ++ le16 h) ++ (comp ++ rest) :=
    drop_past data _ _ (ptr + 6 + 9) 7 hd15 (by simp)
  rw [pyslice_head data (le16 w ++ le16 h) _ (ptr + 6 + 9 + 7) 4 hd22
    (by simp [le16])]
  rw [unpackHH_le w h hw hh]
  simp only [ok_bind]
  have hd26 : data.drop (ptr + 6 + 9 + 7 + 4) = comp ++ rest :=
    drop_past data _ _ (ptr + 6 + 9 + 7) 4 hd22 (by simp [le16])
  rw [pyslice_head2 data comp rest (ptr + 6 + 9 + 7 + 4)
    (ptr + (26 + comp.length)) hd26 (by omega)]
  rw [hdec]
  simp only [if_true]

theorem readChunk_cel_badzlib (dec : List Nat → Option (List Nat))
    (ly : Nat) (x y : Int) (op w h : Nat) (comp : List Nat)
    (data rest : List Nat) (sp : Sprite) (fr : Frame) (ptr : Nat)
    (hd : data.drop ptr = le32 (26 + comp.length) ++ le16 0x2005 ++
      le16 ly ++ p16i x ++ p16i y ++ [op] ++ le16 2 ++
      List.replicate 7 0 ++ le16 w ++ le16 h ++ (comp ++ rest))
    (hly : ly < 65536) (hx1 : -32768 ≤ x) (hx2 : x < 32768)
    (hy1 : -32768 ≤ y) (hy2 : y < 32768) (hw : w < 65536) (hh : h < 65536)
    (hsz : 26 + comp.length < 4294967296)
    (hdec : dec comp = none) :
    readChunk dec data sp fr ptr = .error .zlibError := by
  have hd' : data.drop ptr = (le32 (26 + comp.length) ++ le16 0x2005) ++
      ((le16 ly ++ p16i x ++ p16i y ++ [op] ++ le16 2) ++
       (List.replicate 7 0 ++ ((le16 w ++ le16 h) ++ (comp ++ rest)))) := by
    rw [hd]; simp [List.append_assoc]
  rw [readChunk]
  rw [pyslice_head data (le32 (26 + comp.length) ++ le16 0x2005) _ ptr 6 hd'
    (by simp [le32, le16])]
  rw [unpackChunkHead_le (26 + comp.length) 0x2005 hsz (by norm_num)]
  simp only [ok_bind, PALETTE, LAYER, TAGS, CEL, if_true]
  rw [if_neg (show ¬((8197 : Nat) = 8217) by norm_num),
      if_neg (show ¬((8197 : Nat) = 8196) by norm_num),
      if_neg (show ¬((8197 : Nat) = 8216) by norm_num)]
  have hd6 : data.drop (ptr + 6) =
      (le16 ly ++ p16i x ++ p16i y ++ [op] ++ le16 2) ++
      (List.replicate 7 0 ++ ((le16 w ++ le16 h) ++ (comp ++ rest))) :=
    drop_past data _ _ ptr 6 hd' (by simp [le32, le16])
  rw [pyslice_head data (le16 ly ++ p16i x ++ p16i y ++ [op] ++ le16 2) _
    (ptr + 6) 9 hd6 (by simp [le16, p16i])]
  rw [unpackCelRec_le ly x y op 2 hly hx1 hx2 hy1 hy2 (by norm_num)]
  simp only [ok_bind]
  rw [if_neg (show ¬((2 : Nat) = 0) by norm_num),
      if_neg (show ¬((2 : Nat) = 1) by norm_num)]
  try rw [if_pos rfl]
  have hd15 : data.drop (ptr + 6 + 9) =
      List.replicate 7 0 ++ ((le16 w ++ le16 h) ++ (comp ++ rest)) :=
    drop_past data _ _ (ptr + 6) 9 hd6 (by simp [le16, p16i])
  have hd22 : data.drop (ptr + 6 + 9 + 7) =
      (le16 w ++ le16 h) ++ (comp ++ rest) :=
    drop_past data _ _ (ptr + 6 + 9) 7 hd15 (by simp)
  rw [pyslice_head data (le16 w ++ le16 h) _ (ptr + 6 + 9 + 7) 4 hd22
    (by simp [le16])]
  rw [unpackHH_le w h hw hh]
  simp only [ok_bind]
  have hd26 : data.drop (ptr + 6 + 9 + 7 + 4) = comp ++ rest :=
    drop_past data _ _ (ptr + 6 + 9 + 7) 4 hd22 (by simp [le16])
  rw [pyslice_head2 data comp rest (ptr + 6 + 9 + 7 + 4)
    (ptr + (26 + comp.length)) hd26 (by omega)]
  rw [hdec]
  simp only [if_true]

theorem readChunk_cel_raw_truncated (dec : List Nat → Option (List Nat))
    (sz ly : Nat) (x y : Int) (op : Nat) (w h : Nat) (px : List Nat)
    (data : List Nat) (sp : Sprite) (fr : Frame) (ptr : Nat)
    (hd : data.drop ptr = le32 sz ++ le16 0x2005 ++ le16 ly ++
      p16i x ++ p16i y ++ [op] ++ le16 0 ++ List.replicate 7 0 ++ le16 w ++
      le16 h ++ px)
    (hly : ly < 65536) (hx1 : -32768 ≤ x) (hx2 : x < 32768)
    (hy1 : -32768 ≤ y) (hy2 : y < 32768) (hw : w < 65536) (hh : h < 65536)
    (hsz : sz < 4294967296) (htrunc : 26 + px.length < sz) :
    readChunk dec data sp fr ptr =
      .ok (sp, { fr with cels := fr.cels ++
             [{ layer := ly, x := x, y := y, opacity := op, w := some w,
                h := some h, pixels := some px, linked := none }] },
           ptr + sz) := by
  have hd' : data.drop ptr = (le32 sz ++ le16 0x2005) ++
      ((le16 ly ++ p16i x ++ p16i y ++ [op] ++ le16 0) ++
       (List.replicate 7 0 ++ ((le16 w ++ le16 h) ++ (px ++ [])))) := by
    rw [hd]; simp [List.append_assoc]
  rw [readChunk]
  rw [pyslice_head data (le32 sz ++ le16 0x2005) _ ptr 6 hd'
    (by simp [le32, le16])]
  rw [unpackChunkHead_le sz 0x2005 hsz (by norm_num)]
  simp only [ok_bind, PALETTE, LAYER, TAGS, CEL, if_true]
  rw [if_neg (show ¬((8197 : Nat) = 8217) by norm_num),
      if_neg (show ¬((8197 : Nat) = 8196) by norm_num),
      if_neg (show ¬((8197 : Nat) = 8216) by norm_num)]
  have hd6 : data.drop (ptr + 6) =
      (le16 ly ++ p16i x ++ p16i y ++ [op] ++ le16 0) ++
      (List.replicate 7 0 ++ ((le16 w ++ le16 h) ++ (px ++ []))) :=
    drop_past data _ _ ptr 6 hd' (by simp [le32, le16])
  rw [pyslice_head data (le16 ly ++ p16i x ++ p16i y ++ [op] ++ le16 0) _
    (ptr + 6) 9 hd6 (by simp [le16, p16i])]
  rw [unpackCelRec_le ly x y op 0 hly hx1 hx2 hy1 hy2 (by norm_num)]
  simp only [ok_bind, if_true]
  have hd15 : data.drop (ptr + 6 + 9) =
      List.replicate 7 0 ++ ((le16 w ++ le16 h) ++ (px ++ [])) :=
    drop_past data _ _ (ptr + 6) 9 hd6 (by simp [le16, p16i])
  have hd22 : data.drop (ptr + 6 + 9 + 7) =
      (le16 w ++ le16 h) ++ (px ++ []) :=
    drop_past data _ _ (ptr + 6 + 9) 7 hd15 (by simp)
  rw [pyslice_head data (le16 w ++ le16 h) _ (ptr + 6 + 9 + 7) 4 hd22
    (by simp [le16])]
  rw [unpackHH_le w h hw hh]
  simp only [ok_bind]
  have hd26 : data.drop (ptr + 6 + 9 + 7 + 4) = px :=
    (by simpa using
      drop_past data _ _ (ptr + 6 + 9 + 7) 4 hd22 (by simp [le16]))
  have hslice : pyslice data (ptr + 6 + 9 + 7 + 4) (ptr + sz) = px := by
    unfold pyslice
    rw [hd26]
    exact List.take_of_length_le (by omega)
  rw [hslice]
  try rw [if_neg (show ¬((0 : Nat) = 1) by norm_num)]
  try rw [if_pos rfl]

theorem unpackFrameRec_gen (fsz m cnt dur b0 b1 nc : Nat)
    (hfs : fsz < 4294967296) (hm : m < 65536) (hcnt : cnt < 65536)
    (hdur : dur < 65536) :
    unpackFrameRec (le32 fsz ++ le16 m ++ le16 cnt ++ le16 dur ++
      [b0, b1] ++ le32 nc) =
    .ok { frame_size := fsz, magic := m, old_chunks := cnt,
          duration := dur, chunks := b0 } := by
  simp only [le32, le16, List.cons_append, List.nil_append, unpackFrameRec]
  rw [u32_le32 fsz hfs, u16_le16 m hm, u16_le16 cnt hcnt, u16_le16 dur hdur]

theorem read_file8with (nm : List Nat) (dec : List Nat → Option (List Nat))
    (pl : List Nat) (hpl : pl.length < 4294967000) :
    read_aseprite_file nm dec (file8with pl) = .ok (sprite8 nm) := by
  rw [read_aseprite_file]
  have hd0 : (file8with pl).drop 0 =
      (le32 (212 + pl.length) ++ hdr32Bytes (sprite8 [])) ++
      (List.replicate 92 0 ++
       ((le32 (84 + pl.length) ++ le16 0xF1FA ++ le16 3 ++ le16 10 ++
         [0, 0] ++ le32 0) ++
        (palChunkBytes [(9, 8, 7, 255)] ++
         (user8 pl ++ (cel8 ++ []))))) := by
    rw [List.drop_zero]
    simp [file8with, List.append_assoc]
  rw [pyslice_head2 (file8with pl) _ _ 0 36 hd0
    (by simp [le32, hdr32Bytes_length])]
  rw [unpackHeader_le (212 + pl.length) (sprite8 []) [(9, 8, 7, 255)]
    (by omega) rfl rfl (by norm_num [sprite8]) (by norm_num [sprite8])
    (by norm_num [sprite8]) (by norm_num [sprite8]) (by norm_num)]
  simp only [ok_bind]
  have hd128 : (file8with pl).drop 128 =
      (le32 (84 + pl.length) ++ le16 0xF1FA ++ le16 3 ++ le16 10 ++
       [0, 0] ++ le32 0) ++
      (palChunkBytes [(9, 8, 7, 255)] ++ (user8 pl ++ (cel8 ++ []))) := by
    have heq : file8with pl =
        (le32 (212 + pl.length) ++ hdr32Bytes (sprite8 []) ++
         List.replicate 92 0) ++
        ((le32 (84 + pl.length) ++ le16 0xF1FA ++ le16 3 ++ le16 10 ++
          [0, 0] ++ le32 0) ++
         (palChunkBytes [(9, 8, 7, 255)] ++ (user8 pl ++ (cel8 ++ [])))) := by
      simp [file8with, List.append_assoc]
    rw [heq, List.drop_left' (by simp [le32, hdr32Bytes_length])]
  rw [show (sprite8 []).frames.length = 0 + 1 from rfl]
  rw [readFrames]
  rw [pyslice_head (file8with pl) _ _ 128 16 hd128 (by simp [le32, le16])]
  rw [unpackFrameRec_le (84 + pl.length) 3 10 (by omega) (by norm_num)
    (by norm_num)]
  simp only [ok_bind]
  norm_num
  have hd144 : (file8with pl).drop (128 + 16) =
      palChunkBytes [(9, 8, 7, 255)] ++ (user8 pl ++ (cel8 ++ [])) :=
    drop_past (file8with pl) _ _ 128 16 hd128 (by simp [le32, le16])
  rw [show (3 : Nat) = 2 + 1 from rfl]
  rw [readChunks]
  rw [readChunk_palette dec [(9, 8, 7, 255)] (file8with pl)
    (user8 pl ++ (cel8 ++ [])) _ _ (128 + 16) hd144 (by norm_num)]
  simp only [ok_bind]
  norm_num
  have hd176 : (file8with pl).drop 176 = user8 pl ++ (cel8 ++ []) := by
    have := drop_past (file8with pl) _ _ (128 + 16)
      (26 + 6 * ([(9, 8, 7, 255)] : List (Nat × Nat × Nat × Nat)).length)
      hd144 (palChunkBytes_length [(9, 8, 7, 255)])
    simpa using this
  rw [show (2 : Nat) = 1 + 1 from rfl]
  rw [readChunks]
  have hd176' : (file8with pl).drop 176 =
      le32 (6 + pl.length) ++ le16 0x2020 ++ (pl ++ (cel8 ++ [])) := by
    rw [hd176]
    simp [user8, List.append_assoc]
  rw [readChunk_skip dec (6 + pl.length) 0x2020 (file8with pl)
    (pl ++ (cel8 ++ [])) _ _ 176 hd176' (by omega) (by norm_num)
    (by norm_num) (by norm_num) (by norm_num) (by norm_num)]
  simp only [ok_bind]
  rw [show (1 : Nat) = 0 + 1 from rfl]
  rw [readChunks]
  have hdcel : (file8with pl).drop (176 + (6 + pl.length)) = cel8 ++ [] := by
    have h1 : (file8with pl).drop 176 =
        (le32 (6 + pl.length) ++ le16 0x2020 ++ pl) ++ (cel8 ++ []) := by
      rw [hd176]; simp [user8, List.append_assoc]
    exact drop_past (file8with pl) _ _ 176 (6 + pl.length) h1
      (by simp [le32, le16]; omega)
  have hdcel' : (file8with pl).drop (176 + (6 + pl.length)) =
      le32 (26 + ([0, 1, 1, 0] : List Nat).length) ++ le16 0x2005 ++
      le16 0 ++ p16i 0 ++ p16i 0 ++ [255] ++ le16 0 ++
      List.replicate 7 0 ++ le16 2 ++ le16 2 ++
      (([0, 1, 1, 0] : List Nat) ++ []) := by
    rw [hdcel]; decide
  rw [readChunk_cel_raw dec 0 0 0 255 2 2 [0, 1, 1, 0] (file8with pl) []
    _ _ (176 + (6 + pl.length)) hdcel' (by norm_num) (by norm_num)
    (by norm_num) (by norm_num) (by norm_num) (by norm_num) (by norm_num)
    (by norm_num)]
  simp only [ok_bind]
  simp only [readChunks, readFrames, ok_bind]
  simp only [ok_bind, canonEntry, sprite8, f8cel, List.nil_append,
    List.map_cons, List.map_nil]

theorem read_file8without (nm : List Nat)
    (dec : List Nat → Option (List Nat)) :
    read_aseprite_file nm dec file8without = .ok (sprite8 nm) := by
  rw [read_aseprite_file]
  have hd0 : file8without.drop 0 =
      (le32 206 ++ hdr32Bytes (sprite8 [])) ++
      (List.replicate 92 0 ++
       ((le32 78 ++ le16 0xF1FA ++ le16 2 ++ le16 10 ++ [0, 0] ++ le32 0) ++
        (palChunkBytes [(9, 8, 7, 255)] ++ (cel8 ++ [])))) := by
    rw [List.drop_zero]
    simp [file8without, List.append_assoc]
  rw [pyslice_head2 file8without _ _ 0 36 hd0
    (by simp [le32, hdr32Bytes_length])]
  rw [unpackHeader_le 206 (sprite8 []) [(9, 8, 7, 255)]
    (by norm_num) rfl rfl (by norm_num [sprite8]) (by norm_num [sprite8])
    (by norm_num [sprite8]) (by norm_num [sprite8]) (by norm_num)]
  simp only [ok_bind]
  have hd128 : file8without.drop 128 =
      (le32 78 ++ le16 0xF1FA ++ le16 2 ++ le16 10 ++ [0, 0] ++ le32 0) ++
      (palChunkBytes [(9, 8, 7, 255)] ++ (cel8 ++ [])) := by
    have heq : file8without =
        (le32 206 ++ hdr32Bytes (sprite8 []) ++ List.replicate 92 0) ++
        ((le32 78 ++ le16 0xF1FA ++ le16 2 ++ le16 10 ++ [0, 0] ++
          le32 0) ++
         (palChunkBytes [(9, 8, 7, 255)] ++ (cel8 ++ []))) := by
      simp [file8without, List.append_assoc]
    rw [heq, List.drop_left' (by simp [le32, hdr32Bytes_length])]
  rw [show (sprite8 []).frames.length = 0 + 1 from rfl]
  rw [readFrames]
  rw [pyslice_head file8without _ _ 128 16 hd128 (by simp [le32, le16])]
  rw [unpackFrameRec_le 78 2 10 (by norm_num) (by norm_num) (by norm_num)]
  simp only [ok_bind]
  norm_num
  have hd144 : file8without.drop (128 + 16) =
      palChunkBytes [(9, 8, 7, 255)] ++ (cel8 ++ []) :=
    drop_past file8without _ _ 128 16 hd128 (by simp [le32, le16])
  rw [show (2 : Nat) = 1 + 1 from rfl]
  rw [readChunks]
  rw [readChunk_palette dec [(9, 8, 7, 255)] file8without (cel8 ++ [])
    _ _ (128 + 16) hd144 (by norm_num)]
  simp only [ok_bind]
  norm_num
  have hdcel : file8without.drop 176 = cel8 ++ [] := by
    have := drop_past file8without _ _ (128 + 16)
      (26 + 6 * ([(9, 8, 7, 255)] : List (Nat × Nat × Nat × Nat)).length)
      hd144 (palChunkBytes_length [(9, 8, 7, 255)])
    simpa using this
  rw [show (1 : Nat) = 0 + 1 from rfl]
  rw [readChunks]
  have hdcel' : file8without.drop 176 =
      le32 (26 + ([0, 1, 1, 0] : List Nat).length) ++ le16 0x2005 ++
      le16 0 ++ p16i 0 ++ p16i 0 ++ [255] ++ le16 0 ++
      List.replicate 7 0 ++ le16 2 ++ le16 2 ++
      (([0, 1, 1, 0] : List Nat) ++ []) := by
    rw [hdcel]; decide
  rw [readChunk_cel_raw dec 0 0 0 255 2 2 [0, 1, 1, 0] file8without []
    _ _ 176 hdcel' (by norm_num) (by norm_num) (by norm_num) (by norm_num)
    (by norm_num) (by norm_num) (by norm_num) (by norm_num)]
  simp only [ok_bind]
  simp only [readChunks, readFrames, ok_bind]
  simp only [ok_bind, canonEntry, sprite8, f8cel, List.nil_append,
    List.map_cons, List.map_nil]

/-! ## The claims -/

/-- C1: For every Sprite s built only from supported features — here:
indexed color mode, a nonempty in-range palette, ASCII names, in-range
numeric fields and at least one frame — the sprite obtained by one
encode-then-decode pass is a fixed point of that composition:
`decode(encode(s))` equals `decode(encode(decode(encode(s))))`. -/
theorem claim_C1_round_trip_fixed_point (nm : List Nat)
    (dec : List Nat → Option (List Nat)) (compress : List Nat → List Nat)
    (s : Sprite) (hzlib : ∀ x, dec (compress x) = some x)
    (hg : goodSprite s = true)
    (hfit : 128 + (framesBytes compress s true s.frames).length ≤ 102400) :
    (roundTrip nm dec compress s >>= roundTrip nm dec compress) =
      roundTrip nm dec compress s := by
  have hgs := goodSprite_sound s hg
  rw [roundTrip_spec nm dec compress s hzlib hgs hfit]
  simp only [ok_bind]
  exact roundTrip_canon nm dec compress s hzlib hgs hfit

set_option maxRecDepth 100000 in
/-- C1 witness: the fixed-point equation holds at the concrete sprite
`sGood`, with the identity compression pair. -/
theorem claim_C1_witness :
    goodSprite sGood = true ∧
    (roundTrip [] some (fun x => x) sGood >>=
      roundTrip [] some (fun x => x)) =
      roundTrip [] some (fun x => x) sGood :=
  ⟨by decide, claim_C1_round_trip_fixed_point [] some (fun x => x) sGood
    (fun x => rfl) (by decide) (by decide)⟩

set_option maxRecDepth 100000 in
/-- C1 counterexample: `sRGBA` is an rgba-mode sprite — a supported color
mode — whose first round trip succeeds but drops the palette key, so the
second encode fails with `KeyError` and the fixed-point equation is
false. -/
theorem claim_C1_counterexample :
    (roundTrip [] some (fun x => x) sRGBA >>=
      roundTrip [] some (fun x => x)) ≠
      roundTrip [] some (fun x => x) sRGBA := by decide

/-- C2: For a valid indexed sprite, the palette survives one round trip
with the same entry count and order and identical r, g, b channels, but
every alpha is replaced by 255 (`canonEntry`): the original claim of
identical alpha values fails. -/
theorem claim_C2_palette_round_trip (nm : List Nat)
    (dec : List Nat → Option (List Nat)) (compress : List Nat → List Nat)
    (s : Sprite) (pal : List (Nat × Nat × Nat × Nat))
    (hzlib : ∀ x, dec (compress x) = some x)
    (hg : goodSprite s = true)
    (hfit : 128 + (framesBytes compress s true s.frames).length ≤ 102400)
    (hpal : s.palette = some pal) :
    ∃ s2, roundTrip nm dec compress s = .ok s2 ∧
      s2.palette = some (pal.map canonEntry) := by
  have hgs := goodSprite_sound s hg
  refine ⟨canon nm s, roundTrip_spec nm dec compress s hzlib hgs hfit, ?_⟩
  simp [canon, hpal]

set_option maxRecDepth 100000 in
/-- C2 witness: at `sGood` (palette `[(1,2,3,4)]`) the round trip returns
a sprite whose palette is `[(1,2,3,255)]`. -/
theorem claim_C2_witness :
    goodSprite sGood = true ∧
    ∃ s2, roundTrip [] some (fun x => x) sGood = .ok s2 ∧
      s2.palette = some (([(1, 2, 3, 4)] :
        List (Nat × Nat × Nat × Nat)).map canonEntry) :=
  ⟨by decide, claim_C2_palette_round_trip [] some (fun x => x) sGood
    [(1, 2, 3, 4)] (fun x => rfl) (by decide) (by decide) rfl⟩

set_option maxRecDepth 100000 in
/-- C2 counterexample: the entry `(1,2,3,4)` comes back as `(1,2,3,255)`:
the alpha value does not survive, refuting "identical r, g, b and a
values in every entry". -/
theorem claim_C2_counterexample :
    roundTrip [] some (fun x => x) sGood = .ok (canon [] sGood) ∧
    (canon [] sGood).palette ≠ sGood.palette := by decide

/-- C3: the code bug behind the chunk count.  On the 16-byte frame record
`rec16Bad` — old count 1, reserved bytes 0, 32-bit new count 2 at offset
12 — the code's parse (`unpackFrameRec`, which takes `fheader[4]`, the
reserved byte at offset 10, as the new count) yields an effective chunk
count of 1, while parsing the record as the spec describes
(`specFrameRec`, 32-bit field at offset 12) yields 2. -/
theorem claim_C3_chunk_count_divergence :
    unpackFrameRec rec16Bad =
      .ok { frame_size := 16, magic := 0xF1FA, old_chunks := 1,
            duration := 100, chunks := 0 } ∧
    specFrameRec rec16Bad =
      .ok { frame_size := 16, magic := 0xF1FA, old_chunks := 1,
            duration := 100, chunks := 2 } ∧
    effChunks { frame_size := 16, magic := 0xF1FA, old_chunks := 1,
                duration := 100, chunks := 0 } = 1 ∧
    effChunks { frame_size := 16, magic := 0xF1FA, old_chunks := 1,
                duration := 100, chunks := 2 } = 2 :=
  ⟨rfl, rfl, rfl, rfl⟩

/-- C4: a CEL chunk whose sub-type is none of 0, 1, 2 does NOT abort the
decode: the scanner takes no branch, appends the partially populated cel
(layer, x, y, opacity only; no dimensions, pixels or link) to the frame
and continues at the chunk's declared end.  This corrects the claim that
decode fails with `UnsupportedCelType`. -/
theorem claim_C4_unknown_cel_partial (dec : List Nat → Option (List Nat))
    (sz ly : Nat) (x y : Int) (op ct : Nat) (data rest : List Nat)
    (sp : Sprite) (fr : Frame) (ptr : Nat)
    (hd : data.drop ptr = le32 sz ++ le16 0x2005 ++ le16 ly ++
      p16i x ++ p16i y ++ [op] ++ le16 ct ++ rest)
    (hsz : sz < 4294967296) (hly : ly < 65536)
    (hx1 : -32768 ≤ x) (hx2 : x < 32768) (hy1 : -32768 ≤ y) (hy2 : y < 32768)
    (hct : ct < 65536) (hct0 : ct ≠ 0) (hct1 : ct ≠ 1) (hct2 : ct ≠ 2) :
    readChunk dec data sp fr ptr =
      .ok (sp, { fr with cels := fr.cels ++
             [{ layer := ly, x := x, y := y, opacity := op, w := none,
                h := none, pixels := none, linked := none }] },
           ptr + sz) :=
  readChunk_cel_unknown dec sz ly x y op ct data rest sp fr ptr hd hsz hly
    hx1 hx2 hy1 hy2 hct hct0 hct1 hct2

set_option maxRecDepth 10000 in
/-- C4 witness: the sub-type-3 cel chunk of `file4` is consumed without
error and yields the partial cel. -/
theorem claim_C4_witness :
    file4.drop 144 = le32 22 ++ le16 0x2005 ++ le16 0 ++ p16i 1 ++
      p16i 2 ++ [255] ++ le16 3 ++ [] ∧
    readChunk (fun _ => none) file4 sprite5 { duration := 10, cels := [] }
      144 =
      .ok (sprite5,
           { duration := 10,
             cels := [{ layer := 0, x := 1, y := 2, opacity := 255,
                        w := none, h := none, pixels := none,
                        linked := none }] },
           144 + 22) :=
  ⟨by decide, claim_C4_unknown_cel_partial (fun _ => none) 22 0 1 2 255 3
    file4 [] sprite5 { duration := 10, cels := [] } 144 (by decide)
    (by norm_num) (by norm_num) (by norm_num) (by norm_num) (by norm_num)
    (by norm_num) (by norm_num) (by norm_num) (by norm_num) (by norm_num)⟩

set_option maxRecDepth 10000 in
/-- C4 counterexample: decoding the whole of `file4` (one frame, one
sub-type-3 cel chunk) succeeds and returns the partial cel — the decode
is not aborted and no `UnsupportedCelType` failure exists. -/
theorem claim_C4_counterexample :
    read_aseprite_file [] (fun _ => none) file4 = .ok sprite4 := by decide

/-- C5: what magic validation the decoder actually performs.  A frame
record whose magic differs from 0xF1FA makes the decode abort with an
assertion failure (`assert(magic == 0xF1FA)`, an unrecoverable
`AssertionError` crash), not a descriptive `FormatError` value; the
128-byte file header's magic is never checked at all (see the
counterexample). -/
theorem claim_C5_frame_magic_asserts (dec : List Nat → Option (List Nat))
    (data : List Nat) (fsz m cnt dur b0 b1 nc : Nat) (rest : List Nat)
    (sp : Sprite) (ptr n : Nat)
    (hd : data.drop ptr = le32 fsz ++ le16 m ++ le16 cnt ++ le16 dur ++
      [b0, b1] ++ le32 nc ++ rest)
    (hfs : fsz < 4294967296) (hm16 : m < 65536) (hcnt : cnt < 65536)
    (hdur : dur < 65536) (hm : m ≠ 0xF1FA) :
    readFrames dec data (n + 1) sp ptr = .error .assertError := by
  rw [readFrames]
  rw [pyslice_head data
    (le32 fsz ++ le16 m ++ le16 cnt ++ le16 dur ++ [b0, b1] ++ le32 nc) _
    ptr 16 hd (by simp [le32, le16])]
  rw [unpackFrameRec_gen fsz m cnt dur b0 b1 nc hfs hm16 hcnt hdur]
  simp only [ok_bind]
  rw [if_neg hm]

/-- C5 witness: a frame record with magic 0 aborts with the assertion
error. -/
theorem claim_C5_witness :
    (le32 16 ++ le16 0 ++ le16 0 ++ le16 0 ++ [0, 0] ++ le32 0 ++
      ([] : List Nat)).drop 0 =
      le32 16 ++ le16 0 ++ le16 0 ++ le16 0 ++ [0, 0] ++ le32 0 ++ [] ∧
    readFrames (fun _ => none)
      (le32 16 ++ le16 0 ++ le16 0 ++ le16 0 ++ [0, 0] ++ le32 0 ++ [])
      (0 + 1) sprite5 0 = .error .assertError :=
  ⟨by decide, claim_C5_frame_magic_asserts (fun _ => none)
    (le32 16 ++ le16 0 ++ le16 0 ++ le16 0 ++ [0, 0] ++ le32 0 ++ [])
    16 0 0 0 0 0 0 [] sprite5 0 0 (by decide) (by norm_num) (by norm_num)
    (by norm_num) (by norm_num) (by norm_num)⟩

set_option maxRecDepth 10000 in
/-- C5 counterexample: `file5` carries header magic 0x1234 instead of
0xA5E0, yet decodes successfully — the header magic mismatch is never
detected, refuting "decode fails ... whenever the 128-byte file header's
magic number mismatches 0xA5E0". -/
theorem claim_C5_counterexample :
    read_aseprite_file [] (fun _ => none) file5 = .ok sprite5 := by decide

/-- C6: the decoder performs no length validation on decompressed cel
data: whatever byte list decompression returns — here `px2` with
`px2.length ≠ w * h`, the wrong size for an indexed `w`×`h` cel — is
stored as the cel's pixels and the decode succeeds, returning mis-sized
pixel data. -/
theorem claim_C6_no_length_validation (dec : List Nat → Option (List Nat))
    (ly : Nat) (x y : Int) (op w h : Nat) (comp px2 : List Nat)
    (data rest : List Nat) (sp : Sprite) (fr : Frame) (ptr : Nat)
    (hd : data.drop ptr = le32 (26 + comp.length) ++ le16 0x2005 ++
      le16 ly ++ p16i x ++ p16i y ++ [op] ++ le16 2 ++
      List.replicate 7 0 ++ le16 w ++ le16 h ++ (comp ++ rest))
    (hly : ly < 65536) (hx1 : -32768 ≤ x) (hx2 : x < 32768)
    (hy1 : -32768 ≤ y) (hy2 : y < 32768) (hw : w < 65536) (hh : h < 65536)
    (hsz : 26 + comp.length < 4294967296)
    (hdec : dec comp = some px2) (hbad : px2.length ≠ w * h) :
    readChunk dec data sp fr ptr =
      .ok (sp, { fr with cels := fr.cels ++
             [{ layer := ly, x := x, y := y, opacity := op, w := some w,
                h := some h, pixels := some px2, linked := none }] },
           ptr + (26 + comp.length)) :=
  readChunk_cel_unchecked dec ly x y op w h comp px2 data rest sp fr ptr
    hd hly hx1 hx2 hy1 hy2 hw hh hsz hdec

set_option maxRecDepth 10000 in
/-- C6 witness: the compressed cel chunk of `file6` declares a 2×2 cel;
decompression returning the three bytes `[7,7,7]` is accepted as its
pixel data. -/
theorem claim_C6_witness :
    ([7, 7, 7] : List Nat).length ≠ 2 * 2 ∧
    readChunk (fun _ => some [7, 7, 7]) file6 sprite5
      { duration := 10, cels := [] } 144 =
      .ok (sprite5,
           { duration := 10,
             cels := [{ layer := 0, x := 0, y := 0, opacity := 255,
                        w := some 2, h := some 2,
                        pixels := some [7, 7, 7], linked := none }] },
           144 + (26 + ([9] : List Nat).length)) :=
  ⟨by decide, claim_C6_no_length_validation (fun _ => some [7, 7, 7])
    0 0 0 255 2 2 [9] [7, 7, 7] file6 [] sprite5
    { duration := 10, cels := [] } 144 (by decide) (by norm_num)
    (by norm_num) (by norm_num) (by norm_num) (by norm_num) (by norm_num)
    (by norm_num) (by norm_num) rfl (by decide)⟩

set_option maxRecDepth 10000 in
/-- C6 counterexample: decoding `file6` with a decompressor yielding the
mis-sized `[7,7,7]` for the declared 2×2 cel succeeds and returns the
mis-sized data — no `DecompressionError` on a length mismatch. -/
theorem claim_C6_counterexample :
    read_aseprite_file [] (fun _ => some [7, 7, 7]) file6 =
      .ok sprite6 := by decide

/-- C7: the scanner performs no bounds validation.  A raw cel chunk whose
declared size `sz` extends past the end of the buffer is decoded
successfully: the clamped slice silently yields the truncated pixel
bytes `px` (fewer than declared) as if they were valid, and the computed
end offset `ptr + sz` exceeds the buffer length. -/
theorem claim_C7_end_offset_overflow (dec : List Nat → Option (List Nat))
    (sz ly : Nat) (x y : Int) (op : Nat) (w h : Nat) (px : List Nat)
    (data : List Nat) (sp : Sprite) (fr : Frame) (ptr : Nat)
    (hd : data.drop ptr = le32 sz ++ le16 0x2005 ++ le16 ly ++
      p16i x ++ p16i y ++ [op] ++ le16 0 ++ List.replicate 7 0 ++ le16 w ++
      le16 h ++ px)
    (hly : ly < 65536) (hx1 : -32768 ≤ x) (hx2 : x < 32768)
    (hy1 : -32768 ≤ y) (hy2 : y < 32768) (hw : w < 65536) (hh : h < 65536)
    (hsz : sz < 4294967296) (htrunc : 26 + px.length < sz) :
    readChunk dec data sp fr ptr =
      .ok (sp, { fr with cels := fr.cels ++
             [{ layer := ly, x := x, y := y, opacity := op, w := some w,
                h := some h, pixels := some px, linked := none }] },
           ptr + sz) ∧
    data.length < ptr + sz := by
  constructor
  · exact readChunk_cel_raw_truncated dec sz ly x y op w h px data sp fr
      ptr hd hly hx1 hx2 hy1 hy2 hw hh hsz htrunc
  · have h1 := congrArg List.length hd
    simp only [List.length_drop, List.length_append, le32_length,
      le16_length, p16i_length, List.length_cons, List.length_nil,
      List.length_replicate] at h1
    omega

set_option maxRecDepth 10000 in
/-- C7 witness: the cel chunk of `file7` declares 30 bytes; the buffer
ends two pixel bytes early, and the scanner accepts the truncated
`[5, 6]` with its end offset 174 beyond the 172-byte file. -/
theorem claim_C7_witness :
    26 + ([5, 6] : List Nat).length < 30 ∧
    (readChunk (fun _ => none) file7 sprite5 { duration := 10, cels := [] }
      144 =
      .ok (sprite5,
           { duration := 10,
             cels := [{ layer := 0, x := 0, y := 0, opacity := 255,
                        w := some 2, h := some 2, pixels := some [5, 6],
                        linked := none }] },
           144 + 30) ∧
     file7.length < 144 + 30) :=
  ⟨by decide, claim_C7_end_offset_overflow (fun _ => none) 30 0 0 0 255
    2 2 [5, 6] file7 sprite5 { duration := 10, cels := [] } 144 (by decide)
    (by norm_num) (by norm_num) (by norm_num) (by norm_num) (by norm_num)
    (by norm_num) (by norm_num) (by norm_num) (by norm_num)⟩

set_option maxRecDepth 10000 in
/-- C7 counterexample: decoding all of `file7` — whose cel chunk claims
bytes beyond the buffer — succeeds with truncated pixel data instead of
failing with `TruncatedData`. -/
theorem claim_C7_counterexample :
    read_aseprite_file [] (fun _ => none) file7 = .ok sprite7 := by decide

/-- C8: a frame holding, in order, a PALETTE chunk, one USER (0x2020)
chunk with an arbitrary payload `pl`, and a CEL chunk decodes
successfully, and the decoded sprite — cel data included — is identical
to decoding the same frame without the USER chunk: the unknown-chunk
skip advances to the chunk's declared end and never desynchronizes
subsequent parsing. -/
theorem claim_C8_user_chunk_skip (nm : List Nat)
    (dec : List Nat → Option (List Nat)) (pl : List Nat)
    (hpl : pl.length < 4294967000) :
    read_aseprite_file nm dec (file8with pl) = .ok (sprite8 nm) ∧
    read_aseprite_file nm dec file8without = .ok (sprite8 nm) :=
  ⟨read_file8with nm dec pl hpl, read_file8without nm dec⟩

/-- C8 witness: with payload `[1, 2, 3]`, both files decode to the same
sprite. -/
theorem claim_C8_witness :
    ([1, 2, 3] : List Nat).length < 4294967000 ∧
    (read_aseprite_file [5] (fun _ => none) (file8with [1, 2, 3]) =
      .ok (sprite8 [5]) ∧
     read_aseprite_file [5] (fun _ => none) file8without =
      .ok (sprite8 [5])) :=
  ⟨by norm_num,
   claim_C8_user_chunk_skip [5] (fun _ => none) [1, 2, 3] (by norm_num)⟩

/-- C9: the encoder reads the sprite's palette unconditionally while
filling the header's palette-size field, before any chunk is emitted: a
sprite in rgba color mode with no palette sequence makes encode fail
with `KeyError` instead of producing bytes, even though a palette chunk
would only be emitted for indexed sprites. -/
theorem claim_C9_palette_required (compress : List Nat → List Nat)
    (s : Sprite) (hrgba : s.indexed = false) (hpal : s.palette = none) :
    write_aseprite_file compress s = .error .keyError := by
  unfold write_aseprite_file
  rw [hpal]
  rfl

/-- C9 witness: an rgba sprite without a palette makes encode fail. -/
theorem claim_C9_witness :
    ({ sRGBA with palette := none } : Sprite).indexed = false ∧
    write_aseprite_file (fun x => x) { sRGBA with palette := none } =
      .error .keyError :=
  ⟨rfl, claim_C9_palette_required (fun x => x)
    { sRGBA with palette := none } rfl rfl⟩

/-- C10: layer and tag names survive one round trip when the sprite is
valid, which requires every name to be pure ASCII (UTF-8 byte length
equal to character count); the decoded sprite carries the layer list and
the tag field unchanged.  The counterexample shows what actually happens
for a multi-byte name: truncation inside a still-consistent stream, not
a desynchronized chunk. -/
theorem claim_C10_ascii_names_survive (nm : List Nat)
    (dec : List Nat → Option (List Nat)) (compress : List Nat → List Nat)
    (s : Sprite) (ls : List Layer)
    (hzlib : ∀ x, dec (compress x) = some x)
    (hg : goodSprite s = true)
    (hfit : 128 + (framesBytes compress s true s.frames).length ≤ 102400)
    (hls : s.layers = some ls) :
    ∃ s2, roundTrip nm dec compress s = .ok s2 ∧ s2.layers = some ls ∧
      s2.tags = s.tags := by
  have hgs := goodSprite_sound s hg
  refine ⟨canon nm s, roundTrip_spec nm dec compress s hzlib hgs hfit, ?_, rfl⟩
  simp [canon, hls]

set_option maxRecDepth 100000 in
/-- C10 witness: the ASCII layer name `[98, 103]` ("bg") and the tag of
`sGood` survive the round trip unchanged. -/
theorem claim_C10_witness :
    goodSprite sGood = true ∧
    ∃ s2, roundTrip [] some (fun x => x) sGood = .ok s2 ∧
      s2.layers = some [{ flags := 3, type := 0, child_level := 0,
                          blend_mode := 0, opacity := 255,
                          name := [98, 103] }] ∧
      s2.tags = sGood.tags :=
  ⟨by decide, claim_C10_ascii_names_survive [] some (fun x => x) sGood
    [{ flags := 3, type := 0, child_level := 0, blend_mode := 0,
       opacity := 255, name := [98, 103] }]
    (fun x => rfl) (by decide) (by decide) rfl⟩

set_option maxRecDepth 100000 in
/-- C10 counterexample: the layer name `[233, 97]` (two characters,
three UTF-8 bytes) does NOT desynchronize the emitted chunk: the round
trip decodes successfully, with the cel after the layer chunk intact,
but the name comes back truncated to `[233]` — the write inserted the
UTF-8 bytes and advanced by the character count, so the stream stays
internally consistent while the name loses its tail. -/
theorem claim_C10_counterexample :
    roundTrip [] some (fun x => x) sNonAscii = .ok sNonAsciiRead ∧
    sNonAsciiRead.layers ≠ sNonAscii.layers := by decide

end Aseprite
